import Mathlib

/-! ADXL345 register-level driver: register access, configuration functions,
sample acquisition and interrupt dispatch.

A shallow embedding of `src/ADXL345.c` (with the types of `src/ADXL345.h`).

* The transport function pointers of the handle are functions over an explicit
  world state `σ`; every driver function threads that state.
* `uint8_t` values are naturals below 256, C `int` values are integers, and every
  narrowing conversion is an explicit wrap-around.
* Bit-fields of width `n` are `Fin (2 ^ n)`; one-bit `uint8_t` flags are `Bool`.
* Automatic variables that the C code leaves uninitialised are explicit inputs
  (their indeterminate prior content).
* `float` values of the sample conversion are modelled by exact rationals: the
  constant `0.0039f` is the rational `39 / 10000`, and a product is the exact
  product. The unit-conversion macros of the header are modelled in binary32
  arithmetic, every operation rounded (type `Binary32`).
* The `while` loop of `ADXL345_WriteRegs` runs under an iteration bound and
  returns `none` when the bound is reached; `WriteRegs_eq` shows that this never
  happens.
* The functions are translated a second time on the structure behind the
  `Handler` pointer as part of the state (namespace `InMemory`), for the
  properties of the handle itself; `call_agrees` shows that the two
  translations give the same results.
-/

namespace ADXL345

/-! ## Machine integers -/

/-- Conversion of a C `int` to `int16_t`: two's-complement wrap-around. -/
def toInt16 (x : Int) : Int :=
  if x % 65536 < 32768 then x % 65536 else x % 65536 - 65536

/-- The 32-bit two's-complement bit pattern of a C `int`. -/
def intBits (x : Int) : Nat := (x % 4294967296).toNat

/-- The C `int` denoted by a 32-bit two's-complement bit pattern. -/
def ofIntBits (n : Nat) : Int :=
  if n % 4294967296 < 2147483648 then ((n % 4294967296 : Nat) : Int)
  else ((n % 4294967296 : Nat) : Int) - 4294967296

/-- Bitwise OR of two C `int` values. -/
def intOr (a b : Int) : Int := ofIntBits (intBits a ||| intBits b)

/-- Bitwise AND of two C `int` values. -/
def intAnd (a b : Int) : Int := ofIntBits (intBits a &&& intBits b)

/-- The private macro `MIN(a, b) (((a) < (b)) ? (a) : (b))`. -/
def MIN (a b : Nat) : Nat := if a < b then a else b

/-! ## Constants of `ADXL345.c` and `ADXL345.h` -/

def ADXL345_I2C_ADDRESS_A : Nat := 0x53
def ADXL345_I2C_ADDRESS_B : Nat := 0x1D

def ADXL345_REG_DEVID : Nat := 0x00
def ADXL345_REG_INT_SOURCE : Nat := 0x30
def ADXL345_REG_DATA_FORMAT : Nat := 0x31
def ADXL345_REG_DATAX0 : Nat := 0x32
def ADXL345_REG_FIFO_CTL : Nat := 0x38
def ADXL345_REG_FIFO_STATUS : Nat := 0x39

def ADXL345_DEVICE_ID : Nat := 0xE5

/-- Library functions result data type `ADXL345_Result_t`. -/
inductive ADXL345_Result_t where
  | ADXL345_OK
  | ADXL345_FAIL
  | ADXL345_INVALID_PARAM
  deriving DecidableEq

open ADXL345_Result_t

def ADXL345_RANGE_2G : Fin 4 := 0
def ADXL345_RANGE_4G : Fin 4 := 1
def ADXL345_RANGE_8G : Fin 4 := 2
def ADXL345_RANGE_16G : Fin 4 := 3

def ADXL345_MODE_BYPASS : Fin 4 := 0
def ADXL345_MODE_FIFO : Fin 4 := 1
def ADXL345_MODE_STREAM : Fin 4 := 2
def ADXL345_MODE_TRIGGER : Fin 4 := 3

/-- Data format record `ADXL345_DataFormat_t`: `Range : 2`, `JustifyLeft : 1`,
`FullResolution : 1`. -/
structure ADXL345_DataFormat_t where
  Range : Fin 4
  JustifyLeft : Bool
  FullResolution : Bool
  deriving DecidableEq

/-- FIFO configuration record `ADXL345_FifoConfig_t`: `WatermarkSamples : 5`,
`Trigger : 1`, `Mode : 2`. -/
structure ADXL345_FifoConfig_t where
  WatermarkSamples : Fin 32
  Trigger : Fin 2
  Mode : Fin 4
  deriving DecidableEq

/-- FIFO status record `ADXL345_FifoStatus_t`: `Entries : 6`, `Reserved : 1`,
`Trigger : 1`. -/
structure ADXL345_FifoStatus_t where
  Entries : Fin 64
  Reserved : Bool
  Trigger : Bool
  deriving DecidableEq

/-- Sample record `ADXL345_Sample_t`: three `int16_t` raw readings and three
`float` accelerations in g (exact rationals here). -/
structure ADXL345_Sample_t where
  RawX : Int
  RawY : Int
  RawZ : Int
  AccelX : ℚ
  AccelY : ℚ
  AccelZ : ℚ
  deriving DecidableEq

/-- Handle `ADXL345_Handler_t` with its four transport pointers non-null (the
structure with nullable pointers is `ADXL345_Handler_s` below). A transport
function takes the world state and
returns its `int8_t` status (0 is success) with the new world state.
`PlatformI2CSend` gets the bus address and the `Len` bytes of `Data`;
`PlatformI2CReceive` gets the bus address and `Len`, and returns the bytes it
stores at `Data[0]`, `Data[1]`, ...; the callback may be absent (`NULL`). -/
structure ADXL345_Handler_t (σ : Type) where
  AddressI2C : Nat
  PlatformI2CInit : σ → Int × σ
  PlatformI2CDeInit : σ → Int × σ
  PlatformI2CSend : σ → Nat → List Nat → Int × σ
  PlatformI2CReceive : σ → Nat → Nat → Int × List Nat × σ
  InterruptCallback : Option (σ → Nat → Int × σ)

/-! ## Register access layer -/

/-- Content of a byte buffer `Data` after a receive of `Len` bytes delivered
`bytes`: positions below `Len` that the transport filled hold the delivered
byte, every other position keeps its content. -/
def storeBytes (Data : Nat → Nat) (bytes : List Nat) (Len : Nat) : Nat → Nat :=
  fun k => if k < Len then (match bytes[k]? with
                            | some b => b % 256
                            | none => Data k) else Data k

/-- The static function `ADXL345_ReadRegs`: a one-byte send of the start register,
then a receive of `BytesCount` bytes into `Data`. -/
def ADXL345_ReadRegs {σ : Type} (Handler : ADXL345_Handler_t σ) (w : σ)
    (StartReg : Nat) (Data : Nat → Nat) (BytesCount : Nat) :
    ADXL345_Result_t × (Nat → Nat) × σ :=
  let s := Handler.PlatformI2CSend w Handler.AddressI2C [StartReg]
  if s.1 ≠ 0 then (ADXL345_FAIL, Data, s.2)
  else
    let r := Handler.PlatformI2CReceive s.2 Handler.AddressI2C BytesCount
    if r.1 ≠ 0 then (ADXL345_FAIL, storeBytes Data r.2.1 BytesCount, r.2.2)
    else (ADXL345_OK, storeBytes Data r.2.1 BytesCount, r.2.2)

/-! ## Configuration getters used by the sample pipeline -/

/-- The function `ADXL345_Get_DataFormat`. `DataFormat` is the prior content of the
caller's record: the function assigns `Range`, and assigns 1 to `JustifyLeft`
and `FullResolution` when their register bit is set; it never clears them. -/
def ADXL345_Get_DataFormat {σ : Type} (Handler : ADXL345_Handler_t σ) (w : σ)
    (DataFormat : ADXL345_DataFormat_t) :
    ADXL345_Result_t × ADXL345_DataFormat_t × σ :=
  let r := ADXL345_ReadRegs Handler w ADXL345_REG_DATA_FORMAT (fun _ => 0) 1
  if r.1 ≠ ADXL345_OK then (ADXL345_FAIL, DataFormat, r.2.2)
  else
    let Reg := r.2.1 0
    let DataFormat := { DataFormat with Range := Fin.ofNat (Reg &&& 0x03) }
    let DataFormat :=
      if Reg &&& 0x04 ≠ 0 then { DataFormat with JustifyLeft := true } else DataFormat
    let DataFormat :=
      if Reg &&& 0x08 ≠ 0 then { DataFormat with FullResolution := true } else DataFormat
    (ADXL345_OK, DataFormat, r.2.2)

/-- The function `ADXL345_Get_FifoConfig`. `Config` is the prior content of the
caller's record, kept when the read fails (the `memset` comes after the read). -/
def ADXL345_Get_FifoConfig {σ : Type} (Handler : ADXL345_Handler_t σ) (w : σ)
    (Config : ADXL345_FifoConfig_t) :
    ADXL345_Result_t × ADXL345_FifoConfig_t × σ :=
  let r := ADXL345_ReadRegs Handler w ADXL345_REG_FIFO_CTL (fun _ => 0) 1
  if r.1 ≠ ADXL345_OK then (ADXL345_FAIL, Config, r.2.2)
  else
    let Reg := r.2.1 0
    let Config : ADXL345_FifoConfig_t := ⟨0, 0, 0⟩
    let Config := { Config with WatermarkSamples := Fin.ofNat (Reg &&& 0x1F) }
    let Config := if Reg &&& 0x20 ≠ 0 then { Config with Trigger := 1 } else Config
    let Config := { Config with Mode := Fin.ofNat (Reg >>> 6) }
    (ADXL345_OK, Config, r.2.2)

/-- The function `ADXL345_Get_FifoStatus`. `Status` is the prior content of the
caller's record, kept when the read fails. -/
def ADXL345_Get_FifoStatus {σ : Type} (Handler : ADXL345_Handler_t σ) (w : σ)
    (Status : ADXL345_FifoStatus_t) :
    ADXL345_Result_t × ADXL345_FifoStatus_t × σ :=
  let r := ADXL345_ReadRegs Handler w ADXL345_REG_FIFO_STATUS (fun _ => 0) 1
  if r.1 ≠ ADXL345_OK then (ADXL345_FAIL, Status, r.2.2)
  else
    let Reg := r.2.1 0
    let Status : ADXL345_FifoStatus_t := ⟨0, false, false⟩
    let Status := { Status with Entries := Fin.ofNat (Reg &&& 0x3F) }
    let Status := if Reg &&& 0x80 ≠ 0 then { Status with Trigger := true } else Status
    (ADXL345_OK, Status, r.2.2)

/-! ## Sample pipeline -/

/-- The statement pattern
`Raw = (Raw & 0x80) | ((Raw & 0x7F) >> Shift)` of the `JustifyLeft` branches,
on an `int16_t` field. -/
def justifyRaw (Raw : Int) (Shift : Nat) : Int :=
  toInt16 (intOr (intAnd Raw 0x80) ((intAnd Raw 0x7F) >>> Shift))

/-- The expression `(int16_t)(Buffer[hi] << 8) | Buffer[lo]` stored into an
`int16_t` field; a load from the `uint8_t` array yields a value below 256. -/
def assembleRaw (Buffer : Nat → Nat) (hi lo : Nat) : Int :=
  toInt16 (intOr (toInt16 ((((Buffer hi % 256) <<< 8 : Nat) : Int)))
    ((Buffer lo % 256 : Nat) : Int))

/-- The body of the `for` loop of `ADXL345_ReadSamples` at index `i`: the sample
stored at `Samples[i]` and the value of the local `Factor` after the
iteration (`Factor` is its value before). -/
def ADXL345_ReadSamples_body (DataFormat : ADXL345_DataFormat_t) (Buffer : Nat → Nat)
    (Factor : ℚ) (i : Nat) : ADXL345_Sample_t × ℚ :=
  let RawX := assembleRaw Buffer (1 + i * 6) (0 + i * 6)
  let RawY := assembleRaw Buffer (3 + i * 6) (2 + i * 6)
  let RawZ := assembleRaw Buffer (5 + i * 6) (4 + i * 6)
  if DataFormat.FullResolution then
    let Shift := 6 - DataFormat.Range.val
    let RawX := if DataFormat.JustifyLeft then justifyRaw RawX Shift else RawX
    let RawY := if DataFormat.JustifyLeft then justifyRaw RawY Shift else RawY
    let RawZ := if DataFormat.JustifyLeft then justifyRaw RawZ Shift else RawZ
    let Factor : ℚ := 4 / 1000
    (⟨RawX, RawY, RawZ, (RawX : ℚ) * Factor, (RawY : ℚ) * Factor, (RawZ : ℚ) * Factor⟩,
      Factor)
  else
    let RawX := if DataFormat.JustifyLeft then justifyRaw RawX 6 else RawX
    let RawY := if DataFormat.JustifyLeft then justifyRaw RawY 6 else RawY
    let RawZ := if DataFormat.JustifyLeft then justifyRaw RawZ 6 else RawZ
    let Factor : ℚ :=
      if DataFormat.Range = ADXL345_RANGE_2G then 39 / 10000
      else if DataFormat.Range = ADXL345_RANGE_4G then 78 / 10000
      else if DataFormat.Range = ADXL345_RANGE_8G then 156 / 10000
      else if DataFormat.Range = ADXL345_RANGE_16G then 312 / 10000
      else Factor
    (⟨RawX, RawY, RawZ, (RawX : ℚ) * Factor, (RawY : ℚ) * Factor, (RawZ : ℚ) * Factor⟩,
      Factor)

/-- The `for (uint8_t i = 0; i < *ReadSamples; i++)` loop from index `i` with
`n` iterations left: the samples stored at `Samples[i]`, `Samples[i+1]`, ... -/
def ADXL345_ReadSamples_loop (DataFormat : ADXL345_DataFormat_t) (Buffer : Nat → Nat) :
    Nat → Nat → ℚ → List ADXL345_Sample_t
  | 0, _, _ => []
  | n + 1, i, Factor =>
    let r := ADXL345_ReadSamples_body DataFormat Buffer Factor i
    r.1 :: ADXL345_ReadSamples_loop DataFormat Buffer n (i + 1) r.2

/-- Indeterminate prior content of the automatic variables of
`ADXL345_ReadSamples` (`Buffer[k]` for `k ≥ 192` stands for the memory that
follows the 192-byte array). -/
structure ReadSamples_Locals where
  FifoConfig : ADXL345_FifoConfig_t
  DataFormat : ADXL345_DataFormat_t
  FifoStatus : ADXL345_FifoStatus_t
  Buffer : Nat → Nat

/-- What a call of `ADXL345_ReadSamples` leaves behind: the returned result, the
samples stored at `Samples[0]`, `Samples[1]`, ... in order, the value stored in
`*ReadSamples`, the world state, and the content of the locals `DataFormat` and
`Buffer` when the function returns. -/
structure ReadSamples_Out (σ : Type) where
  Result : ADXL345_Result_t
  Samples : List ADXL345_Sample_t
  ReadSamples : Nat
  world : σ
  DataFormat : ADXL345_DataFormat_t
  Buffer : Nat → Nat

/-- The first part of `ADXL345_ReadSamples`, up to the bulk read: the data format
in effect, the value stored in `*ReadSamples` and the world state. -/
def ADXL345_ReadSamples_count {σ : Type} (Handler : ADXL345_Handler_t σ) (w : σ)
    (L : ReadSamples_Locals) (SamplesBufferLen : Nat) :
    ADXL345_DataFormat_t × Nat × σ :=
  let c := ADXL345_Get_FifoConfig Handler w L.FifoConfig
  let d := ADXL345_Get_DataFormat Handler c.2.2 L.DataFormat
  if c.2.1.Mode = ADXL345_MODE_BYPASS then (d.2.1, 1, d.2.2)
  else
    let s := ADXL345_Get_FifoStatus Handler d.2.2 L.FifoStatus
    (d.2.1, MIN SamplesBufferLen s.2.1.Entries.val, s.2.2)

/-- The function `ADXL345_ReadSamples`. The length `6 * (*ReadSamples)` is
converted to the `uint8_t` parameter of `ADXL345_ReadRegs`. -/
def ADXL345_ReadSamples {σ : Type} (Handler : ADXL345_Handler_t σ) (w : σ)
    (L : ReadSamples_Locals) (SamplesBufferLen : Nat) : ReadSamples_Out σ :=
  let p := ADXL345_ReadSamples_count Handler w L SamplesBufferLen
  let b := ADXL345_ReadRegs Handler p.2.2 ADXL345_REG_DATAX0 L.Buffer ((6 * p.2.1) % 256)
  if b.1 ≠ ADXL345_OK then ⟨ADXL345_FAIL, [], p.2.1, b.2.2, p.1, b.2.1⟩
  else ⟨ADXL345_OK, ADXL345_ReadSamples_loop p.1 b.2.1 p.2.1 0 0, p.2.1, b.2.2, p.1, b.2.1⟩

/-! ## Environments: a recording transport and an ideal register file -/

/-- A call the driver makes through a function pointer of the handle. -/
inductive PlatformEvent where
  | init
  | deinit
  | send (Address : Nat) (Data : List Nat)
  | receive (Address : Nat) (Len : Nat)
  | callback (Interrupt : Nat)
  deriving DecidableEq

/-- The handle whose functions behave as those of `Handler` and append every call
to a trace kept next to the world state. -/
def recording {σ : Type} (Handler : ADXL345_Handler_t σ) :
    ADXL345_Handler_t (σ × List PlatformEvent) where
  AddressI2C := Handler.AddressI2C
  PlatformI2CInit := fun w =>
    ((Handler.PlatformI2CInit w.1).1,
      ((Handler.PlatformI2CInit w.1).2, w.2 ++ [PlatformEvent.init]))
  PlatformI2CDeInit := fun w =>
    ((Handler.PlatformI2CDeInit w.1).1,
      ((Handler.PlatformI2CDeInit w.1).2, w.2 ++ [PlatformEvent.deinit]))
  PlatformI2CSend := fun w a d =>
    ((Handler.PlatformI2CSend w.1 a d).1,
      ((Handler.PlatformI2CSend w.1 a d).2, w.2 ++ [PlatformEvent.send a d]))
  PlatformI2CReceive := fun w a n =>
    ((Handler.PlatformI2CReceive w.1 a n).1, (Handler.PlatformI2CReceive w.1 a n).2.1,
      ((Handler.PlatformI2CReceive w.1 a n).2.2, w.2 ++ [PlatformEvent.receive a n]))
  InterruptCallback := Handler.InterruptCallback.map fun cb w k =>
    ((cb w.1 k).1, ((cb w.1 k).2, w.2 ++ [PlatformEvent.callback k]))

/-- An ideal device: a register file with an auto-incrementing register pointer,
and the statuses the next sends and receives return (0 once a list is used up). -/
structure SimDevice where
  regs : Nat → Nat
  pointer : Nat
  sendStatus : List Int
  receiveStatus : List Int

/-- Write `data` to consecutive registers starting at `p` (addresses wrap at 256). -/
def SimDevice.writeFrom (regs : Nat → Nat) (p : Nat) : List Nat → Nat → Nat
  | [] => regs
  | d :: ds => SimDevice.writeFrom (fun k => if k = p % 256 then d % 256 else regs k) (p + 1) ds

/-- A send to the ideal device: the first byte sets the register pointer, the
following bytes are written to consecutive registers. A failing send has no effect. -/
def SimDevice.send (w : SimDevice) (_Address : Nat) (Data : List Nat) : Int × SimDevice :=
  match w.sendStatus with
  | [] | 0 :: _ =>
    (0, match Data with
        | [] => { w with sendStatus := w.sendStatus.tail }
        | r :: ds => { regs := SimDevice.writeFrom w.regs r ds
                       pointer := (r + ds.length) % 256
                       sendStatus := w.sendStatus.tail
                       receiveStatus := w.receiveStatus })
  | e :: rest => (e, { w with sendStatus := rest })

/-- A receive from the ideal device: `Len` consecutive registers from the register
pointer on. A failing receive delivers nothing. -/
def SimDevice.receive (w : SimDevice) (_Address : Nat) (Len : Nat) :
    Int × List Nat × SimDevice :=
  match w.receiveStatus with
  | [] | 0 :: _ =>
    (0, (List.range Len).map (fun k => w.regs ((w.pointer + k) % 256) % 256),
      { w with pointer := (w.pointer + Len) % 256, receiveStatus := w.receiveStatus.tail })
  | e :: rest => (e, [], { w with receiveStatus := rest })

/-- The handle of the ideal device, at bus address A, without interrupt callback. -/
def simHandler : ADXL345_Handler_t SimDevice where
  AddressI2C := ADXL345_I2C_ADDRESS_A
  PlatformI2CInit := fun w => (0, w)
  PlatformI2CDeInit := fun w => (0, w)
  PlatformI2CSend := SimDevice.send
  PlatformI2CReceive := SimDevice.receive
  InterruptCallback := none

/-- A register file given by a list of (register, value) pairs, 0 elsewhere. -/
def regsOf (l : List (Nat × Nat)) : Nat → Nat :=
  fun k => match l.lookup k with
           | some v => v
           | none => 0

/-- An ideal device on which every transfer succeeds. -/
def simDevice (l : List (Nat × Nat)) : SimDevice := ⟨regsOf l, 0, [], []⟩

/-- Locals of `ADXL345_ReadSamples` that happen to be all zero. -/
def zeroLocals : ReadSamples_Locals := ⟨⟨0, 0, 0⟩, ⟨0, false, false⟩, ⟨0, false, false⟩, fun _ => 0⟩

/-! ## Notions of the specification -/

/-- Two's-complement signed value of a 16-bit pattern. -/
def twosComplement16 (n : Nat) : Int :=
  if n % 65536 < 32768 then ((n % 65536 : Nat) : Int) else ((n % 65536 : Nat) : Int) - 65536

/-- The scale table of the specification: g per LSB for each range code when the
full-resolution flag is clear. -/
def rangeScale (Range : Fin 4) : ℚ :=
  match Range with
  | 0 => 39 / 10000
  | 1 => 78 / 10000
  | 2 => 156 / 10000
  | 3 => 312 / 10000

/-- The scale factor the specification assigns to a data format: 0.004 g/LSB in
full resolution, the table entry of the range otherwise. -/
def scaleFactor (DataFormat : ADXL345_DataFormat_t) : ℚ :=
  if DataFormat.FullResolution then 4 / 1000 else rangeScale DataFormat.Range

/-! ## Handle structure, address selection and initialisation -/

def ADXL345_INTERRUPT_OVERRUN : Nat := 0x00
def ADXL345_INTERRUPT_WATERMARK : Nat := 0x01
def ADXL345_INTERRUPT_FREE_FALL : Nat := 0x02
def ADXL345_INTERRUPT_INACTIVITY : Nat := 0x03
def ADXL345_INTERRUPT_ACTIVITY : Nat := 0x04
def ADXL345_INTERRUPT_DOUBLE_TAP : Nat := 0x05
def ADXL345_INTERRUPT_SINGLE_TAP : Nat := 0x06
def ADXL345_INTERRUPT_DATA_READY : Nat := 0x07

/-- The C structure `struct ADXL345_Handler_s` as the caller may hand it to
`ADXL345_Init`: every function pointer may be `NULL` (`none`). The functions
other than `ADXL345_Init` and `ADXL345_SetAddressI2C` call the transport
pointers without a check and are modelled on `ADXL345_Handler_t`, the handle
whose four transport pointers are non-null. -/
structure ADXL345_Handler_s (σ : Type) where
  AddressI2C : Nat
  PlatformI2CInit : Option (σ → Int × σ)
  PlatformI2CDeInit : Option (σ → Int × σ)
  PlatformI2CSend : Option (σ → Nat → List Nat → Int × σ)
  PlatformI2CReceive : Option (σ → Nat → Nat → Int × List Nat × σ)
  InterruptCallback : Option (σ → Nat → Int × σ)

/-- The structure of a handle with non-null transport pointers. -/
def ADXL345_Handler_t.toStruct {σ : Type} (H : ADXL345_Handler_t σ) : ADXL345_Handler_s σ :=
  ⟨H.AddressI2C, some H.PlatformI2CInit, some H.PlatformI2CDeInit, some H.PlatformI2CSend,
    some H.PlatformI2CReceive, H.InterruptCallback⟩

/-- The function `ADXL345_SetAddressI2C`: the result and the handle structure
after the call. -/
def ADXL345_SetAddressI2C {σ : Type} (Handler : ADXL345_Handler_s σ) (Address : Nat) :
    ADXL345_Result_t × ADXL345_Handler_s σ :=
  if Address = 0 then (ADXL345_OK, { Handler with AddressI2C := ADXL345_I2C_ADDRESS_A })
  else (ADXL345_OK, { Handler with AddressI2C := ADXL345_I2C_ADDRESS_B })

/-- The function `ADXL345_Init`: the result, the handle structure after the call
and the world state. -/
def ADXL345_Init {σ : Type} (Handler : ADXL345_Handler_s σ) (w : σ) :
    ADXL345_Result_t × ADXL345_Handler_s σ × σ :=
  match Handler.PlatformI2CInit, Handler.PlatformI2CDeInit, Handler.PlatformI2CSend,
      Handler.PlatformI2CReceive with
  | some init, some _, some _, some _ =>
    let Handler := (ADXL345_SetAddressI2C Handler 0).2
    let r := init w
    if r.1 ≠ 0 then (ADXL345_FAIL, Handler, r.2) else (ADXL345_OK, Handler, r.2)
  | _, _, _, _ => (ADXL345_FAIL, Handler, w)

/-! ## Register write, device identity and interrupt dispatch -/

/-- The `while (BytesCount)` loop of `ADXL345_WriteRegs`. `Buffer0` is `Buffer[0]`,
`Data` the memory from the current `Data` pointer on; each iteration copies
`Len = MIN(BytesCount, sizeof(Buffer)-1)` bytes behind `Buffer[0]` and sends
`Len + 1` bytes. The first argument bounds the number of iterations; `none`
means the bound was reached before the loop ended. -/
def ADXL345_WriteRegs_loop {σ : Type} (Handler : ADXL345_Handler_t σ) :
    Nat → σ → Nat → (Nat → Nat) → Nat → Option (ADXL345_Result_t × σ)
  | fuel, w, Buffer0, Data, BytesCount =>
    if BytesCount = 0 then some (ADXL345_OK, w)
    else
      match fuel with
      | 0 => none
      | fuel + 1 =>
        let Len := MIN BytesCount (9 - 1)
        let s := Handler.PlatformI2CSend w Handler.AddressI2C
          (Buffer0 :: (List.range Len).map (fun k => Data k % 256))
        if s.1 ≠ 0 then some (ADXL345_FAIL, s.2)
        else ADXL345_WriteRegs_loop Handler fuel s.2 ((Buffer0 + Len) % 256)
          (fun k => Data (k + Len)) (BytesCount - Len)

/-- The static function `ADXL345_WriteRegs`. Every iteration of its loop takes at
least one byte off `BytesCount`, so `BytesCount` iterations are allowed. -/
def ADXL345_WriteRegs {σ : Type} (Handler : ADXL345_Handler_t σ) (w : σ)
    (StartReg : Nat) (Data : Nat → Nat) (BytesCount : Nat) :
    Option (ADXL345_Result_t × σ) :=
  ADXL345_WriteRegs_loop Handler BytesCount w (StartReg % 256) Data BytesCount

/-- The function `ADXL345_CheckDeviceID`. -/
def ADXL345_CheckDeviceID {σ : Type} (Handler : ADXL345_Handler_t σ) (w : σ) :
    ADXL345_Result_t × σ :=
  let r := ADXL345_ReadRegs Handler w ADXL345_REG_DEVID (fun _ => 0) 1
  if r.1 ≠ ADXL345_OK then (ADXL345_FAIL, r.2.2)
  else
    let RegisterDeviceID := r.2.1 0
    if RegisterDeviceID ≠ ADXL345_DEVICE_ID then (ADXL345_FAIL, r.2.2)
    else (ADXL345_OK, r.2.2)

/-- Interrupt register record `ADXL345_InterruptReg_t`: eight one-bit flags. -/
structure ADXL345_InterruptReg_t where
  Overrun : Bool
  Watermark : Bool
  FreeFall : Bool
  Inactivity : Bool
  Activity : Bool
  DoubleTap : Bool
  SingleTap : Bool
  DataReady : Bool
  deriving DecidableEq

/-- The function `ADXL345_Get_InterruptSource`. `Source` is the prior content of
the caller's record, kept when the read fails (the `memset` comes after the
read). After the `memset`, each statement `if (Reg & m) Source->F = 1;` leaves
the flag `F` equal to the outcome of its test. -/
def ADXL345_Get_InterruptSource {σ : Type} (Handler : ADXL345_Handler_t σ) (w : σ)
    (Source : ADXL345_InterruptReg_t) :
    ADXL345_Result_t × ADXL345_InterruptReg_t × σ :=
  let r := ADXL345_ReadRegs Handler w ADXL345_REG_INT_SOURCE (fun _ => 0) 1
  if r.1 ≠ ADXL345_OK then (ADXL345_FAIL, Source, r.2.2)
  else
    let Reg := r.2.1 0
    (ADXL345_OK,
      { Overrun := decide (Reg &&& 0x01 ≠ 0)
        Watermark := decide (Reg &&& 0x02 ≠ 0)
        FreeFall := decide (Reg &&& 0x04 ≠ 0)
        Inactivity := decide (Reg &&& 0x08 ≠ 0)
        Activity := decide (Reg &&& 0x10 ≠ 0)
        DoubleTap := decide (Reg &&& 0x20 ≠ 0)
        SingleTap := decide (Reg &&& 0x40 ≠ 0)
        DataReady := decide (Reg &&& 0x80 ≠ 0) },
      r.2.2)

/-- The statement `if (flag) Handler->InterruptCallback(Interrupt);`: the world
state after it (the value the callback returns is dropped). -/
def callbackIf {σ : Type} (InterruptCallback : σ → Nat → Int × σ) (flag : Bool)
    (Interrupt : Nat) (w : σ) : σ :=
  if flag then (InterruptCallback w Interrupt).2 else w

/-- The function `ADXL345_IRQ_Handler`. `Interrupt` is the indeterminate prior
content of the local record; the result of `ADXL345_Get_InterruptSource` is not
looked at. The eight conditional calls run in the order of the source, Overrun
first and DataReady last. -/
def ADXL345_IRQ_Handler {σ : Type} (Handler : ADXL345_Handler_t σ) (w : σ)
    (Interrupt : ADXL345_InterruptReg_t) : ADXL345_Result_t × σ :=
  match Handler.InterruptCallback with
  | none => (ADXL345_FAIL, w)
  | some InterruptCallback =>
    let g := ADXL345_Get_InterruptSource Handler w Interrupt
    let Interrupt := g.2.1
    (ADXL345_OK,
      callbackIf InterruptCallback Interrupt.DataReady ADXL345_INTERRUPT_DATA_READY
      (callbackIf InterruptCallback Interrupt.SingleTap ADXL345_INTERRUPT_SINGLE_TAP
      (callbackIf InterruptCallback Interrupt.DoubleTap ADXL345_INTERRUPT_DOUBLE_TAP
      (callbackIf InterruptCallback Interrupt.Activity ADXL345_INTERRUPT_ACTIVITY
      (callbackIf InterruptCallback Interrupt.Inactivity ADXL345_INTERRUPT_INACTIVITY
      (callbackIf InterruptCallback Interrupt.FreeFall ADXL345_INTERRUPT_FREE_FALL
      (callbackIf InterruptCallback Interrupt.Watermark ADXL345_INTERRUPT_WATERMARK
      (callbackIf InterruptCallback Interrupt.Overrun ADXL345_INTERRUPT_OVERRUN
        g.2.2))))))))

/-! ## Environments for the handle structure and the interrupt callback -/

/-- The handle structure whose non-null functions behave as those of `S` and
append every call to a trace kept next to the world state. -/
def recordingS {σ : Type} (S : ADXL345_Handler_s σ) :
    ADXL345_Handler_s (σ × List PlatformEvent) where
  AddressI2C := S.AddressI2C
  PlatformI2CInit := S.PlatformI2CInit.map fun f w =>
    ((f w.1).1, ((f w.1).2, w.2 ++ [PlatformEvent.init]))
  PlatformI2CDeInit := S.PlatformI2CDeInit.map fun f w =>
    ((f w.1).1, ((f w.1).2, w.2 ++ [PlatformEvent.deinit]))
  PlatformI2CSend := S.PlatformI2CSend.map fun f w a d =>
    ((f w.1 a d).1, ((f w.1 a d).2, w.2 ++ [PlatformEvent.send a d]))
  PlatformI2CReceive := S.PlatformI2CReceive.map fun f w a n =>
    ((f w.1 a n).1, (f w.1 a n).2.1, ((f w.1 a n).2.2, w.2 ++ [PlatformEvent.receive a n]))
  InterruptCallback := S.InterruptCallback.map fun cb w k =>
    ((cb w.1 k).1, ((cb w.1 k).2, w.2 ++ [PlatformEvent.callback k]))

/-- The handle of the ideal device with an interrupt callback that returns
`status` and leaves the device alone. -/
def simHandlerWithCallback (status : Int) : ADXL345_Handler_t SimDevice :=
  { simHandler with InterruptCallback := some fun w _ => (status, w) }

/-- An interrupt record with every flag clear. -/
def noInterrupt : ADXL345_InterruptReg_t :=
  ⟨false, false, false, false, false, false, false, false⟩

/-- Frame `k` of a block write in the words of the specification: the byte
`(start + 8k) mod 256` followed by the data bytes `data[8k .. min(8k+8, n))`. -/
def writeFrame (start : Nat) (data : Nat → Nat) (n k : Nat) : List Nat :=
  ((start + 8 * k) % 256) ::
    (List.range (min 8 (n - 8 * k))).map (fun j => data (8 * k + j) % 256)

/-- The `ceil(n / 8)` frames of a block write of `n` bytes. -/
def writeFrames (start : Nat) (data : Nat → Nat) (n : Nat) : List (List Nat) :=
  (List.range ((n + 7) / 8)).map (writeFrame start data n)

/-- Send the given frames in order through the handle, whatever each send returns:
the statuses returned and the world state after the last send. -/
def sendFrames {σ : Type} (H : ADXL345_Handler_t σ) (w : σ) : List (List Nat) → List Int × σ
  | [] => ([], w)
  | f :: fs =>
    ((H.PlatformI2CSend w H.AddressI2C f).1 ::
        (sendFrames H (H.PlatformI2CSend w H.AddressI2C f).2 fs).1,
      (sendFrames H (H.PlatformI2CSend w H.AddressI2C f).2 fs).2)

/-- Send the given frames in order through the handle and stop at the first send
that fails. -/
def sendUntilFail {σ : Type} (H : ADXL345_Handler_t σ) (w : σ) :
    List (List Nat) → ADXL345_Result_t × σ
  | [] => (ADXL345_OK, w)
  | f :: fs =>
    if (H.PlatformI2CSend w H.AddressI2C f).1 ≠ 0 then
      (ADXL345_FAIL, (H.PlatformI2CSend w H.AddressI2C f).2)
    else sendUntilFail H (H.PlatformI2CSend w H.AddressI2C f).2 fs

/-! ## The remaining configuration functions -/

def ADXL345_REG_THRESH_TAP : Nat := 0x1D
def ADXL345_REG_OFSX : Nat := 0x1E
def ADXL345_REG_OFSY : Nat := 0x1F
def ADXL345_REG_OFSZ : Nat := 0x20
def ADXL345_REG_DUR : Nat := 0x21
def ADXL345_REG_LATENT : Nat := 0x22
def ADXL345_REG_WINDOW : Nat := 0x23
def ADXL345_REG_THRESH_ACT : Nat := 0x24
def ADXL345_REG_THRESH_INACT : Nat := 0x25
def ADXL345_REG_TIME_INACT : Nat := 0x26
def ADXL345_REG_ACT_INACT_CTL : Nat := 0x27
def ADXL345_REG_THRESH_FF : Nat := 0x28
def ADXL345_REG_TIME_FF : Nat := 0x29
def ADXL345_REG_TAP_AXES : Nat := 0x2A
def ADXL345_REG_ACT_TAP_STATUS : Nat := 0x2B
def ADXL345_REG_BW_RATE : Nat := 0x2C
def ADXL345_REG_POWER_CTL : Nat := 0x2D
def ADXL345_REG_INT_ENABLE : Nat := 0x2E
def ADXL345_REG_INT_MAP : Nat := 0x2F

/-- Control flags of `ADXL345_ActivityInactivity_t`. -/
structure ADXL345_ActivityInactivityControl_s where
  InactivityEnableZ : Bool
  InactivityEnableY : Bool
  InactivityEnableX : Bool
  InactivityCoupled : Bool
  ActivityEnableZ : Bool
  ActivityEnableY : Bool
  ActivityEnableX : Bool
  ActivityCoupled : Bool
  deriving DecidableEq

/-- Activity and inactivity record `ADXL345_ActivityInactivity_t`. -/
structure ADXL345_ActivityInactivity_t where
  ActivityThreshold : Nat
  InactivityThreshold : Nat
  InactivityTime : Nat
  Control : ADXL345_ActivityInactivityControl_s
  deriving DecidableEq

/-- Axis flags of `ADXL345_TapConfig_t`. -/
structure ADXL345_TapAxis_s where
  TapEnableZ : Bool
  TapEnableY : Bool
  TapEnableX : Bool
  Suppress : Bool
  deriving DecidableEq

/-- Tap configuration record `ADXL345_TapConfig_t`. -/
structure ADXL345_TapConfig_t where
  TapThreshold : Nat
  Duration : Nat
  Latent : Nat
  Window : Nat
  TapAxis : ADXL345_TapAxis_s
  deriving DecidableEq

/-- Activity and tap status record `ADXL345_ActTapStatus_t` (the source file names
the parameter type of `ADXL345_Get_TapStatus` `ADXL345_TapStatus_t`). -/
structure ADXL345_ActTapStatus_t where
  TapZ : Bool
  TapY : Bool
  TapX : Bool
  Asleep : Bool
  ActZ : Bool
  ActY : Bool
  ActX : Bool
  deriving DecidableEq

/-- Interrupt configuration record `ADXL345_InterruptConfig_t`. -/
structure ADXL345_InterruptConfig_t where
  Enable : ADXL345_InterruptReg_t
  Map : ADXL345_InterruptReg_t
  ActiveLow : Nat
  deriving DecidableEq

/-- Power record `ADXL345_PowerControl_t`: `Wakeup : 2` and four one-bit flags. -/
structure ADXL345_PowerControl_t where
  Wakeup : Fin 4
  Sleep : Bool
  Measure : Bool
  AutoSleep : Bool
  Link : Bool
  deriving DecidableEq

/-- The statement `if (flag) Reg |= mask;` on a `uint8_t`. -/
def orIf (Reg : Nat) (flag : Bool) (mask : Nat) : Nat :=
  if flag then Reg ||| mask else Reg

/-- A local byte array with the given content (0 past its end). -/
def bytesAt (l : List Nat) : Nat → Nat := fun k => l.getD k 0

/-- The byte that stores an `int8_t` value. -/
def byteOfInt8 (x : Int) : Nat := (x % 256).toNat

/-- The `int8_t` value of a byte. -/
def int8OfByte (b : Nat) : Int :=
  if b % 256 < 128 then ((b % 256 : Nat) : Int) else ((b % 256 : Nat) : Int) - 256

/-- The pattern `if (call != ADXL345_OK) return ADXL345_FAIL; return ADXL345_OK;`. -/
def okOrFail (r : ADXL345_Result_t) : ADXL345_Result_t :=
  if r ≠ ADXL345_OK then ADXL345_FAIL else ADXL345_OK

/-- The function `ADXL345_Set_Offset`. -/
def ADXL345_Set_Offset {σ : Type} (Handler : ADXL345_Handler_t σ) (w : σ) (X Y Z : Int) :
    Option (ADXL345_Result_t × σ) :=
  (ADXL345_WriteRegs Handler w ADXL345_REG_OFSX
    (bytesAt [byteOfInt8 X, byteOfInt8 Y, byteOfInt8 Z]) 3).map fun r => (okOrFail r.1, r.2)

/-- The function `ADXL345_Get_Offset`. `X`, `Y`, `Z` are the prior values behind the
output pointers and `Buffer` the indeterminate prior content of the local
array. -/
def ADXL345_Get_Offset {σ : Type} (Handler : ADXL345_Handler_t σ) (w : σ) (X Y Z : Int)
    (Buffer : Nat → Nat) : ADXL345_Result_t × (Int × Int × Int) × σ :=
  let r := ADXL345_ReadRegs Handler w ADXL345_REG_OFSX Buffer 3
  if r.1 ≠ ADXL345_OK then (ADXL345_FAIL, (X, Y, Z), r.2.2)
  else (ADXL345_OK, (int8OfByte (r.2.1 0), int8OfByte (r.2.1 1), int8OfByte (r.2.1 2)), r.2.2)

/-- The function `ADXL345_Set_TapConfig`. The axis flags are or-ed into `Buffer[0]`,
which still holds `Duration`. -/
def ADXL345_Set_TapConfig {σ : Type} (Handler : ADXL345_Handler_t σ) (w : σ)
    (TapConfig : ADXL345_TapConfig_t) : Option (ADXL345_Result_t × σ) :=
  (ADXL345_WriteRegs Handler w ADXL345_REG_THRESH_TAP
    (bytesAt [TapConfig.TapThreshold % 256]) 1).bind fun r1 =>
  if r1.1 ≠ ADXL345_OK then some (ADXL345_FAIL, r1.2)
  else
    (ADXL345_WriteRegs Handler r1.2 ADXL345_REG_DUR
      (bytesAt [TapConfig.Duration % 256, TapConfig.Latent % 256, TapConfig.Window % 256])
      3).bind fun r2 =>
    if r2.1 ≠ ADXL345_OK then some (ADXL345_FAIL, r2.2)
    else
      ADXL345_WriteRegs Handler r2.2 ADXL345_REG_TAP_AXES
        (bytesAt [orIf (orIf (orIf (orIf (TapConfig.Duration % 256)
            TapConfig.TapAxis.TapEnableZ 0x01) TapConfig.TapAxis.TapEnableY 0x02)
            TapConfig.TapAxis.TapEnableX 0x04) TapConfig.TapAxis.Suppress 0x08,
          TapConfig.Latent % 256, TapConfig.Window % 256]) 1

/-- The function `ADXL345_Get_TapConfig`. The record is cleared before the first
read; `Buffer` is the indeterminate prior content of the local array. -/
def ADXL345_Get_TapConfig {σ : Type} (Handler : ADXL345_Handler_t σ) (w : σ)
    (Buffer : Nat → Nat) : ADXL345_Result_t × ADXL345_TapConfig_t × σ :=
  let TapConfig : ADXL345_TapConfig_t := ⟨0, 0, 0, 0, ⟨false, false, false, false⟩⟩
  let r1 := ADXL345_ReadRegs Handler w ADXL345_REG_THRESH_TAP Buffer 1
  if r1.1 ≠ ADXL345_OK then (ADXL345_FAIL, TapConfig, r1.2.2)
  else
    let r2 := ADXL345_ReadRegs Handler r1.2.2 ADXL345_REG_DUR r1.2.1 3
    if r2.1 ≠ ADXL345_OK then
      (ADXL345_FAIL, { TapConfig with TapThreshold := r1.2.1 0 % 256 }, r2.2.2)
    else
      let r3 := ADXL345_ReadRegs Handler r2.2.2 ADXL345_REG_TAP_AXES r2.2.1 1
      if r3.1 ≠ ADXL345_OK then
        (ADXL345_FAIL,
          { TapConfig with
            TapThreshold := r1.2.1 0 % 256
            Duration := r2.2.1 0 % 256
            Latent := r2.2.1 1 % 256
            Window := r2.2.1 2 % 256 }, r3.2.2)
      else
        (ADXL345_OK,
          { TapThreshold := r1.2.1 0 % 256
            Duration := r2.2.1 0 % 256
            Latent := r2.2.1 1 % 256
            Window := r2.2.1 2 % 256
            TapAxis :=
              { TapEnableZ := decide (r3.2.1 0 % 256 &&& 0x01 ≠ 0)
                TapEnableY := decide (r3.2.1 0 % 256 &&& 0x02 ≠ 0)
                TapEnableX := decide (r3.2.1 0 % 256 &&& 0x04 ≠ 0)
                Suppress := decide (r3.2.1 0 % 256 &&& 0x08 ≠ 0) } }, r3.2.2)

/-- The function `ADXL345_Get_TapStatus`. `Status` is the prior content of the
caller's record; a flag is set when its bit is set and is never cleared. -/
def ADXL345_Get_TapStatus {σ : Type} (Handler : ADXL345_Handler_t σ) (w : σ)
    (Status : ADXL345_ActTapStatus_t) : ADXL345_Result_t × ADXL345_ActTapStatus_t × σ :=
  let r := ADXL345_ReadRegs Handler w ADXL345_REG_ACT_TAP_STATUS (fun _ => 0) 1
  if r.1 ≠ ADXL345_OK then (ADXL345_FAIL, Status, r.2.2)
  else
    let Reg := r.2.1 0
    (ADXL345_OK,
      { TapZ := if Reg &&& 0x01 ≠ 0 then true else Status.TapZ
        TapY := if Reg &&& 0x02 ≠ 0 then true else Status.TapY
        TapX := if Reg &&& 0x04 ≠ 0 then true else Status.TapX
        Asleep := if Reg &&& 0x08 ≠ 0 then true else Status.Asleep
        ActZ := if Reg &&& 0x10 ≠ 0 then true else Status.ActZ
        ActY := if Reg &&& 0x20 ≠ 0 then true else Status.ActY
        ActX := if Reg &&& 0x40 ≠ 0 then true else Status.ActX }, r.2.2)

/-- The function `ADXL345_Set_ActivityInactivity`. The four bytes are written from
register `ADXL345_REG_ACT_INACT_CTL` on. -/
def ADXL345_Set_ActivityInactivity {σ : Type} (Handler : ADXL345_Handler_t σ) (w : σ)
    (ActivityInactivity : ADXL345_ActivityInactivity_t) : Option (ADXL345_Result_t × σ) :=
  ADXL345_WriteRegs Handler w ADXL345_REG_ACT_INACT_CTL
    (bytesAt [ActivityInactivity.ActivityThreshold % 256,
      ActivityInactivity.InactivityThreshold % 256,
      ActivityInactivity.InactivityTime % 256,
      orIf (orIf (orIf (orIf (orIf (orIf (orIf (orIf 0
        ActivityInactivity.Control.InactivityEnableZ 0x01)
        ActivityInactivity.Control.InactivityEnableY 0x02)
        ActivityInactivity.Control.InactivityEnableX 0x04)
        ActivityInactivity.Control.InactivityCoupled 0x08)
        ActivityInactivity.Control.ActivityEnableZ 0x10)
        ActivityInactivity.Control.ActivityEnableY 0x20)
        ActivityInactivity.Control.ActivityEnableX 0x40)
        ActivityInactivity.Control.ActivityCoupled 0x80]) 4

/-- The function `ADXL345_Get_ActivityInactivity`. `ActivityInactivity` is the prior
content of the caller's record, kept when the read fails. -/
def ADXL345_Get_ActivityInactivity {σ : Type} (Handler : ADXL345_Handler_t σ) (w : σ)
    (ActivityInactivity : ADXL345_ActivityInactivity_t) :
    ADXL345_Result_t × ADXL345_ActivityInactivity_t × σ :=
  let r := ADXL345_ReadRegs Handler w ADXL345_REG_THRESH_ACT (fun _ => 0) 4
  if r.1 ≠ ADXL345_OK then (ADXL345_FAIL, ActivityInactivity, r.2.2)
  else
    (ADXL345_OK,
      { ActivityThreshold := r.2.1 0
        InactivityThreshold := r.2.1 1
        InactivityTime := r.2.1 2
        Control :=
          { InactivityEnableZ := decide (r.2.1 3 &&& 0x01 ≠ 0)
            InactivityEnableY := decide (r.2.1 3 &&& 0x02 ≠ 0)
            InactivityEnableX := decide (r.2.1 3 &&& 0x04 ≠ 0)
            InactivityCoupled := decide (r.2.1 3 &&& 0x08 ≠ 0)
            ActivityEnableZ := decide (r.2.1 3 &&& 0x10 ≠ 0)
            ActivityEnableY := decide (r.2.1 3 &&& 0x20 ≠ 0)
            ActivityEnableX := decide (r.2.1 3 &&& 0x40 ≠ 0)
            ActivityCoupled := decide (r.2.1 3 &&& 0x80 ≠ 0) } }, r.2.2)

/-- The function `ADXL345_Set_FreeFall`. -/
def ADXL345_Set_FreeFall {σ : Type} (Handler : ADXL345_Handler_t σ) (w : σ)
    (Threshold Time : Nat) : Option (ADXL345_Result_t × σ) :=
  ADXL345_WriteRegs Handler w ADXL345_REG_THRESH_FF (bytesAt [Threshold % 256, Time % 256]) 2

/-- The function `ADXL345_Get_FreeFall`. `Threshold` and `Time` are the prior values
behind the output pointers. -/
def ADXL345_Get_FreeFall {σ : Type} (Handler : ADXL345_Handler_t σ) (w : σ)
    (Threshold Time : Nat) : ADXL345_Result_t × (Nat × Nat) × σ :=
  let r := ADXL345_ReadRegs Handler w ADXL345_REG_THRESH_FF (fun _ => 0) 2
  if r.1 ≠ ADXL345_OK then (ADXL345_FAIL, (Threshold, Time), r.2.2)
  else (ADXL345_OK, (r.2.1 0, r.2.1 1), r.2.2)

/-- The function `ADXL345_Set_Rate`: `Reg &= ~(0x1F); Reg |= Rate;` on a `uint8_t`
between a read and a write of BW_RATE. -/
def ADXL345_Set_Rate {σ : Type} (Handler : ADXL345_Handler_t σ) (w : σ) (Rate : Nat) :
    Option (ADXL345_Result_t × σ) :=
  let r := ADXL345_ReadRegs Handler w ADXL345_REG_BW_RATE (fun _ => 0) 1
  if r.1 ≠ ADXL345_OK then some (ADXL345_FAIL, r.2.2)
  else
    ADXL345_WriteRegs Handler r.2.2 ADXL345_REG_BW_RATE
      (bytesAt [((r.2.1 0 &&& 0xE0) ||| Rate) % 256]) 1

/-- The function `ADXL345_Get_Rate`. `Rate` is the prior value behind the output
pointer. -/
def ADXL345_Get_Rate {σ : Type} (Handler : ADXL345_Handler_t σ) (w : σ) (Rate : Nat) :
    ADXL345_Result_t × Nat × σ :=
  let r := ADXL345_ReadRegs Handler w ADXL345_REG_BW_RATE (fun _ => 0) 1
  if r.1 ≠ ADXL345_OK then (ADXL345_FAIL, Rate, r.2.2)
  else (ADXL345_OK, r.2.1 0 &&& 0x1F, r.2.2)

/-- The byte that the setters build from the eight flags of an interrupt record. -/
def interruptByte (R : ADXL345_InterruptReg_t) : Nat :=
  orIf (orIf (orIf (orIf (orIf (orIf (orIf (orIf 0 R.Overrun 0x01) R.Watermark 0x02)
    R.FreeFall 0x04) R.Inactivity 0x08) R.Activity 0x10) R.DoubleTap 0x20)
    R.SingleTap 0x40) R.DataReady 0x80

/-- The function `ADXL345_Set_InterruptConfig`. After the write of INT_ENABLE and
INT_MAP, `Buffer[0]` receives the DATA_FORMAT byte, gets bit 5 or-ed in when
`ActiveLow` is non-zero, and is written back. -/
def ADXL345_Set_InterruptConfig {σ : Type} (Handler : ADXL345_Handler_t σ) (w : σ)
    (Config : ADXL345_InterruptConfig_t) : Option (ADXL345_Result_t × σ) :=
  (ADXL345_WriteRegs Handler w ADXL345_REG_INT_ENABLE
    (bytesAt [interruptByte Config.Enable, interruptByte Config.Map]) 2).bind fun r1 =>
  if r1.1 ≠ ADXL345_OK then some (ADXL345_FAIL, r1.2)
  else
    let r2 := ADXL345_ReadRegs Handler r1.2 ADXL345_REG_DATA_FORMAT
      (bytesAt [interruptByte Config.Enable, interruptByte Config.Map]) 1
    if r2.1 ≠ ADXL345_OK then some (ADXL345_FAIL, r2.2.2)
    else
      ADXL345_WriteRegs Handler r2.2.2 ADXL345_REG_DATA_FORMAT
        (bytesAt [orIf (r2.2.1 0) (decide (Config.ActiveLow % 256 ≠ 0)) 0x20, r2.2.1 1]) 1

/-- The flags that the getters read from a byte into a cleared interrupt record. -/
def interruptFlags (Reg : Nat) : ADXL345_InterruptReg_t :=
  { Overrun := decide (Reg &&& 0x01 ≠ 0)
    Watermark := decide (Reg &&& 0x02 ≠ 0)
    FreeFall := decide (Reg &&& 0x04 ≠ 0)
    Inactivity := decide (Reg &&& 0x08 ≠ 0)
    Activity := decide (Reg &&& 0x10 ≠ 0)
    DoubleTap := decide (Reg &&& 0x20 ≠ 0)
    SingleTap := decide (Reg &&& 0x40 ≠ 0)
    DataReady := decide (Reg &&& 0x80 ≠ 0) }

/-- The function `ADXL345_Get_InterruptConfig`. `Config` is the prior content of the
caller's record, kept when the read fails; after the `memset` only the `Enable`
and `Map` flags are assigned. -/
def ADXL345_Get_InterruptConfig {σ : Type} (Handler : ADXL345_Handler_t σ) (w : σ)
    (Config : ADXL345_InterruptConfig_t) :
    ADXL345_Result_t × ADXL345_InterruptConfig_t × σ :=
  let r := ADXL345_ReadRegs Handler w ADXL345_REG_INT_ENABLE (fun _ => 0) 2
  if r.1 ≠ ADXL345_OK then (ADXL345_FAIL, Config, r.2.2)
  else
    (ADXL345_OK,
      { Enable := interruptFlags (r.2.1 0), Map := interruptFlags (r.2.1 1), ActiveLow := 0 },
      r.2.2)

/-- The function `ADXL345_Set_DataFormat`: the upper nibble of the byte read is
kept, the lower nibble is built from the record, and the byte is written back. -/
def ADXL345_Set_DataFormat {σ : Type} (Handler : ADXL345_Handler_t σ) (w : σ)
    (DataFormat : ADXL345_DataFormat_t) : Option (ADXL345_Result_t × σ) :=
  let r := ADXL345_ReadRegs Handler w ADXL345_REG_DATA_FORMAT (fun _ => 0) 1
  if r.1 ≠ ADXL345_OK then some (ADXL345_FAIL, r.2.2)
  else
    ADXL345_WriteRegs Handler r.2.2 ADXL345_REG_DATA_FORMAT
      (bytesAt [orIf (orIf ((r.2.1 0 &&& 0xF0) ||| DataFormat.Range.val)
        DataFormat.JustifyLeft 0x04) DataFormat.FullResolution 0x08]) 1

/-- The function `ADXL345_Set_FifoConfig`. -/
def ADXL345_Set_FifoConfig {σ : Type} (Handler : ADXL345_Handler_t σ) (w : σ)
    (Config : ADXL345_FifoConfig_t) : Option (ADXL345_Result_t × σ) :=
  ADXL345_WriteRegs Handler w ADXL345_REG_FIFO_CTL
    (bytesAt [((orIf (0 ||| (Config.WatermarkSamples.val &&& 0x1F))
      (decide (Config.Trigger ≠ 0)) 0x20) ||| (Config.Mode.val <<< 6)) % 256]) 1

/-- The function `ADXL345_Set_PowerControl`. -/
def ADXL345_Set_PowerControl {σ : Type} (Handler : ADXL345_Handler_t σ) (w : σ)
    (PowerControl : ADXL345_PowerControl_t) : Option (ADXL345_Result_t × σ) :=
  ADXL345_WriteRegs Handler w ADXL345_REG_POWER_CTL
    (bytesAt [orIf (orIf (orIf (orIf (0 ||| (PowerControl.Wakeup.val &&& 0x03))
      PowerControl.Sleep 0x04) PowerControl.Measure 0x08) PowerControl.AutoSleep 0x10)
      PowerControl.Link 0x20]) 1

/-- The function `ADXL345_Get_PowerControl`. `PowerControl` is the prior content of
the caller's record, kept when the read fails. -/
def ADXL345_Get_PowerControl {σ : Type} (Handler : ADXL345_Handler_t σ) (w : σ)
    (PowerControl : ADXL345_PowerControl_t) :
    ADXL345_Result_t × ADXL345_PowerControl_t × σ :=
  let r := ADXL345_ReadRegs Handler w ADXL345_REG_POWER_CTL (fun _ => 0) 1
  if r.1 ≠ ADXL345_OK then (ADXL345_FAIL, PowerControl, r.2.2)
  else
    (ADXL345_OK,
      { Wakeup := Fin.ofNat (r.2.1 0 &&& 0x03)
        Sleep := decide (r.2.1 0 &&& 0x04 ≠ 0)
        Measure := decide (r.2.1 0 &&& 0x08 ≠ 0)
        AutoSleep := decide (r.2.1 0 &&& 0x10 ≠ 0)
        Link := decide (r.2.1 0 &&& 0x20 ≠ 0) }, r.2.2)

/-- The function `ADXL345_DeInit`. `PowerControl` is the indeterminate prior content
of the local record. -/
def ADXL345_DeInit {σ : Type} (Handler : ADXL345_Handler_t σ) (w : σ)
    (PowerControl : ADXL345_PowerControl_t) : Option (ADXL345_Result_t × σ) :=
  let g := ADXL345_Get_PowerControl Handler w PowerControl
  if g.1 ≠ ADXL345_OK then some (ADXL345_FAIL, g.2.2)
  else
    (ADXL345_Set_PowerControl Handler g.2.2
      { g.2.1 with Sleep := true, Measure := false }).bind fun s =>
    if s.1 ≠ ADXL345_OK then some (ADXL345_FAIL, s.2)
    else
      if (Handler.PlatformI2CDeInit s.2).1 ≠ 0 then
        some (ADXL345_FAIL, (Handler.PlatformI2CDeInit s.2).2)
      else some (ADXL345_OK, (Handler.PlatformI2CDeInit s.2).2)

/-! ## The public operations as calls on the handle structure -/

/-- A call of a public function of the driver, with its arguments and the prior
content of the memory it is given. -/
inductive PublicCall where
  | Set_Offset (X Y Z : Int)
  | Get_Offset (X Y Z : Int) (Buffer : Nat → Nat)
  | Set_TapConfig (TapConfig : ADXL345_TapConfig_t)
  | Get_TapConfig (Buffer : Nat → Nat)
  | Get_TapStatus (Status : ADXL345_ActTapStatus_t)
  | Set_ActivityInactivity (ActivityInactivity : ADXL345_ActivityInactivity_t)
  | Get_ActivityInactivity (ActivityInactivity : ADXL345_ActivityInactivity_t)
  | Set_FreeFall (Threshold Time : Nat)
  | Get_FreeFall (Threshold Time : Nat)
  | Set_Rate (Rate : Nat)
  | Get_Rate (Rate : Nat)
  | Set_InterruptConfig (Config : ADXL345_InterruptConfig_t)
  | Get_InterruptConfig (Config : ADXL345_InterruptConfig_t)
  | Get_InterruptSource (Source : ADXL345_InterruptReg_t)
  | Set_DataFormat (DataFormat : ADXL345_DataFormat_t)
  | Get_DataFormat (DataFormat : ADXL345_DataFormat_t)
  | Set_FifoConfig (Config : ADXL345_FifoConfig_t)
  | Get_FifoConfig (Config : ADXL345_FifoConfig_t)
  | Get_FifoStatus (Status : ADXL345_FifoStatus_t)
  | Set_PowerControl (PowerControl : ADXL345_PowerControl_t)
  | Get_PowerControl (PowerControl : ADXL345_PowerControl_t)
  | ReadSamples (L : ReadSamples_Locals) (SamplesBufferLen : Nat)
  | IRQ_Handler (Interrupt : ADXL345_InterruptReg_t)
  | Init
  | DeInit (PowerControl : ADXL345_PowerControl_t)
  | SetAddressI2C (Address : Nat)
  | CheckDeviceID

/-! ## The ideal register file with every transfer succeeding -/

/-- The ideal device with the given register file and register pointer, on which
every transfer succeeds. -/
def idealDevice (regs : Nat → Nat) (pointer : Nat) : SimDevice := ⟨regs, pointer, [], []⟩

/-! ## Single-precision floating point

The type `float` is taken to be the IEEE 754 binary32 format, with every
operation evaluated in that format (`FLT_EVAL_METHOD` 0) and rounded to the
nearest value, ties to the even significand; a decimal constant with the suffix
`f` is the binary32 value nearest to it. A finite value is `mant * 2 ^ exp` with
`mant` odd, or zero. Zero has no sign here. A result outside the normal range
(overflow, subnormal numbers), a division by zero, infinities and NaN are not
modelled: an operation with such a result has no outcome (`none`). -/

/-- A finite binary32 value `mant * 2 ^ exp`. -/
structure Binary32 where
  mant : Int
  exp : Int
  deriving DecidableEq, Repr

/-- The value `m * 2 ^ e` with the factors of two moved from `m` to the exponent. -/
def Binary32.reduce : Nat → Int → Int → Binary32
  | 0, m, e => ⟨m, e⟩
  | fuel + 1, m, e =>
    if m = 0 then ⟨0, 0⟩
    else if m % 2 = 0 then Binary32.reduce fuel (m / 2) (e + 1)
    else ⟨m, e⟩

/-- The position of the leading bit of `n`, for `n ≤ fuel`. -/
def Binary32.log2 : Nat → Nat → Nat
  | 0, _ => 0
  | fuel + 1, n => if n ≤ 1 then 0 else Binary32.log2 fuel (n / 2) + 1

/-- The power of two that brings the fraction `n / d` into the 24 bits of a
significand: the exponent `s` with `2 ^ 23 ≤ n / d * 2 ^ s < 2 ^ 24`, found from
the positions of the leading bits and one trial division. -/
def Binary32.scale (n d : Nat) : Int :=
  let s0 : Int := 23 + (Binary32.log2 d d : Int) - (Binary32.log2 n n : Int)
  if n * 2 ^ s0.toNat / (d * 2 ^ (-s0).toNat) < 2 ^ 23 then s0 + 1 else s0

/-- The integer nearest to the fraction `N / D`, the even one of the two when the
fraction lies halfway between them. -/
def Binary32.nearest (N D : Nat) : Nat :=
  if D < 2 * (N % D) ∨ (2 * (N % D) = D ∧ N / D % 2 = 1) then N / D + 1 else N / D

/-- The binary32 value nearest to the fraction `n / d` (negated when `neg`), ties to
the even significand: the fraction is scaled by `2 ^ s` into the 24 bits of a
significand and rounded there to the integer `m`; the value is `m / 2 ^ s`, with
the binary exponent `E` of its leading bit in the normal range. -/
def Binary32.round (neg : Bool) (n d : Nat) : Option Binary32 :=
  if d = 0 then none
  else if n = 0 then some ⟨0, 0⟩
  else
    let s := Binary32.scale n d
    let m := Binary32.nearest (n * 2 ^ s.toNat) (d * 2 ^ (-s).toNat)
    let E : Int := (if m = 2 ^ 24 then 24 else 23) - s
    if E < -126 ∨ 127 < E then none
    else some (Binary32.reduce 24 (if neg then -(m : Int) else (m : Int)) (-s))

/-- The constant written as the decimal fraction `n / d` with the suffix `f`. -/
def Binary32.ofDecimal (n d : Nat) : Option Binary32 := Binary32.round false n d

/-- The conversion of an integer to `float`. -/
def Binary32.ofInt (n : Int) : Option Binary32 := Binary32.round (decide (n < 0)) n.natAbs 1

/-- The product `a * b` of two `float` values. -/
def Binary32.mul (a b : Binary32) : Option Binary32 :=
  Binary32.round (decide (a.mant * b.mant < 0))
    ((a.mant * b.mant).natAbs * 2 ^ (a.exp + b.exp).toNat) (2 ^ (-(a.exp + b.exp)).toNat)

/-- The quotient `a / b` of two `float` values. -/
def Binary32.div (a b : Binary32) : Option Binary32 :=
  Binary32.round (decide (a.mant * b.mant < 0))
    (a.mant.natAbs * 2 ^ (a.exp - b.exp).toNat) (b.mant.natAbs * 2 ^ (-(a.exp - b.exp)).toNat)

/-- The value of `x` without its fraction. -/
def Binary32.trunc (x : Binary32) : Int :=
  Int.tdiv (x.mant * 2 ^ x.exp.toNat) (2 ^ (-x.exp).toNat)

/-- The conversion `(uint8_t)x` of a `float`: the value without its fraction, with no
defined result (`none`) when that is not in 0..255. -/
def Binary32.toUInt8 (x : Binary32) : Option Nat :=
  if 0 ≤ x.trunc ∧ x.trunc ≤ 255 then some x.trunc.toNat else none

/-- The value of `x` is the fraction `n / d`. -/
def Binary32.eqFrac (x : Binary32) (n : Int) (d : Nat) : Prop :=
  x.mant * 2 ^ x.exp.toNat * d = n * 2 ^ (-x.exp).toNat

instance (x : Binary32) (n : Int) (d : Nat) : Decidable (x.eqFrac n d) := by
  unfold Binary32.eqFrac
  infer_instance

/-- The value of `x` differs from the fraction `n / d` by at most the part
`1 / 2 ^ k` of that fraction. -/
def Binary32.near (x : Binary32) (n : Int) (d k : Nat) : Prop :=
  (x.mant * 2 ^ x.exp.toNat * d - n * 2 ^ (-x.exp).toNat).natAbs * 2 ^ k ≤
    n.natAbs * 2 ^ (-x.exp).toNat

instance (x : Binary32) (n : Int) (d k : Nat) : Decidable (x.near n d k) := by
  unfold Binary32.near
  infer_instance

/-- The value of `x` as a rational number. -/
def Binary32.toRat (x : Binary32) : ℚ := x.mant * 2 ^ x.exp

/-- The value of `x` is the positive rational `v` rounded to 24 significant bits,
to the nearest with ties to the even significand, negated when `neg`: with the
power `2 ^ s` that brings `v` into the interval from `2 ^ 23` up to `2 ^ 24`, and
the integer `m` nearest to `v * 2 ^ s`, the value is `m / 2 ^ s`. -/
def Binary32.IsRounded (neg : Bool) (v : ℚ) (x : Binary32) : Prop :=
  ∃ (m : ℕ) (s : ℤ), 2 ^ 23 ≤ v * 2 ^ s ∧ v * 2 ^ s < 2 ^ 24 ∧
    |v * 2 ^ s - m| ≤ 1 / 2 ∧ (|v * 2 ^ s - m| = 1 / 2 → Even m) ∧
    x.toRat = (if neg then -1 else 1) * (m / 2 ^ s)

/-! ## Unit-conversion macros of `ADXL345.h`

The macros are untyped. A macro whose body has a `float` constant is modelled in
`float` arithmetic: a `ConvToData` macro on an integer register value, which the
usual arithmetic conversions turn into a `float`, and a `ConvToReg` macro on a
`float`. A macro whose body has integer constants only (`us / 625`, `reg * 625`,
`ms / 5`, `reg * 5`, `(s)`, `(reg)`) is modelled on C `int` arguments without
overflow, where `/` is the integer division that truncates toward zero. -/

/-- The macro `ADXL345_ConvToReg_Offset(g) (g / 0.0156f)`. -/
def ADXL345_ConvToReg_Offset (g : Binary32) : Option Binary32 :=
  (Binary32.ofDecimal 156 10000).bind fun c => Binary32.div g c

/-- The macro `ADXL345_ConvToData_Offset(reg) (reg * 0.0156f)`. -/
def ADXL345_ConvToData_Offset (reg : Int) : Option Binary32 :=
  (Binary32.ofInt reg).bind fun x => (Binary32.ofDecimal 156 10000).bind fun c => Binary32.mul x c

/-- The macro `ADXL345_ConvToReg_TapThreshold(g) (g / 0.0625f)`. -/
def ADXL345_ConvToReg_TapThreshold (g : Binary32) : Option Binary32 :=
  (Binary32.ofDecimal 625 10000).bind fun c => Binary32.div g c

/-- The macro `ADXL345_ConvToData_TapThreshold(reg) (reg * 0.0625f)`. -/
def ADXL345_ConvToData_TapThreshold (reg : Int) : Option Binary32 :=
  (Binary32.ofInt reg).bind fun x => (Binary32.ofDecimal 625 10000).bind fun c => Binary32.mul x c

/-- The macro `ADXL345_ConvToReg_Duration(us) (us / 625)`. -/
def ADXL345_ConvToReg_Duration (us : Int) : Int := Int.tdiv us 625

/-- The macro `ADXL345_ConvToData_Duration(reg) (reg * 625)`. -/
def ADXL345_ConvToData_Duration (reg : Int) : Int := reg * 625

/-- The macro `ADXL345_ConvToReg_Latent(ms) (ms / 1.25f)`. -/
def ADXL345_ConvToReg_Latent (ms : Binary32) : Option Binary32 :=
  (Binary32.ofDecimal 125 100).bind fun c => Binary32.div ms c

/-- The macro `ADXL345_ConvToData_Latent(reg) (reg * 1.25f)`. -/
def ADXL345_ConvToData_Latent (reg : Int) : Option Binary32 :=
  (Binary32.ofInt reg).bind fun x => (Binary32.ofDecimal 125 100).bind fun c => Binary32.mul x c

/-- The macro `ADXL345_ConvToReg_Window(ms) (ms / 1.25f)`. -/
def ADXL345_ConvToReg_Window (ms : Binary32) : Option Binary32 :=
  (Binary32.ofDecimal 125 100).bind fun c => Binary32.div ms c

/-- The macro `ADXL345_ConvToData_Window(reg) (reg * 1.25f)`. -/
def ADXL345_ConvToData_Window (reg : Int) : Option Binary32 :=
  (Binary32.ofInt reg).bind fun x => (Binary32.ofDecimal 125 100).bind fun c => Binary32.mul x c

/-- The macro `ADXL345_ConvToReg_ActivityThreshold(g) (g / 0.0625f)`. -/
def ADXL345_ConvToReg_ActivityThreshold (g : Binary32) : Option Binary32 :=
  (Binary32.ofDecimal 625 10000).bind fun c => Binary32.div g c

/-- The macro `ADXL345_ConvToData_ActivityThreshold(reg) (reg * 0.0625f)`. -/
def ADXL345_ConvToData_ActivityThreshold (reg : Int) : Option Binary32 :=
  (Binary32.ofInt reg).bind fun x => (Binary32.ofDecimal 625 10000).bind fun c => Binary32.mul x c

/-- The macro `ADXL345_ConvToReg_InactivityThreshold(g) (g / 0.0625f)`. -/
def ADXL345_ConvToReg_InactivityThreshold (g : Binary32) : Option Binary32 :=
  (Binary32.ofDecimal 625 10000).bind fun c => Binary32.div g c

/-- The macro `ADXL345_ConvToData_InactivityThreshold(reg) (reg * 0.0625f)`. -/
def ADXL345_ConvToData_InactivityThreshold (reg : Int) : Option Binary32 :=
  (Binary32.ofInt reg).bind fun x => (Binary32.ofDecimal 625 10000).bind fun c => Binary32.mul x c

/-- The macro `ADXL345_ConvToReg_InactivityTime(s) (s)`. -/
def ADXL345_ConvToReg_InactivityTime (s : Int) : Int := s

/-- The macro `ADXL345_ConvToData_InactivityTime(reg) (reg)`. -/
def ADXL345_ConvToData_InactivityTime (reg : Int) : Int := reg

/-- The macro `ADXL345_ConvToReg_FreeFallThreshold(g) ((uint8_t)(g / 0.0625f))`. -/
def ADXL345_ConvToReg_FreeFallThreshold (g : Binary32) : Option Nat :=
  ((Binary32.ofDecimal 625 10000).bind fun c => Binary32.div g c).bind Binary32.toUInt8

/-- The macro `ADXL345_ConvToData_FreeFallThreshold(reg) (reg * 0.0625f)`. -/
def ADXL345_ConvToData_FreeFallThreshold (reg : Int) : Option Binary32 :=
  (Binary32.ofInt reg).bind fun x => (Binary32.ofDecimal 625 10000).bind fun c => Binary32.mul x c

/-- The macro `ADXL345_ConvToReg_FreeFallTime(ms) ((uint8_t)(ms / 5))`: the integer
quotient, converted to `uint8_t` by wrap-around. -/
def ADXL345_ConvToReg_FreeFallTime (ms : Int) : Nat := (Int.tdiv ms 5 % 256).toNat

/-- The macro `ADXL345_ConvToData_FreeFallTime(reg) (reg * 5)`. -/
def ADXL345_ConvToData_FreeFallTime (reg : Int) : Int := reg * 5

/-! ## Size of the local buffer of `ADXL345_ReadSamples` -/

/-- The number of elements of the local array `uint8_t Buffer[32 * 6]` of
`ADXL345_ReadSamples`. -/
def ReadSamples_Buffer_size : Nat := 32 * 6

/-! ## The left-justified pattern of the specification -/

/-- The value `(v AND 0x80) OR ((v AND 0x7F) >> s)` on the two's-complement bit
pattern of `v`. -/
def leftJustifiedPattern (v : Int) (s : Nat) : Nat :=
  (intBits v &&& 0x80) ||| ((intBits v &&& 0x7F) >>> s)

/-! ## The driver on a handle structure in memory

The functions above take the handle as a value. Here the structure behind the
`Handler` pointer is part of the state every function works on, so that an
assignment to one of its members is an effect like any other: each function is
translated again with the handle read from the state at every use, a call of
a null function pointer has no outcome, and `ADXL345_SetAddressI2C` is the
assignment to `Handler->AddressI2C`. The transport functions and the callback
get the bus address and their other arguments by value and no pointer to the
structure; they act on the world state only. -/

namespace InMemory

/-- The memory a driver function works on: the structure behind its `Handler`
pointer and the state of the world behind the transport functions. -/
structure DriverState (σ : Type) where
  Handler : ADXL345_Handler_s σ
  world : σ

/-- A computation of the driver: from a state to a value and the state after it,
with no outcome (`none`) when a null function pointer is called or the iteration
bound of a loop is reached. -/
def Driver (σ α : Type) : Type := DriverState σ → Option (α × DriverState σ)

/-- The computation that yields `a` and leaves the state alone. -/
def Driver.pure {σ α : Type} (a : α) : Driver σ α := fun s => some (a, s)

/-- Sequential composition of computations. -/
def Driver.bind {σ α β : Type} (m : Driver σ α) (f : α → Driver σ β) : Driver σ β :=
  fun s => match m s with
    | none => none
    | some r => f r.1 r.2

instance {σ : Type} : Monad (Driver σ) where
  pure := Driver.pure
  bind := Driver.bind

/-- A computation leaves the handle structure as it was. -/
def Driver.Preserves {σ α : Type} (m : Driver σ α) : Prop :=
  ∀ s a t, m s = some (a, t) → t.Handler = s.Handler

/-- The structure `*Handler`, as read for the tests of its pointers against `NULL`. -/
def Handler_get {σ : Type} : Driver σ (ADXL345_Handler_s σ) := fun s => some (s.Handler, s)

/-- The assignment `Handler->AddressI2C = Address`. -/
def Handler_AddressI2C_set {σ : Type} (Address : Nat) : Driver σ Unit := fun s =>
  some ((), { s with Handler := { s.Handler with AddressI2C := Address } })

/-- The call `Handler->PlatformI2CInit()`: its status. -/
def Handler_PlatformI2CInit {σ : Type} : Driver σ Int := fun s =>
  match s.Handler.PlatformI2CInit with
  | none => none
  | some init => some ((init s.world).1, ⟨s.Handler, (init s.world).2⟩)

/-- The call `Handler->PlatformI2CDeInit()`: its status. -/
def Handler_PlatformI2CDeInit {σ : Type} : Driver σ Int := fun s =>
  match s.Handler.PlatformI2CDeInit with
  | none => none
  | some deinit => some ((deinit s.world).1, ⟨s.Handler, (deinit s.world).2⟩)

/-- The call `Handler->PlatformI2CSend(Handler->AddressI2C, Data, Len)` with the
`Len` bytes of `Data`: its status. -/
def Handler_PlatformI2CSend {σ : Type} (Data : List Nat) : Driver σ Int := fun s =>
  match s.Handler.PlatformI2CSend with
  | none => none
  | some send =>
    some ((send s.world s.Handler.AddressI2C Data).1,
      ⟨s.Handler, (send s.world s.Handler.AddressI2C Data).2⟩)

/-- The call `Handler->PlatformI2CReceive(Handler->AddressI2C, Data, Len)`: its
status and the bytes it stores at `Data[0]`, `Data[1]`, ... -/
def Handler_PlatformI2CReceive {σ : Type} (Len : Nat) : Driver σ (Int × List Nat) := fun s =>
  match s.Handler.PlatformI2CReceive with
  | none => none
  | some receive =>
    some (((receive s.world s.Handler.AddressI2C Len).1,
        (receive s.world s.Handler.AddressI2C Len).2.1),
      ⟨s.Handler, (receive s.world s.Handler.AddressI2C Len).2.2⟩)

/-- The call `Handler->InterruptCallback(Interrupt)`: the value it returns. -/
def Handler_InterruptCallback {σ : Type} (Interrupt : Nat) : Driver σ Int := fun s =>
  match s.Handler.InterruptCallback with
  | none => none
  | some callback => some ((callback s.world Interrupt).1, ⟨s.Handler, (callback s.world Interrupt).2⟩)

/-- The `while (BytesCount)` loop of `ADXL345_WriteRegs`, see `ADXL345_WriteRegs_loop`
above. -/
def ADXL345_WriteRegs_loop {σ : Type} :
    Nat → Nat → (Nat → Nat) → Nat → Driver σ ADXL345_Result_t
  | fuel, Buffer0, Data, BytesCount =>
    if BytesCount = 0 then pure ADXL345_OK
    else
      match fuel with
      | 0 => fun _ => none
      | fuel + 1 => do
        let s ← Handler_PlatformI2CSend
          (Buffer0 :: (List.range (MIN BytesCount (9 - 1))).map (fun k => Data k % 256))
        if s ≠ 0 then pure ADXL345_FAIL
        else
          ADXL345_WriteRegs_loop fuel ((Buffer0 + MIN BytesCount (9 - 1)) % 256)
            (fun k => Data (k + MIN BytesCount (9 - 1))) (BytesCount - MIN BytesCount (9 - 1))

/-- The static function `ADXL345_WriteRegs`. -/
def ADXL345_WriteRegs {σ : Type} (StartReg : Nat) (Data : Nat → Nat) (BytesCount : Nat) :
    Driver σ ADXL345_Result_t :=
  ADXL345_WriteRegs_loop BytesCount (StartReg % 256) Data BytesCount

/-- The static function `ADXL345_ReadRegs`: the result and the content of `Data`. -/
def ADXL345_ReadRegs {σ : Type} (StartReg : Nat) (Data : Nat → Nat) (BytesCount : Nat) :
    Driver σ (ADXL345_Result_t × (Nat → Nat)) := do
  let s ← Handler_PlatformI2CSend [StartReg]
  if s ≠ 0 then pure (ADXL345_FAIL, Data)
  else do
    let r ← Handler_PlatformI2CReceive BytesCount
    if r.1 ≠ 0 then pure (ADXL345_FAIL, storeBytes Data r.2 BytesCount)
    else pure (ADXL345_OK, storeBytes Data r.2 BytesCount)

/-- The function `ADXL345_Set_Offset`. -/
def ADXL345_Set_Offset {σ : Type} (X Y Z : Int) : Driver σ ADXL345_Result_t := do
  let r ← ADXL345_WriteRegs ADXL345_REG_OFSX (bytesAt [byteOfInt8 X, byteOfInt8 Y, byteOfInt8 Z]) 3
  if r ≠ ADXL345_OK then pure ADXL345_FAIL else pure ADXL345_OK

/-- The function `ADXL345_Get_Offset`: the result and the values behind the three
output pointers (`X`, `Y`, `Z` before the call). -/
def ADXL345_Get_Offset {σ : Type} (X Y Z : Int) (Buffer : Nat → Nat) :
    Driver σ (ADXL345_Result_t × (Int × Int × Int)) := do
  let r ← ADXL345_ReadRegs ADXL345_REG_OFSX Buffer 3
  if r.1 ≠ ADXL345_OK then pure (ADXL345_FAIL, (X, Y, Z))
  else pure (ADXL345_OK, (int8OfByte (r.2 0), int8OfByte (r.2 1), int8OfByte (r.2 2)))

/-- The function `ADXL345_Set_TapConfig`. -/
def ADXL345_Set_TapConfig {σ : Type} (TapConfig : ADXL345_TapConfig_t) :
    Driver σ ADXL345_Result_t := do
  let r1 ← ADXL345_WriteRegs ADXL345_REG_THRESH_TAP (bytesAt [TapConfig.TapThreshold % 256]) 1
  if r1 ≠ ADXL345_OK then pure ADXL345_FAIL
  else do
    let r2 ← ADXL345_WriteRegs ADXL345_REG_DUR
      (bytesAt [TapConfig.Duration % 256, TapConfig.Latent % 256, TapConfig.Window % 256]) 3
    if r2 ≠ ADXL345_OK then pure ADXL345_FAIL
    else
      ADXL345_WriteRegs ADXL345_REG_TAP_AXES
        (bytesAt [orIf (orIf (orIf (orIf (TapConfig.Duration % 256)
            TapConfig.TapAxis.TapEnableZ 0x01) TapConfig.TapAxis.TapEnableY 0x02)
            TapConfig.TapAxis.TapEnableX 0x04) TapConfig.TapAxis.Suppress 0x08,
          TapConfig.Latent % 256, TapConfig.Window % 256]) 1

/-- The function `ADXL345_Get_TapConfig`: the result and the caller's record, which
is cleared before the first read. -/
def ADXL345_Get_TapConfig {σ : Type} (Buffer : Nat → Nat) :
    Driver σ (ADXL345_Result_t × ADXL345_TapConfig_t) := do
  let r1 ← ADXL345_ReadRegs ADXL345_REG_THRESH_TAP Buffer 1
  if r1.1 ≠ ADXL345_OK then
    pure (ADXL345_FAIL, ⟨0, 0, 0, 0, ⟨false, false, false, false⟩⟩)
  else do
    let r2 ← ADXL345_ReadRegs ADXL345_REG_DUR r1.2 3
    if r2.1 ≠ ADXL345_OK then
      pure (ADXL345_FAIL, ⟨r1.2 0 % 256, 0, 0, 0, ⟨false, false, false, false⟩⟩)
    else do
      let r3 ← ADXL345_ReadRegs ADXL345_REG_TAP_AXES r2.2 1
      if r3.1 ≠ ADXL345_OK then
        pure (ADXL345_FAIL,
          ⟨r1.2 0 % 256, r2.2 0 % 256, r2.2 1 % 256, r2.2 2 % 256,
            ⟨false, false, false, false⟩⟩)
      else
        pure (ADXL345_OK,
          ⟨r1.2 0 % 256, r2.2 0 % 256, r2.2 1 % 256, r2.2 2 % 256,
            ⟨decide (r3.2 0 % 256 &&& 0x01 ≠ 0), decide (r3.2 0 % 256 &&& 0x02 ≠ 0),
              decide (r3.2 0 % 256 &&& 0x04 ≠ 0), decide (r3.2 0 % 256 &&& 0x08 ≠ 0)⟩⟩)

/-- The function `ADXL345_Get_TapStatus`: the result and the caller's record
(`Status` before the call). -/
def ADXL345_Get_TapStatus {σ : Type} (Status : ADXL345_ActTapStatus_t) :
    Driver σ (ADXL345_Result_t × ADXL345_ActTapStatus_t) := do
  let r ← ADXL345_ReadRegs ADXL345_REG_ACT_TAP_STATUS (fun _ => 0) 1
  if r.1 ≠ ADXL345_OK then pure (ADXL345_FAIL, Status)
  else
    pure (ADXL345_OK,
      { TapZ := if r.2 0 &&& 0x01 ≠ 0 then true else Status.TapZ
        TapY := if r.2 0 &&& 0x02 ≠ 0 then true else Status.TapY
        TapX := if r.2 0 &&& 0x04 ≠ 0 then true else Status.TapX
        Asleep := if r.2 0 &&& 0x08 ≠ 0 then true else Status.Asleep
        ActZ := if r.2 0 &&& 0x10 ≠ 0 then true else Status.ActZ
        ActY := if r.2 0 &&& 0x20 ≠ 0 then true else Status.ActY
        ActX := if r.2 0 &&& 0x40 ≠ 0 then true else Status.ActX })

/-- The function `ADXL345_Set_ActivityInactivity`. -/
def ADXL345_Set_ActivityInactivity {σ : Type}
    (ActivityInactivity : ADXL345_ActivityInactivity_t) : Driver σ ADXL345_Result_t :=
  ADXL345_WriteRegs ADXL345_REG_ACT_INACT_CTL
    (bytesAt [ActivityInactivity.ActivityThreshold % 256,
      ActivityInactivity.InactivityThreshold % 256,
      ActivityInactivity.InactivityTime % 256,
      orIf (orIf (orIf (orIf (orIf (orIf (orIf (orIf 0
        ActivityInactivity.Control.InactivityEnableZ 0x01)
        ActivityInactivity.Control.InactivityEnableY 0x02)
        ActivityInactivity.Control.InactivityEnableX 0x04)
        ActivityInactivity.Control.InactivityCoupled 0x08)
        ActivityInactivity.Control.ActivityEnableZ 0x10)
        ActivityInactivity.Control.ActivityEnableY 0x20)
        ActivityInactivity.Control.ActivityEnableX 0x40)
        ActivityInactivity.Control.ActivityCoupled 0x80]) 4

/-- The function `ADXL345_Get_ActivityInactivity`: the result and the caller's
record (`ActivityInactivity` before the call). -/
def ADXL345_Get_ActivityInactivity {σ : Type}
    (ActivityInactivity : ADXL345_ActivityInactivity_t) :
    Driver σ (ADXL345_Result_t × ADXL345_ActivityInactivity_t) := do
  let r ← ADXL345_ReadRegs ADXL345_REG_THRESH_ACT (fun _ => 0) 4
  if r.1 ≠ ADXL345_OK then pure (ADXL345_FAIL, ActivityInactivity)
  else
    pure (ADXL345_OK,
      { ActivityThreshold := r.2 0
        InactivityThreshold := r.2 1
        InactivityTime := r.2 2
        Control :=
          { InactivityEnableZ := decide (r.2 3 &&& 0x01 ≠ 0)
            InactivityEnableY := decide (r.2 3 &&& 0x02 ≠ 0)
            InactivityEnableX := decide (r.2 3 &&& 0x04 ≠ 0)
            InactivityCoupled := decide (r.2 3 &&& 0x08 ≠ 0)
            ActivityEnableZ := decide (r.2 3 &&& 0x10 ≠ 0)
            ActivityEnableY := decide (r.2 3 &&& 0x20 ≠ 0)
            ActivityEnableX := decide (r.2 3 &&& 0x40 ≠ 0)
            ActivityCoupled := decide (r.2 3 &&& 0x80 ≠ 0) } })

/-- The function `ADXL345_Set_FreeFall`. -/
def ADXL345_Set_FreeFall {σ : Type} (Threshold Time : Nat) : Driver σ ADXL345_Result_t :=
  ADXL345_WriteRegs ADXL345_REG_THRESH_FF (bytesAt [Threshold % 256, Time % 256]) 2

/-- The function `ADXL345_Get_FreeFall`: the result and the values behind the two
output pointers (`Threshold`, `Time` before the call). -/
def ADXL345_Get_FreeFall {σ : Type} (Threshold Time : Nat) :
    Driver σ (ADXL345_Result_t × (Nat × Nat)) := do
  let r ← ADXL345_ReadRegs ADXL345_REG_THRESH_FF (fun _ => 0) 2
  if r.1 ≠ ADXL345_OK then pure (ADXL345_FAIL, (Threshold, Time))
  else pure (ADXL345_OK, (r.2 0, r.2 1))

/-- The function `ADXL345_Set_Rate`. -/
def ADXL345_Set_Rate {σ : Type} (Rate : Nat) : Driver σ ADXL345_Result_t := do
  let r ← ADXL345_ReadRegs ADXL345_REG_BW_RATE (fun _ => 0) 1
  if r.1 ≠ ADXL345_OK then pure ADXL345_FAIL
  else ADXL345_WriteRegs ADXL345_REG_BW_RATE (bytesAt [((r.2 0 &&& 0xE0) ||| Rate) % 256]) 1

/-- The function `ADXL345_Get_Rate`: the result and the value behind the output
pointer (`Rate` before the call). -/
def ADXL345_Get_Rate {σ : Type} (Rate : Nat) : Driver σ (ADXL345_Result_t × Nat) := do
  let r ← ADXL345_ReadRegs ADXL345_REG_BW_RATE (fun _ => 0) 1
  if r.1 ≠ ADXL345_OK then pure (ADXL345_FAIL, Rate)
  else pure (ADXL345_OK, r.2 0 &&& 0x1F)

/-- The function `ADXL345_Set_InterruptConfig`. -/
def ADXL345_Set_InterruptConfig {σ : Type} (Config : ADXL345_InterruptConfig_t) :
    Driver σ ADXL345_Result_t := do
  let r1 ← ADXL345_WriteRegs ADXL345_REG_INT_ENABLE
    (bytesAt [interruptByte Config.Enable, interruptByte Config.Map]) 2
  if r1 ≠ ADXL345_OK then pure ADXL345_FAIL
  else do
    let r2 ← ADXL345_ReadRegs ADXL345_REG_DATA_FORMAT
      (bytesAt [interruptByte Config.Enable, interruptByte Config.Map]) 1
    if r2.1 ≠ ADXL345_OK then pure ADXL345_FAIL
    else
      ADXL345_WriteRegs ADXL345_REG_DATA_FORMAT
        (bytesAt [orIf (r2.2 0) (decide (Config.ActiveLow % 256 ≠ 0)) 0x20, r2.2 1]) 1

/-- The function `ADXL345_Get_InterruptConfig`: the result and the caller's record
(`Config` before the call). -/
def ADXL345_Get_InterruptConfig {σ : Type} (Config : ADXL345_InterruptConfig_t) :
    Driver σ (ADXL345_Result_t × ADXL345_InterruptConfig_t) := do
  let r ← ADXL345_ReadRegs ADXL345_REG_INT_ENABLE (fun _ => 0) 2
  if r.1 ≠ ADXL345_OK then pure (ADXL345_FAIL, Config)
  else
    pure (ADXL345_OK,
      { Enable := interruptFlags (r.2 0), Map := interruptFlags (r.2 1), ActiveLow := 0 })

/-- The function `ADXL345_Get_InterruptSource`: the result and the caller's record
(`Source` before the call). -/
def ADXL345_Get_InterruptSource {σ : Type} (Source : ADXL345_InterruptReg_t) :
    Driver σ (ADXL345_Result_t × ADXL345_InterruptReg_t) := do
  let r ← ADXL345_ReadRegs ADXL345_REG_INT_SOURCE (fun _ => 0) 1
  if r.1 ≠ ADXL345_OK then pure (ADXL345_FAIL, Source)
  else
    pure (ADXL345_OK,
      { Overrun := decide (r.2 0 &&& 0x01 ≠ 0)
        Watermark := decide (r.2 0 &&& 0x02 ≠ 0)
        FreeFall := decide (r.2 0 &&& 0x04 ≠ 0)
        Inactivity := decide (r.2 0 &&& 0x08 ≠ 0)
        Activity := decide (r.2 0 &&& 0x10 ≠ 0)
        DoubleTap := decide (r.2 0 &&& 0x20 ≠ 0)
        SingleTap := decide (r.2 0 &&& 0x40 ≠ 0)
        DataReady := decide (r.2 0 &&& 0x80 ≠ 0) })

/-- The function `ADXL345_Set_DataFormat`. -/
def ADXL345_Set_DataFormat {σ : Type} (DataFormat : ADXL345_DataFormat_t) :
    Driver σ ADXL345_Result_t := do
  let r ← ADXL345_ReadRegs ADXL345_REG_DATA_FORMAT (fun _ => 0) 1
  if r.1 ≠ ADXL345_OK then pure ADXL345_FAIL
  else
    ADXL345_WriteRegs ADXL345_REG_DATA_FORMAT
      (bytesAt [orIf (orIf ((r.2 0 &&& 0xF0) ||| DataFormat.Range.val)
        DataFormat.JustifyLeft 0x04) DataFormat.FullResolution 0x08]) 1

/-- The function `ADXL345_Get_DataFormat`: the result and the caller's record
(`DataFormat` before the call), whose two flags are set and never cleared. -/
def ADXL345_Get_DataFormat {σ : Type} (DataFormat : ADXL345_DataFormat_t) :
    Driver σ (ADXL345_Result_t × ADXL345_DataFormat_t) := do
  let r ← ADXL345_ReadRegs ADXL345_REG_DATA_FORMAT (fun _ => 0) 1
  if r.1 ≠ ADXL345_OK then pure (ADXL345_FAIL, DataFormat)
  else
    pure (ADXL345_OK,
      { Range := Fin.ofNat (r.2 0 &&& 0x03)
        JustifyLeft := if r.2 0 &&& 0x04 ≠ 0 then true else DataFormat.JustifyLeft
        FullResolution := if r.2 0 &&& 0x08 ≠ 0 then true else DataFormat.FullResolution })

/-- The function `ADXL345_Set_FifoConfig`. -/
def ADXL345_Set_FifoConfig {σ : Type} (Config : ADXL345_FifoConfig_t) :
    Driver σ ADXL345_Result_t :=
  ADXL345_WriteRegs ADXL345_REG_FIFO_CTL
    (bytesAt [((orIf (0 ||| (Config.WatermarkSamples.val &&& 0x1F))
      (decide (Config.Trigger ≠ 0)) 0x20) ||| (Config.Mode.val <<< 6)) % 256]) 1

/-- The function `ADXL345_Get_FifoConfig`: the result and the caller's record
(`Config` before the call). -/
def ADXL345_Get_FifoConfig {σ : Type} (Config : ADXL345_FifoConfig_t) :
    Driver σ (ADXL345_Result_t × ADXL345_FifoConfig_t) := do
  let r ← ADXL345_ReadRegs ADXL345_REG_FIFO_CTL (fun _ => 0) 1
  if r.1 ≠ ADXL345_OK then pure (ADXL345_FAIL, Config)
  else
    pure (ADXL345_OK,
      { WatermarkSamples := Fin.ofNat (r.2 0 &&& 0x1F)
        Trigger := if r.2 0 &&& 0x20 ≠ 0 then 1 else 0
        Mode := Fin.ofNat (r.2 0 >>> 6) })

/-- The function `ADXL345_Get_FifoStatus`: the result and the caller's record
(`Status` before the call). -/
def ADXL345_Get_FifoStatus {σ : Type} (Status : ADXL345_FifoStatus_t) :
    Driver σ (ADXL345_Result_t × ADXL345_FifoStatus_t) := do
  let r ← ADXL345_ReadRegs ADXL345_REG_FIFO_STATUS (fun _ => 0) 1
  if r.1 ≠ ADXL345_OK then pure (ADXL345_FAIL, Status)
  else
    pure (ADXL345_OK,
      { Entries := Fin.ofNat (r.2 0 &&& 0x3F)
        Reserved := false
        Trigger := decide (r.2 0 &&& 0x80 ≠ 0) })

/-- The function `ADXL345_Set_PowerControl`. -/
def ADXL345_Set_PowerControl {σ : Type} (PowerControl : ADXL345_PowerControl_t) :
    Driver σ ADXL345_Result_t :=
  ADXL345_WriteRegs ADXL345_REG_POWER_CTL
    (bytesAt [orIf (orIf (orIf (orIf (0 ||| (PowerControl.Wakeup.val &&& 0x03))
      PowerControl.Sleep 0x04) PowerControl.Measure 0x08) PowerControl.AutoSleep 0x10)
      PowerControl.Link 0x20]) 1

/-- The function `ADXL345_Get_PowerControl`: the result and the caller's record
(`PowerControl` before the call). -/
def ADXL345_Get_PowerControl {σ : Type} (PowerControl : ADXL345_PowerControl_t) :
    Driver σ (ADXL345_Result_t × ADXL345_PowerControl_t) := do
  let r ← ADXL345_ReadRegs ADXL345_REG_POWER_CTL (fun _ => 0) 1
  if r.1 ≠ ADXL345_OK then pure (ADXL345_FAIL, PowerControl)
  else
    pure (ADXL345_OK,
      { Wakeup := Fin.ofNat (r.2 0 &&& 0x03)
        Sleep := decide (r.2 0 &&& 0x04 ≠ 0)
        Measure := decide (r.2 0 &&& 0x08 ≠ 0)
        AutoSleep := decide (r.2 0 &&& 0x10 ≠ 0)
        Link := decide (r.2 0 &&& 0x20 ≠ 0) })

/-- The function `ADXL345_ReadSamples`: the result, the samples stored at
`Samples[0]`, `Samples[1]`, ... and the value stored in `*ReadSamples`. The
results of the three getters are not looked at. -/
def ADXL345_ReadSamples {σ : Type} (L : ReadSamples_Locals) (SamplesBufferLen : Nat) :
    Driver σ (ADXL345_Result_t × List ADXL345_Sample_t × Nat) := do
  let c ← ADXL345_Get_FifoConfig L.FifoConfig
  let d ← ADXL345_Get_DataFormat L.DataFormat
  let n ← (if c.2.Mode = ADXL345_MODE_BYPASS then (pure 1 : Driver σ Nat)
    else do
      let s ← ADXL345_Get_FifoStatus L.FifoStatus
      pure (MIN SamplesBufferLen s.2.Entries.val))
  let b ← ADXL345_ReadRegs ADXL345_REG_DATAX0 L.Buffer ((6 * n) % 256)
  if b.1 ≠ ADXL345_OK then pure (ADXL345_FAIL, [], n)
  else pure (ADXL345_OK, ADXL345_ReadSamples_loop d.2 b.2 n 0 0, n)

/-- The statement `if (flag) Handler->InterruptCallback(Interrupt);`. -/
def callbackIf {σ : Type} (flag : Bool) (Interrupt : Nat) : Driver σ Unit :=
  if flag then do
    let _ ← Handler_InterruptCallback Interrupt
    pure ()
  else pure ()

/-- The function `ADXL345_IRQ_Handler`. `Interrupt` is the indeterminate prior
content of the local record. -/
def ADXL345_IRQ_Handler {σ : Type} (Interrupt : ADXL345_InterruptReg_t) :
    Driver σ ADXL345_Result_t := do
  let h ← Handler_get
  if h.InterruptCallback.isNone then pure ADXL345_FAIL
  else do
    let g ← ADXL345_Get_InterruptSource Interrupt
    callbackIf g.2.Overrun ADXL345_INTERRUPT_OVERRUN
    callbackIf g.2.Watermark ADXL345_INTERRUPT_WATERMARK
    callbackIf g.2.FreeFall ADXL345_INTERRUPT_FREE_FALL
    callbackIf g.2.Inactivity ADXL345_INTERRUPT_INACTIVITY
    callbackIf g.2.Activity ADXL345_INTERRUPT_ACTIVITY
    callbackIf g.2.DoubleTap ADXL345_INTERRUPT_DOUBLE_TAP
    callbackIf g.2.SingleTap ADXL345_INTERRUPT_SINGLE_TAP
    callbackIf g.2.DataReady ADXL345_INTERRUPT_DATA_READY
    pure ADXL345_OK

/-- The function `ADXL345_SetAddressI2C`. -/
def ADXL345_SetAddressI2C {σ : Type} (Address : Nat) : Driver σ ADXL345_Result_t := do
  if Address = 0 then Handler_AddressI2C_set ADXL345_I2C_ADDRESS_A
  else Handler_AddressI2C_set ADXL345_I2C_ADDRESS_B
  pure ADXL345_OK

/-- The function `ADXL345_Init`. -/
def ADXL345_Init {σ : Type} : Driver σ ADXL345_Result_t := do
  let h ← Handler_get
  if h.PlatformI2CInit.isNone || h.PlatformI2CDeInit.isNone || h.PlatformI2CSend.isNone ||
      h.PlatformI2CReceive.isNone then pure ADXL345_FAIL
  else do
    let _ ← ADXL345_SetAddressI2C 0
    let r ← Handler_PlatformI2CInit
    if r ≠ 0 then pure ADXL345_FAIL else pure ADXL345_OK

/-- The function `ADXL345_DeInit`. `PowerControl` is the indeterminate prior content
of the local record. -/
def ADXL345_DeInit {σ : Type} (PowerControl : ADXL345_PowerControl_t) :
    Driver σ ADXL345_Result_t := do
  let g ← ADXL345_Get_PowerControl PowerControl
  if g.1 ≠ ADXL345_OK then pure ADXL345_FAIL
  else do
    let s ← ADXL345_Set_PowerControl { g.2 with Sleep := true, Measure := false }
    if s ≠ ADXL345_OK then pure ADXL345_FAIL
    else do
      let r ← Handler_PlatformI2CDeInit
      if r ≠ 0 then pure ADXL345_FAIL else pure ADXL345_OK

/-- The function `ADXL345_CheckDeviceID`. -/
def ADXL345_CheckDeviceID {σ : Type} : Driver σ ADXL345_Result_t := do
  let r ← ADXL345_ReadRegs ADXL345_REG_DEVID (fun _ => 0) 1
  if r.1 ≠ ADXL345_OK then pure ADXL345_FAIL
  else if r.2 0 ≠ ADXL345_DEVICE_ID then pure ADXL345_FAIL
  else pure ADXL345_OK

/-- The result of a public call on the handle in memory. -/
def call {σ : Type} (c : PublicCall) : Driver σ ADXL345_Result_t :=
  match c with
  | PublicCall.Set_Offset X Y Z => ADXL345_Set_Offset X Y Z
  | PublicCall.Get_Offset X Y Z Buffer => do
    let r ← ADXL345_Get_Offset X Y Z Buffer
    pure r.1
  | PublicCall.Set_TapConfig TapConfig => ADXL345_Set_TapConfig TapConfig
  | PublicCall.Get_TapConfig Buffer => do
    let r ← ADXL345_Get_TapConfig Buffer
    pure r.1
  | PublicCall.Get_TapStatus Status => do
    let r ← ADXL345_Get_TapStatus Status
    pure r.1
  | PublicCall.Set_ActivityInactivity ActivityInactivity =>
    ADXL345_Set_ActivityInactivity ActivityInactivity
  | PublicCall.Get_ActivityInactivity ActivityInactivity => do
    let r ← ADXL345_Get_ActivityInactivity ActivityInactivity
    pure r.1
  | PublicCall.Set_FreeFall Threshold Time => ADXL345_Set_FreeFall Threshold Time
  | PublicCall.Get_FreeFall Threshold Time => do
    let r ← ADXL345_Get_FreeFall Threshold Time
    pure r.1
  | PublicCall.Set_Rate Rate => ADXL345_Set_Rate Rate
  | PublicCall.Get_Rate Rate => do
    let r ← ADXL345_Get_Rate Rate
    pure r.1
  | PublicCall.Set_InterruptConfig Config => ADXL345_Set_InterruptConfig Config
  | PublicCall.Get_InterruptConfig Config => do
    let r ← ADXL345_Get_InterruptConfig Config
    pure r.1
  | PublicCall.Get_InterruptSource Source => do
    let r ← ADXL345_Get_InterruptSource Source
    pure r.1
  | PublicCall.Set_DataFormat DataFormat => ADXL345_Set_DataFormat DataFormat
  | PublicCall.Get_DataFormat DataFormat => do
    let r ← ADXL345_Get_DataFormat DataFormat
    pure r.1
  | PublicCall.Set_FifoConfig Config => ADXL345_Set_FifoConfig Config
  | PublicCall.Get_FifoConfig Config => do
    let r ← ADXL345_Get_FifoConfig Config
    pure r.1
  | PublicCall.Get_FifoStatus Status => do
    let r ← ADXL345_Get_FifoStatus Status
    pure r.1
  | PublicCall.Set_PowerControl PowerControl => ADXL345_Set_PowerControl PowerControl
  | PublicCall.Get_PowerControl PowerControl => do
    let r ← ADXL345_Get_PowerControl PowerControl
    pure r.1
  | PublicCall.ReadSamples L SamplesBufferLen => do
    let r ← ADXL345_ReadSamples L SamplesBufferLen
    pure r.1
  | PublicCall.IRQ_Handler Interrupt => ADXL345_IRQ_Handler Interrupt
  | PublicCall.Init => ADXL345_Init
  | PublicCall.DeInit PowerControl => ADXL345_DeInit PowerControl
  | PublicCall.SetAddressI2C Address => ADXL345_SetAddressI2C Address
  | PublicCall.CheckDeviceID => ADXL345_CheckDeviceID

end InMemory

/-- Run a public call on the handle structure in memory: the result, the handle
structure after the call and the world state; no outcome (`none`) when the call
goes through a null function pointer. -/
def runCall {σ : Type} (c : PublicCall) (S : ADXL345_Handler_s σ) (w : σ) :
    Option (ADXL345_Result_t × ADXL345_Handler_s σ × σ) :=
  (InMemory.call c ⟨S, w⟩).map fun r => (r.1, r.2.Handler, r.2.world)

/-- The result and the world state of a public call by the functions on the
handle value `H`, the handle with non-null transport pointers. -/
def PublicCall.onHandle {σ : Type} (c : PublicCall) (H : ADXL345_Handler_t σ) (w : σ) :
    Option (ADXL345_Result_t × σ) :=
  match c with
  | PublicCall.Set_Offset X Y Z => ADXL345_Set_Offset H w X Y Z
  | PublicCall.Get_Offset X Y Z Buffer =>
    some ((ADXL345_Get_Offset H w X Y Z Buffer).1, (ADXL345_Get_Offset H w X Y Z Buffer).2.2)
  | PublicCall.Set_TapConfig TapConfig => ADXL345_Set_TapConfig H w TapConfig
  | PublicCall.Get_TapConfig Buffer =>
    some ((ADXL345_Get_TapConfig H w Buffer).1, (ADXL345_Get_TapConfig H w Buffer).2.2)
  | PublicCall.Get_TapStatus Status =>
    some ((ADXL345_Get_TapStatus H w Status).1, (ADXL345_Get_TapStatus H w Status).2.2)
  | PublicCall.Set_ActivityInactivity ActivityInactivity =>
    ADXL345_Set_ActivityInactivity H w ActivityInactivity
  | PublicCall.Get_ActivityInactivity ActivityInactivity =>
    some ((ADXL345_Get_ActivityInactivity H w ActivityInactivity).1,
      (ADXL345_Get_ActivityInactivity H w ActivityInactivity).2.2)
  | PublicCall.Set_FreeFall Threshold Time => ADXL345_Set_FreeFall H w Threshold Time
  | PublicCall.Get_FreeFall Threshold Time =>
    some ((ADXL345_Get_FreeFall H w Threshold Time).1,
      (ADXL345_Get_FreeFall H w Threshold Time).2.2)
  | PublicCall.Set_Rate Rate => ADXL345_Set_Rate H w Rate
  | PublicCall.Get_Rate Rate =>
    some ((ADXL345_Get_Rate H w Rate).1, (ADXL345_Get_Rate H w Rate).2.2)
  | PublicCall.Set_InterruptConfig Config => ADXL345_Set_InterruptConfig H w Config
  | PublicCall.Get_InterruptConfig Config =>
    some ((ADXL345_Get_InterruptConfig H w Config).1,
      (ADXL345_Get_InterruptConfig H w Config).2.2)
  | PublicCall.Get_InterruptSource Source =>
    some ((ADXL345_Get_InterruptSource H w Source).1,
      (ADXL345_Get_InterruptSource H w Source).2.2)
  | PublicCall.Set_DataFormat DataFormat => ADXL345_Set_DataFormat H w DataFormat
  | PublicCall.Get_DataFormat DataFormat =>
    some ((ADXL345_Get_DataFormat H w DataFormat).1,
      (ADXL345_Get_DataFormat H w DataFormat).2.2)
  | PublicCall.Set_FifoConfig Config => ADXL345_Set_FifoConfig H w Config
  | PublicCall.Get_FifoConfig Config =>
    some ((ADXL345_Get_FifoConfig H w Config).1, (ADXL345_Get_FifoConfig H w Config).2.2)
  | PublicCall.Get_FifoStatus Status =>
    some ((ADXL345_Get_FifoStatus H w Status).1, (ADXL345_Get_FifoStatus H w Status).2.2)
  | PublicCall.Set_PowerControl PowerControl => ADXL345_Set_PowerControl H w PowerControl
  | PublicCall.Get_PowerControl PowerControl =>
    some ((ADXL345_Get_PowerControl H w PowerControl).1,
      (ADXL345_Get_PowerControl H w PowerControl).2.2)
  | PublicCall.ReadSamples L SamplesBufferLen =>
    some ((ADXL345_ReadSamples H w L SamplesBufferLen).Result,
      (ADXL345_ReadSamples H w L SamplesBufferLen).world)
  | PublicCall.IRQ_Handler Interrupt => some (ADXL345_IRQ_Handler H w Interrupt)
  | PublicCall.Init =>
    some ((ADXL345_Init H.toStruct w).1, (ADXL345_Init H.toStruct w).2.2)
  | PublicCall.DeInit PowerControl => ADXL345_DeInit H w PowerControl
  | PublicCall.SetAddressI2C Address => some ((ADXL345_SetAddressI2C H.toStruct Address).1, w)
  | PublicCall.CheckDeviceID => some (ADXL345_CheckDeviceID H w)

/-! ## Lemmas on the register access layer and the getters -/

theorem storeBytes_zero_lt (bytes : List Nat) (n k : Nat) :
    storeBytes (fun _ => 0) bytes n k < 256 := by
  unfold storeBytes
  dsimp only
  split_ifs
  · split
    · exact Nat.mod_lt _ (by norm_num)
    · norm_num
  · norm_num

theorem ReadRegs_byte_lt {σ : Type} (H : ADXL345_Handler_t σ) (w : σ) (reg n k : Nat) :
    (ADXL345_ReadRegs H w reg (fun _ => 0) n).2.1 k < 256 := by
  unfold ADXL345_ReadRegs
  dsimp only
  split_ifs
  · norm_num
  · exact storeBytes_zero_lt _ _ _
  · exact storeBytes_zero_lt _ _ _

theorem Get_FifoConfig_Mode {σ : Type} (H : ADXL345_Handler_t σ) (w : σ)
    (C : ADXL345_FifoConfig_t)
    (h : (ADXL345_ReadRegs H w ADXL345_REG_FIFO_CTL (fun _ => 0) 1).1 = ADXL345_OK) :
    (ADXL345_Get_FifoConfig H w C).2.1.Mode.val =
      (ADXL345_ReadRegs H w ADXL345_REG_FIFO_CTL (fun _ => 0) 1).2.1 0 / 64 % 4 ∧
    (ADXL345_Get_FifoConfig H w C).2.2 =
      (ADXL345_ReadRegs H w ADXL345_REG_FIFO_CTL (fun _ => 0) 1).2.2 := by
  unfold ADXL345_Get_FifoConfig
  simp [h, Fin.ofNat, Nat.shiftRight_eq_div_pow]

theorem Get_FifoStatus_Entries {σ : Type} (H : ADXL345_Handler_t σ) (w : σ)
    (S : ADXL345_FifoStatus_t)
    (h : (ADXL345_ReadRegs H w ADXL345_REG_FIFO_STATUS (fun _ => 0) 1).1 = ADXL345_OK) :
    (ADXL345_Get_FifoStatus H w S).2.1.Entries.val =
      (ADXL345_ReadRegs H w ADXL345_REG_FIFO_STATUS (fun _ => 0) 1).2.1 0 % 64 := by
  unfold ADXL345_Get_FifoStatus
  have e : ∀ r : Nat, r &&& 0x3F = r % 64 := fun r => Nat.and_pow_two_sub_one_eq_mod r 6
  simp [h, Fin.ofNat, e]
  split_ifs <;> simp

theorem MIN_eq_min (a b : Nat) : MIN a b = min a b := by
  unfold MIN
  split_ifs <;> omega

theorem ReadRegs_recording {σ : Type} (H : ADXL345_Handler_t σ)
    (wt : σ × List PlatformEvent) (reg : Nat) (buf : Nat → Nat) (n : Nat) :
    ((ADXL345_ReadRegs (recording H) wt reg buf n).2.2.2 =
        wt.2 ++ [PlatformEvent.send H.AddressI2C [reg]] ∧
      (ADXL345_ReadRegs (recording H) wt reg buf n).1 = ADXL345_FAIL) ∨
    (ADXL345_ReadRegs (recording H) wt reg buf n).2.2.2 =
        wt.2 ++ [PlatformEvent.send H.AddressI2C [reg], PlatformEvent.receive H.AddressI2C n] := by
  unfold ADXL345_ReadRegs recording
  dsimp only
  split_ifs
  · left; exact ⟨rfl, rfl⟩
  · right; simp
  · right; simp

theorem Get_FifoConfig_world {σ : Type} (H : ADXL345_Handler_t σ) (w : σ)
    (C : ADXL345_FifoConfig_t) :
    (ADXL345_Get_FifoConfig H w C).2.2 =
      (ADXL345_ReadRegs H w ADXL345_REG_FIFO_CTL (fun _ => 0) 1).2.2 := by
  unfold ADXL345_Get_FifoConfig
  dsimp only
  split_ifs <;> rfl

theorem Get_DataFormat_world {σ : Type} (H : ADXL345_Handler_t σ) (w : σ)
    (C : ADXL345_DataFormat_t) :
    (ADXL345_Get_DataFormat H w C).2.2 =
      (ADXL345_ReadRegs H w ADXL345_REG_DATA_FORMAT (fun _ => 0) 1).2.2 := by
  unfold ADXL345_Get_DataFormat
  dsimp only
  split_ifs <;> rfl

theorem Get_FifoStatus_world {σ : Type} (H : ADXL345_Handler_t σ) (w : σ)
    (C : ADXL345_FifoStatus_t) :
    (ADXL345_Get_FifoStatus H w C).2.2 =
      (ADXL345_ReadRegs H w ADXL345_REG_FIFO_STATUS (fun _ => 0) 1).2.2 := by
  unfold ADXL345_Get_FifoStatus
  dsimp only
  split_ifs <;> rfl

/-- The trace a register read of `reg` appends never contains the address send of
another register. -/
theorem ReadRegs_recording_other {σ : Type} (H : ADXL345_Handler_t σ) (wt : σ × List PlatformEvent)
    (reg reg2 : Nat) (buf : Nat → Nat) (n : Nat) (hne : reg ≠ reg2) :
    ∃ es, (ADXL345_ReadRegs (recording H) wt reg buf n).2.2.2 = wt.2 ++ es ∧
      PlatformEvent.send H.AddressI2C [reg2] ∉ es := by
  rcases ReadRegs_recording H wt reg buf n with ⟨h, _⟩ | h
  · exact ⟨_, h, by simp [Ne.symm hne]⟩
  · exact ⟨_, h, by simp [Ne.symm hne]⟩

theorem ReadSamples_count_recording {σ : Type} (H : ADXL345_Handler_t σ) (w : σ)
    (L : ReadSamples_Locals) (len : Nat) :
    ∃ pre, (ADXL345_ReadSamples_count (recording H) (w, []) L len).2.2.2 = pre ∧
      PlatformEvent.send H.AddressI2C [ADXL345_REG_DATAX0] ∉ pre := by
  refine ⟨_, rfl, ?_⟩
  obtain ⟨e1, h1, n1⟩ := ReadRegs_recording_other H (w, []) ADXL345_REG_FIFO_CTL
    ADXL345_REG_DATAX0 (fun _ => 0) 1 (by decide)
  obtain ⟨e2, h2, n2⟩ := ReadRegs_recording_other H
    (ADXL345_Get_FifoConfig (recording H) (w, []) L.FifoConfig).2.2 ADXL345_REG_DATA_FORMAT
    ADXL345_REG_DATAX0 (fun _ => 0) 1 (by decide)
  obtain ⟨e3, h3, n3⟩ := ReadRegs_recording_other H
    (ADXL345_Get_DataFormat (recording H)
      (ADXL345_Get_FifoConfig (recording H) (w, []) L.FifoConfig).2.2 L.DataFormat).2.2
    ADXL345_REG_FIFO_STATUS ADXL345_REG_DATAX0 (fun _ => 0) 1 (by decide)
  rw [← Get_FifoStatus_world _ _ L.FifoStatus] at h3
  rw [← Get_DataFormat_world _ _ L.DataFormat] at h2
  rw [← Get_FifoConfig_world _ _ L.FifoConfig] at h1
  rw [h2, h1] at h3
  rw [h1] at h2
  unfold ADXL345_ReadSamples_count
  dsimp only
  split_ifs
  · rw [h2]; simp [n1, n2]
  · rw [h3]; simp [n1, n2, n3]

theorem ReadSamples_fields {σ : Type} (H : ADXL345_Handler_t σ) (w : σ)
    (L : ReadSamples_Locals) (len : Nat) :
    (ADXL345_ReadSamples H w L len).ReadSamples = (ADXL345_ReadSamples_count H w L len).2.1 ∧
    (ADXL345_ReadSamples H w L len).world =
      (ADXL345_ReadRegs H (ADXL345_ReadSamples_count H w L len).2.2 ADXL345_REG_DATAX0
        L.Buffer ((6 * (ADXL345_ReadSamples_count H w L len).2.1) % 256)).2.2 ∧
    ((ADXL345_ReadSamples H w L len).Result = ADXL345_FAIL ↔
      (ADXL345_ReadRegs H (ADXL345_ReadSamples_count H w L len).2.2 ADXL345_REG_DATAX0
        L.Buffer ((6 * (ADXL345_ReadSamples_count H w L len).2.1) % 256)).1 ≠ ADXL345_OK) := by
  unfold ADXL345_ReadSamples
  dsimp only
  split_ifs with h
  · exact ⟨rfl, rfl, by simp [h]⟩
  · exact ⟨rfl, rfl, by simp [h]⟩

theorem assembleRaw_eq (B : Nat → Nat) (hi lo : Nat) :
    assembleRaw B hi lo = twosComplement16 (B hi % 256 * 256 + B lo % 256) := by
  unfold assembleRaw twosComplement16
  have hh := Nat.mod_lt (B hi) (show 256 > 0 by norm_num)
  have hl := Nat.mod_lt (B lo) (show 256 > 0 by norm_num)
  generalize B hi % 256 = h at *
  generalize B lo % 256 = l at *
  rw [Nat.shiftLeft_eq]
  have hl8 : l < 2 ^ 8 := by norm_num; exact hl
  have e3 : intBits ((l : Nat) : Int) = l := by unfold intBits; omega
  by_cases c : h < 128
  · have e1 : toInt16 ((h * 2 ^ 8 : Nat) : Int) = ((2 ^ 8 * h : Nat) : Int) := by
      unfold toInt16; push_cast; split_ifs <;> omega
    have e2 : intBits ((2 ^ 8 * h : Nat) : Int) = 2 ^ 8 * h := by unfold intBits; omega
    unfold intOr
    rw [e1, e2, e3, ← Nat.mul_add_lt_is_or hl8]
    unfold ofIntBits toInt16
    split_ifs <;> omega
  · have e1 : toInt16 ((h * 2 ^ 8 : Nat) : Int) = ((2 ^ 8 * h : Nat) : Int) - 65536 := by
      unfold toInt16; push_cast; split_ifs <;> omega
    have e2 : intBits (((2 ^ 8 * h : Nat) : Int) - 65536) = 2 ^ 8 * (16776960 + h) := by
      unfold intBits; omega
    unfold intOr
    rw [e1, e2, e3, ← Nat.mul_add_lt_is_or hl8]
    unfold ofIntBits toInt16
    split_ifs <;> omega

theorem body_fst_indep (DF : ADXL345_DataFormat_t) (B : Nat → Nat) (F : ℚ) (i : Nat) :
    (ADXL345_ReadSamples_body DF B F i).1 = (ADXL345_ReadSamples_body DF B 0 i).1 := by
  obtain ⟨R, JL, FR⟩ := DF
  unfold ADXL345_ReadSamples_body
  cases FR
  · fin_cases R <;> simp [ADXL345_RANGE_2G, ADXL345_RANGE_4G, ADXL345_RANGE_8G, ADXL345_RANGE_16G]
  · simp

theorem loop_getElem? (DF : ADXL345_DataFormat_t) (B : Nat → Nat) (n i : Nat) (F : ℚ) (k : Nat) :
    (ADXL345_ReadSamples_loop DF B n i F)[k]? =
      if k < n then some (ADXL345_ReadSamples_body DF B 0 (i + k)).1 else none := by
  induction n generalizing i F k with
  | zero => simp [ADXL345_ReadSamples_loop]
  | succ n ih =>
    unfold ADXL345_ReadSamples_loop
    cases k with
    | zero => simp [body_fst_indep DF B F i]
    | succ k =>
      simp only [List.getElem?_cons_succ, ih]
      have : i + 1 + k = i + (k + 1) := by omega
      simp [this]

theorem loop_length (DF : ADXL345_DataFormat_t) (B : Nat → Nat) (n i : Nat) (F : ℚ) :
    (ADXL345_ReadSamples_loop DF B n i F).length = n := by
  induction n generalizing i F with
  | zero => rfl
  | succ n ih => simp [ADXL345_ReadSamples_loop, ih]

theorem loop_mem (DF : ADXL345_DataFormat_t) (B : Nat → Nat) (n i : Nat) (F : ℚ)
    (s : ADXL345_Sample_t) (hs : s ∈ ADXL345_ReadSamples_loop DF B n i F) :
    ∃ k, s = (ADXL345_ReadSamples_body DF B 0 k).1 := by
  obtain ⟨k, hk⟩ := List.mem_iff_getElem?.1 hs
  rw [loop_getElem?] at hk
  split_ifs at hk
  exact ⟨i + k, (Option.some.inj hk).symm⟩

theorem ReadSamples_Samples {σ : Type} (H : ADXL345_Handler_t σ) (w : σ)
    (L : ReadSamples_Locals) (len : Nat) :
    ((ADXL345_ReadSamples H w L len).Result = ADXL345_OK →
      (ADXL345_ReadSamples H w L len).Samples =
        ADXL345_ReadSamples_loop (ADXL345_ReadSamples H w L len).DataFormat
          (ADXL345_ReadSamples H w L len).Buffer (ADXL345_ReadSamples H w L len).ReadSamples 0 0) ∧
    ((ADXL345_ReadSamples H w L len).Result ≠ ADXL345_OK →
      (ADXL345_ReadSamples H w L len).Samples = []) := by
  unfold ADXL345_ReadSamples
  dsimp only
  split_ifs with h
  · simp
  · simp

theorem body_Factor (DF : ADXL345_DataFormat_t) (B : Nat → Nat) (F : ℚ) (i : Nat) :
    (ADXL345_ReadSamples_body DF B F i).2 = scaleFactor DF := by
  obtain ⟨R, JL, FR⟩ := DF
  unfold ADXL345_ReadSamples_body scaleFactor
  cases FR
  · fin_cases R <;>
      simp [ADXL345_RANGE_2G, ADXL345_RANGE_4G, ADXL345_RANGE_8G, ADXL345_RANGE_16G, rangeScale]
  · simp

theorem body_Accel (DF : ADXL345_DataFormat_t) (B : Nat → Nat) (F : ℚ) (i : Nat) :
    (ADXL345_ReadSamples_body DF B F i).1.AccelX =
        ((ADXL345_ReadSamples_body DF B F i).1.RawX : ℚ) * (ADXL345_ReadSamples_body DF B F i).2 ∧
    (ADXL345_ReadSamples_body DF B F i).1.AccelY =
        ((ADXL345_ReadSamples_body DF B F i).1.RawY : ℚ) * (ADXL345_ReadSamples_body DF B F i).2 ∧
    (ADXL345_ReadSamples_body DF B F i).1.AccelZ =
        ((ADXL345_ReadSamples_body DF B F i).1.RawZ : ℚ) * (ADXL345_ReadSamples_body DF B F i).2 := by
  unfold ADXL345_ReadSamples_body
  split_ifs <;> exact ⟨rfl, rfl, rfl⟩

theorem body_Raw_unjustified (DF : ADXL345_DataFormat_t) (B : Nat → Nat) (F : ℚ) (i : Nat)
    (h : DF.JustifyLeft = false) :
    (ADXL345_ReadSamples_body DF B F i).1.RawX = assembleRaw B (1 + i * 6) (0 + i * 6) ∧
    (ADXL345_ReadSamples_body DF B F i).1.RawY = assembleRaw B (3 + i * 6) (2 + i * 6) ∧
    (ADXL345_ReadSamples_body DF B F i).1.RawZ = assembleRaw B (5 + i * 6) (4 + i * 6) := by
  obtain ⟨R, JL, FR⟩ := DF
  dsimp only at h
  subst h
  unfold ADXL345_ReadSamples_body
  cases FR <;> simp

theorem Samples_mem_scaled {σ : Type} (H : ADXL345_Handler_t σ) (w : σ)
    (L : ReadSamples_Locals) (len : Nat) (s : ADXL345_Sample_t)
    (hs : s ∈ (ADXL345_ReadSamples H w L len).Samples) :
    s.AccelX = (s.RawX : ℚ) * scaleFactor (ADXL345_ReadSamples H w L len).DataFormat ∧
    s.AccelY = (s.RawY : ℚ) * scaleFactor (ADXL345_ReadSamples H w L len).DataFormat ∧
    s.AccelZ = (s.RawZ : ℚ) * scaleFactor (ADXL345_ReadSamples H w L len).DataFormat := by
  by_cases hok : (ADXL345_ReadSamples H w L len).Result = ADXL345_OK
  · rw [(ReadSamples_Samples H w L len).1 hok] at hs
    obtain ⟨k, rfl⟩ := loop_mem _ _ _ _ _ _ hs
    have := body_Accel (ADXL345_ReadSamples H w L len).DataFormat
      (ADXL345_ReadSamples H w L len).Buffer 0 k
    rw [body_Factor] at this
    exact this
  · rw [(ReadSamples_Samples H w L len).2 hok] at hs
    cases hs

/-- The calls `ADXL345_ReadSamples` makes through the handle: calls that never send
the address of register 0x32, then one send of the single byte 0x32, then
(unless that send failed) one receive whose length is the `uint8_t` value of
`6 * (*ReadSamples)`. -/
theorem ReadSamples_bulk_read_trace {σ : Type} (H : ADXL345_Handler_t σ) (w : σ)
    (L : ReadSamples_Locals) (SamplesBufferLen : Nat) :
    ∃ pre : List PlatformEvent,
      PlatformEvent.send H.AddressI2C [ADXL345_REG_DATAX0] ∉ pre ∧
      (((ADXL345_ReadSamples (recording H) (w, []) L SamplesBufferLen).world.2 =
          pre ++ [PlatformEvent.send H.AddressI2C [ADXL345_REG_DATAX0]] ∧
        (ADXL345_ReadSamples (recording H) (w, []) L SamplesBufferLen).Result = ADXL345_FAIL) ∨
       (ADXL345_ReadSamples (recording H) (w, []) L SamplesBufferLen).world.2 =
          pre ++ [PlatformEvent.send H.AddressI2C [ADXL345_REG_DATAX0],
            PlatformEvent.receive H.AddressI2C
              (6 * (ADXL345_ReadSamples (recording H) (w, []) L SamplesBufferLen).ReadSamples
                % 256)]) := by
  obtain ⟨pre, hpre, hn⟩ := ReadSamples_count_recording H w L SamplesBufferLen
  obtain ⟨hc, hw, hr⟩ := ReadSamples_fields (recording H) (w, []) L SamplesBufferLen
  refine ⟨pre, hn, ?_⟩
  rw [hw, hc, hr]
  have := ReadRegs_recording H
    (ADXL345_ReadSamples_count (recording H) (w, []) L SamplesBufferLen).2.2
    ADXL345_REG_DATAX0 L.Buffer
    ((6 * (ADXL345_ReadSamples_count (recording H) (w, []) L SamplesBufferLen).2.1) % 256)
  rw [hpre] at this
  rcases this with ⟨h1, h2⟩ | h1
  · left; exact ⟨h1, by rw [h2]; decide⟩
  · right; exact h1

/-! ## Claims on `ADXL345_ReadSamples` -/

/-- Claim C1. When the read of FIFO_CTL succeeds with byte `ctl 0`, the count
`ADXL345_ReadSamples` stores in `*ReadSamples` is 1 if the mode bits 6..7 are
bypass (for every capacity), and otherwise, when the read of FIFO_STATUS succeeds
with byte `st 0`, it is the minimum of the capacity and the low six bits of that
byte. On the ideal device in stream mode with 10 entries and capacity 5 it is 5. -/
theorem C1_reported_count {σ : Type} (H : ADXL345_Handler_t σ) (w : σ)
    (L : ReadSamples_Locals) (SamplesBufferLen : Nat) (ctl : Nat → Nat) (w1 : σ)
    (hctl : ADXL345_ReadRegs H w ADXL345_REG_FIFO_CTL (fun _ => 0) 1 = (ADXL345_OK, ctl, w1)) :
    (ctl 0 / 64 % 4 = 0 →
      (ADXL345_ReadSamples H w L SamplesBufferLen).ReadSamples = 1) ∧
    (ctl 0 / 64 % 4 ≠ 0 → ∀ (st : Nat → Nat) (w3 : σ),
      ADXL345_ReadRegs H (ADXL345_Get_DataFormat H w1 L.DataFormat).2.2
        ADXL345_REG_FIFO_STATUS (fun _ => 0) 1 = (ADXL345_OK, st, w3) →
      (ADXL345_ReadSamples H w L SamplesBufferLen).ReadSamples =
        min SamplesBufferLen (st 0 % 64)) ∧
    (ADXL345_ReadSamples simHandler (simDevice [(0x38, 0x80), (0x39, 10)]) zeroLocals
      5).ReadSamples = 5 := by
  have hc := Get_FifoConfig_Mode H w L.FifoConfig (by rw [hctl])
  rw [hctl] at hc
  obtain ⟨hm, hw⟩ := hc
  dsimp only at hm hw
  have hby : (ADXL345_Get_FifoConfig H w L.FifoConfig).2.1.Mode = ADXL345_MODE_BYPASS ↔
      ctl 0 / 64 % 4 = 0 := by
    rw [← hm, Fin.ext_iff]; rfl
  refine ⟨?_, ?_, by decide⟩
  · intro h0
    have := hby.2 h0
    simp [ADXL345_ReadSamples, ADXL345_ReadSamples_count, this]
    split_ifs <;> rfl
  · intro h0 st w3 hst
    have hn : ¬ (ADXL345_Get_FifoConfig H w L.FifoConfig).2.1.Mode = ADXL345_MODE_BYPASS :=
      fun h => h0 (hby.1 h)
    have he := Get_FifoStatus_Entries H (ADXL345_Get_DataFormat H w1 L.DataFormat).2.2
      L.FifoStatus (by rw [hst])
    rw [hst] at he
    dsimp only at he
    simp only [ADXL345_ReadSamples, ADXL345_ReadSamples_count, hn, if_false, hw, he, MIN_eq_min]
    split_ifs <;> rfl

/-- Witness of C1 on the ideal device: bypass mode with capacity 7 reports 1, and
trigger mode with 3 entries and capacity 7 reports 3. -/
theorem C1_reported_count_witness :
    (ADXL345_ReadSamples simHandler (simDevice [(0x38, 0x1F)]) zeroLocals 7).ReadSamples = 1 ∧
    (ADXL345_ReadSamples simHandler (simDevice [(0x38, 0xC0), (0x39, 0x83)]) zeroLocals
      7).ReadSamples = min 7 (0x83 % 64) :=
  ⟨(C1_reported_count simHandler (simDevice [(0x38, 0x1F)]) zeroLocals 7
      (ADXL345_ReadRegs simHandler (simDevice [(0x38, 0x1F)]) ADXL345_REG_FIFO_CTL
        (fun _ => 0) 1).2.1
      (ADXL345_ReadRegs simHandler (simDevice [(0x38, 0x1F)]) ADXL345_REG_FIFO_CTL
        (fun _ => 0) 1).2.2 rfl).1 (by decide),
   (C1_reported_count simHandler (simDevice [(0x38, 0xC0), (0x39, 0x83)]) zeroLocals 7
      (ADXL345_ReadRegs simHandler (simDevice [(0x38, 0xC0), (0x39, 0x83)]) ADXL345_REG_FIFO_CTL
        (fun _ => 0) 1).2.1
      (ADXL345_ReadRegs simHandler (simDevice [(0x38, 0xC0), (0x39, 0x83)]) ADXL345_REG_FIFO_CTL
        (fun _ => 0) 1).2.2 rfl).2.1 (by decide) _ _ rfl⟩

/-- Claim C2, evaluated where it fails: with capacity 0 and the FIFO in bypass
mode, `ADXL345_ReadSamples` returns OK, reports 1 sample and stores one sample at
`Samples[0]`, which is more than the capacity; the non-bypass branch clamps the
count to the capacity. -/
theorem C2_bypass_exceeds_zero_capacity :
    (ADXL345_ReadSamples simHandler (simDevice [(0x38, 0x00)]) zeroLocals 0).Result
      = ADXL345_OK ∧
    (ADXL345_ReadSamples simHandler (simDevice [(0x38, 0x00)]) zeroLocals 0).ReadSamples = 1 ∧
    (ADXL345_ReadSamples simHandler (simDevice [(0x38, 0x00)]) zeroLocals 0).Samples.length
      = 1 ∧
    ¬ (ADXL345_ReadSamples simHandler (simDevice [(0x38, 0x00)]) zeroLocals 0).ReadSamples
      ≤ 0 ∧
    (∀ e : Fin 64,
      (ADXL345_ReadSamples simHandler (simDevice [(0x38, 0x80), (0x39, e.val)]) zeroLocals
        0).ReadSamples = 0) := by
  decide

/-- Claim C3. For every transport, capacity and prior content of the locals, the
calls `ADXL345_ReadSamples` makes through the handle are: calls that never send
the address of register 0x32, then one send of the single byte 0x32, then
(unless that send failed, in which case the function returns FAIL) one receive
whose length is 6 × count reduced modulo 256 by the `uint8_t` parameter, where
count is the value stored in `*ReadSamples`. In stream mode with the FIFO_STATUS
byte 0x3F and capacity 255 the reported count is 63 and the receive asks for
122 bytes; no receive of 6 × 63 = 378 bytes is issued. -/
theorem C3_bulk_read_length_narrowed {σ : Type} (H : ADXL345_Handler_t σ) (w : σ)
    (L : ReadSamples_Locals) (SamplesBufferLen : Nat) :
    (∃ pre : List PlatformEvent,
      PlatformEvent.send H.AddressI2C [ADXL345_REG_DATAX0] ∉ pre ∧
      (((ADXL345_ReadSamples (recording H) (w, []) L SamplesBufferLen).world.2 =
          pre ++ [PlatformEvent.send H.AddressI2C [ADXL345_REG_DATAX0]] ∧
        (ADXL345_ReadSamples (recording H) (w, []) L SamplesBufferLen).Result = ADXL345_FAIL) ∨
       (ADXL345_ReadSamples (recording H) (w, []) L SamplesBufferLen).world.2 =
          pre ++ [PlatformEvent.send H.AddressI2C [ADXL345_REG_DATAX0],
            PlatformEvent.receive H.AddressI2C
              (6 * (ADXL345_ReadSamples (recording H) (w, []) L SamplesBufferLen).ReadSamples
                % 256)])) ∧
    (ADXL345_ReadSamples (recording simHandler)
      (simDevice [(0x38, 0x80), (0x39, 0x3F)], []) zeroLocals 255).Result = ADXL345_OK ∧
    (ADXL345_ReadSamples (recording simHandler)
      (simDevice [(0x38, 0x80), (0x39, 0x3F)], []) zeroLocals 255).ReadSamples = 63 ∧
    (ADXL345_ReadSamples (recording simHandler)
      (simDevice [(0x38, 0x80), (0x39, 0x3F)], []) zeroLocals 255).world.2 =
      [PlatformEvent.send 0x53 [0x38], PlatformEvent.receive 0x53 1,
       PlatformEvent.send 0x53 [0x31], PlatformEvent.receive 0x53 1,
       PlatformEvent.send 0x53 [0x39], PlatformEvent.receive 0x53 1,
       PlatformEvent.send 0x53 [0x32], PlatformEvent.receive 0x53 122] ∧
    PlatformEvent.receive 0x53
        (6 * (ADXL345_ReadSamples (recording simHandler)
          (simDevice [(0x38, 0x80), (0x39, 0x3F)], []) zeroLocals 255).ReadSamples) ∉
      (ADXL345_ReadSamples (recording simHandler)
        (simDevice [(0x38, 0x80), (0x39, 0x3F)], []) zeroLocals 255).world.2 :=
  ⟨ReadSamples_bulk_read_trace H w L SamplesBufferLen, by decide, by decide, by decide,
    by decide⟩

/-- Claim C4. When `ADXL345_ReadSamples` returns OK and the `JustifyLeft` flag of
the data format in effect is clear, for every index `i` below the reported count
the sample stored at `Samples[i]` has `RawX`, `RawY`, `RawZ` equal to the
two's-complement 16-bit value of the little-endian byte pairs
`B[6i+1]·256 + B[6i]`, `B[6i+3]·256 + B[6i+2]`, `B[6i+5]·256 + B[6i+4]` of the
buffer `B`; the pair (0x00, 0x01) gives 256 and (0xFF, 0xFF) gives -1. -/
theorem C4_raw_assembly {σ : Type} (H : ADXL345_Handler_t σ) (w : σ)
    (L : ReadSamples_Locals) (SamplesBufferLen i : Nat)
    (hok : (ADXL345_ReadSamples H w L SamplesBufferLen).Result = ADXL345_OK)
    (hjl : (ADXL345_ReadSamples H w L SamplesBufferLen).DataFormat.JustifyLeft = false)
    (hi : i < (ADXL345_ReadSamples H w L SamplesBufferLen).ReadSamples) :
    (∃ s, (ADXL345_ReadSamples H w L SamplesBufferLen).Samples[i]? = some s ∧
      s.RawX = twosComplement16
        ((ADXL345_ReadSamples H w L SamplesBufferLen).Buffer (6 * i + 1) % 256 * 256 +
          (ADXL345_ReadSamples H w L SamplesBufferLen).Buffer (6 * i) % 256) ∧
      s.RawY = twosComplement16
        ((ADXL345_ReadSamples H w L SamplesBufferLen).Buffer (6 * i + 3) % 256 * 256 +
          (ADXL345_ReadSamples H w L SamplesBufferLen).Buffer (6 * i + 2) % 256) ∧
      s.RawZ = twosComplement16
        ((ADXL345_ReadSamples H w L SamplesBufferLen).Buffer (6 * i + 5) % 256 * 256 +
          (ADXL345_ReadSamples H w L SamplesBufferLen).Buffer (6 * i + 4) % 256)) ∧
    twosComplement16 (0x01 * 256 + 0x00) = 256 ∧ twosComplement16 (0xFF * 256 + 0xFF) = -1 := by
  refine ⟨?_, by decide, by decide⟩
  rw [(ReadSamples_Samples H w L SamplesBufferLen).1 hok, loop_getElem?, if_pos hi]
  refine ⟨_, rfl, ?_⟩
  obtain ⟨hx, hy, hz⟩ := body_Raw_unjustified _
    (ADXL345_ReadSamples H w L SamplesBufferLen).Buffer 0 (0 + i) hjl
  rw [hx, hy, hz, assembleRaw_eq, assembleRaw_eq, assembleRaw_eq]
  have e0 : 0 + (0 + i) * 6 = 6 * i := by omega
  have e1 : 1 + (0 + i) * 6 = 6 * i + 1 := by omega
  have e2 : 2 + (0 + i) * 6 = 6 * i + 2 := by omega
  have e3 : 3 + (0 + i) * 6 = 6 * i + 3 := by omega
  have e4 : 4 + (0 + i) * 6 = 6 * i + 4 := by omega
  have e5 : 5 + (0 + i) * 6 = 6 * i + 5 := by omega
  rw [e0, e1, e2, e3, e4, e5]
  exact ⟨rfl, rfl, rfl⟩

/-- Witness of C4 on the ideal device in bypass mode, with the bytes
00 01 FF FF 00 80 in the data registers: the sample is (256, -1, -32768). -/
theorem C4_raw_assembly_witness :
    (∃ s, (ADXL345_ReadSamples simHandler
        (simDevice [(0x33, 0x01), (0x34, 0xFF), (0x35, 0xFF), (0x37, 0x80)]) zeroLocals
        1).Samples[0]? = some s ∧
      s.RawX = 256 ∧ s.RawY = -1 ∧ s.RawZ = -32768) := by
  obtain ⟨⟨s, h, hx, hy, hz⟩, -⟩ := C4_raw_assembly simHandler
    (simDevice [(0x33, 0x01), (0x34, 0xFF), (0x35, 0xFF), (0x37, 0x80)]) zeroLocals 1 0
    (by decide) (by decide) (by decide)
  exact ⟨s, h, hx.trans (by decide), hy.trans (by decide), hz.trans (by decide)⟩

/-- Claim C5. When the `FullResolution` flag of the data format in effect is set,
the local `Factor` is 4/1000 = 0.004 after every loop iteration, for each of the
four range codes and either justification, and every sample stored has each
acceleration equal to its raw value times 0.004. -/
theorem C5_full_resolution_scale {σ : Type} (H : ADXL345_Handler_t σ) (w : σ)
    (L : ReadSamples_Locals) (SamplesBufferLen : Nat)
    (hfr : (ADXL345_ReadSamples H w L SamplesBufferLen).DataFormat.FullResolution = true) :
    (∀ (Range : Fin 4) (JustifyLeft : Bool) (B : Nat → Nat) (F : ℚ) (i : Nat),
      (ADXL345_ReadSamples_body ⟨Range, JustifyLeft, true⟩ B F i).2 = 4 / 1000) ∧
    (∀ (F : ℚ) (i : Nat),
      (ADXL345_ReadSamples_body (ADXL345_ReadSamples H w L SamplesBufferLen).DataFormat
        (ADXL345_ReadSamples H w L SamplesBufferLen).Buffer F i).2 = 4 / 1000) ∧
    (∀ s ∈ (ADXL345_ReadSamples H w L SamplesBufferLen).Samples,
      s.AccelX = (s.RawX : ℚ) * (4 / 1000) ∧ s.AccelY = (s.RawY : ℚ) * (4 / 1000) ∧
      s.AccelZ = (s.RawZ : ℚ) * (4 / 1000)) := by
  refine ⟨?_, ?_, ?_⟩
  · intro Range JustifyLeft B F i
    rw [body_Factor]; simp [scaleFactor]
  · intro F i
    rw [body_Factor]; simp [scaleFactor, hfr]
  · intro s hs
    have h := Samples_mem_scaled H w L SamplesBufferLen s hs
    simpa [scaleFactor, hfr] using h

/-- Witness of C5 on the ideal device with DATA_FORMAT = 0x0B (full resolution,
range 16 g) and the X bytes 00 01: the sample stored has the raw value 256 and
its acceleration is 256 × 0.004. -/
theorem C5_full_resolution_scale_witness :
    ∃ s, (ADXL345_ReadSamples simHandler (simDevice [(0x31, 0x0B), (0x33, 0x01)]) zeroLocals
        1).Samples = [s] ∧ s.RawX = 256 ∧ s.AccelX = 256 * (4 / 1000) := by
  have hlen : (ADXL345_ReadSamples simHandler (simDevice [(0x31, 0x0B), (0x33, 0x01)])
      zeroLocals 1).Samples.length = 1 := by decide
  obtain ⟨s, hs⟩ := List.length_eq_one.1 hlen
  have hraw : ((ADXL345_ReadSamples simHandler (simDevice [(0x31, 0x0B), (0x33, 0x01)])
      zeroLocals 1).Samples.map fun s => s.RawX) = [256] := by decide
  rw [hs] at hraw
  have hx : s.RawX = 256 := by simpa using hraw
  have h := (C5_full_resolution_scale simHandler (simDevice [(0x31, 0x0B), (0x33, 0x01)])
    zeroLocals 1 (by decide)).2.2 s (by rw [hs]; exact List.mem_singleton_self s)
  refine ⟨s, hs, hx, ?_⟩
  rw [h.1, hx]; norm_num

/-- Claim C6. When the `FullResolution` flag of the data format in effect is
clear, the local `Factor` after every loop iteration is the table entry of the
range code: 2 g gives 0.0039, 4 g gives 0.0078, 8 g gives 0.0156 and 16 g gives
0.0312; every range code selects one of these four, so that `Factor` is never
left at its initial 0, and every sample stored has each acceleration equal to its
raw value times the entry of the range in effect. -/
theorem C6_range_scale_table {σ : Type} (H : ADXL345_Handler_t σ) (w : σ)
    (L : ReadSamples_Locals) (SamplesBufferLen : Nat)
    (hfr : (ADXL345_ReadSamples H w L SamplesBufferLen).DataFormat.FullResolution = false) :
    (∀ (JustifyLeft : Bool) (B : Nat → Nat) (F : ℚ) (i : Nat),
      (ADXL345_ReadSamples_body ⟨ADXL345_RANGE_2G, JustifyLeft, false⟩ B F i).2 = 39 / 10000 ∧
      (ADXL345_ReadSamples_body ⟨ADXL345_RANGE_4G, JustifyLeft, false⟩ B F i).2 = 78 / 10000 ∧
      (ADXL345_ReadSamples_body ⟨ADXL345_RANGE_8G, JustifyLeft, false⟩ B F i).2 = 156 / 10000 ∧
      (ADXL345_ReadSamples_body ⟨ADXL345_RANGE_16G, JustifyLeft, false⟩ B F i).2 =
        312 / 10000) ∧
    (∀ (Range : Fin 4) (JustifyLeft : Bool) (B : Nat → Nat) (i : Nat),
      ((ADXL345_ReadSamples_body ⟨Range, JustifyLeft, false⟩ B 0 i).2 = 39 / 10000 ∨
       (ADXL345_ReadSamples_body ⟨Range, JustifyLeft, false⟩ B 0 i).2 = 78 / 10000 ∨
       (ADXL345_ReadSamples_body ⟨Range, JustifyLeft, false⟩ B 0 i).2 = 156 / 10000 ∨
       (ADXL345_ReadSamples_body ⟨Range, JustifyLeft, false⟩ B 0 i).2 = 312 / 10000) ∧
      (ADXL345_ReadSamples_body ⟨Range, JustifyLeft, false⟩ B 0 i).2 ≠ 0) ∧
    (∀ (F : ℚ) (i : Nat),
      (ADXL345_ReadSamples_body (ADXL345_ReadSamples H w L SamplesBufferLen).DataFormat
        (ADXL345_ReadSamples H w L SamplesBufferLen).Buffer F i).2 =
        rangeScale (ADXL345_ReadSamples H w L SamplesBufferLen).DataFormat.Range) ∧
    (∀ s ∈ (ADXL345_ReadSamples H w L SamplesBufferLen).Samples,
      s.AccelX = (s.RawX : ℚ) *
        rangeScale (ADXL345_ReadSamples H w L SamplesBufferLen).DataFormat.Range ∧
      s.AccelY = (s.RawY : ℚ) *
        rangeScale (ADXL345_ReadSamples H w L SamplesBufferLen).DataFormat.Range ∧
      s.AccelZ = (s.RawZ : ℚ) *
        rangeScale (ADXL345_ReadSamples H w L SamplesBufferLen).DataFormat.Range) := by
  refine ⟨?_, ?_, ?_, ?_⟩
  · intro JustifyLeft B F i
    simp only [body_Factor]
    simp [scaleFactor, rangeScale, ADXL345_RANGE_2G, ADXL345_RANGE_4G, ADXL345_RANGE_8G,
      ADXL345_RANGE_16G]
  · intro Range JustifyLeft B i
    simp only [body_Factor]
    fin_cases Range <;> simp [scaleFactor, rangeScale]
  · intro F i
    rw [body_Factor]; simp [scaleFactor, hfr]
  · intro s hs
    have h := Samples_mem_scaled H w L SamplesBufferLen s hs
    simpa [scaleFactor, hfr] using h

/-- Witness of C6 on the ideal device with DATA_FORMAT = 0x02 (range 8 g) and the
X bytes 00 01: the acceleration of the sample stored is 256 × 0.0156. -/
theorem C6_range_scale_table_witness :
    ∃ s, (ADXL345_ReadSamples simHandler (simDevice [(0x31, 0x02), (0x33, 0x01)]) zeroLocals
        1).Samples = [s] ∧ s.RawX = 256 ∧ s.AccelX = 256 * (156 / 10000) := by
  have hlen : (ADXL345_ReadSamples simHandler (simDevice [(0x31, 0x02), (0x33, 0x01)])
      zeroLocals 1).Samples.length = 1 := by decide
  obtain ⟨s, hs⟩ := List.length_eq_one.1 hlen
  have hraw : ((ADXL345_ReadSamples simHandler (simDevice [(0x31, 0x02), (0x33, 0x01)])
      zeroLocals 1).Samples.map fun s => s.RawX) = [256] := by decide
  rw [hs] at hraw
  have hx : s.RawX = 256 := by simpa using hraw
  have hr : (ADXL345_ReadSamples simHandler (simDevice [(0x31, 0x02), (0x33, 0x01)])
      zeroLocals 1).DataFormat.Range = 2 := by decide
  have h := (C6_range_scale_table simHandler (simDevice [(0x31, 0x02), (0x33, 0x01)])
    zeroLocals 1 (by decide)).2.2.2 s (by rw [hs]; exact List.mem_singleton_self s)
  refine ⟨s, hs, hx, ?_⟩
  rw [h.1, hx, hr]; norm_num [rangeScale]

/-- Claim C7. Every sample `ADXL345_ReadSamples` stores has, on each axis, the
acceleration equal to the raw value stored in the same sample times the scale
factor of the data format in effect in that call (exact arithmetic); on the ideal
device with range 2 g, both flags clear and the X bytes 00 01, the raw value is
256 and the acceleration is 9984/10000. -/
theorem C7_physical_value {σ : Type} (H : ADXL345_Handler_t σ) (w : σ)
    (L : ReadSamples_Locals) (SamplesBufferLen : Nat) (s : ADXL345_Sample_t)
    (hs : s ∈ (ADXL345_ReadSamples H w L SamplesBufferLen).Samples) :
    (s.AccelX = (s.RawX : ℚ) *
        scaleFactor (ADXL345_ReadSamples H w L SamplesBufferLen).DataFormat ∧
      s.AccelY = (s.RawY : ℚ) *
        scaleFactor (ADXL345_ReadSamples H w L SamplesBufferLen).DataFormat ∧
      s.AccelZ = (s.RawZ : ℚ) *
        scaleFactor (ADXL345_ReadSamples H w L SamplesBufferLen).DataFormat) ∧
    (∃ t, (ADXL345_ReadSamples simHandler (simDevice [(0x31, 0x00), (0x33, 0x01)]) zeroLocals
        1).Samples = [t] ∧ t.RawX = 256 ∧ t.AccelX = 9984 / 10000) := by
  refine ⟨Samples_mem_scaled H w L SamplesBufferLen s hs, ?_⟩
  have hlen : (ADXL345_ReadSamples simHandler (simDevice [(0x31, 0x00), (0x33, 0x01)])
      zeroLocals 1).Samples.length = 1 := by decide
  obtain ⟨t, ht⟩ := List.length_eq_one.1 hlen
  have hraw : ((ADXL345_ReadSamples simHandler (simDevice [(0x31, 0x00), (0x33, 0x01)])
      zeroLocals 1).Samples.map fun s => s.RawX) = [256] := by decide
  rw [ht] at hraw
  have hx : t.RawX = 256 := by simpa using hraw
  have hd : (ADXL345_ReadSamples simHandler (simDevice [(0x31, 0x00), (0x33, 0x01)])
      zeroLocals 1).DataFormat = ⟨0, false, false⟩ := by decide
  have h := Samples_mem_scaled simHandler (simDevice [(0x31, 0x00), (0x33, 0x01)])
    zeroLocals 1 t (by rw [ht]; exact List.mem_singleton_self t)
  refine ⟨t, ht, hx, ?_⟩
  rw [h.1, hx, hd]; norm_num [scaleFactor, rangeScale]

/-- Witness of C7 on the ideal device with DATA_FORMAT = 0x09 (full resolution,
range 4 g) and the X bytes 00 FF: a sample is stored, its raw value is -256 and
its acceleration is -256 × 0.004. -/
theorem C7_physical_value_witness :
    ∃ s, s ∈ (ADXL345_ReadSamples simHandler (simDevice [(0x31, 0x09), (0x33, 0xFF)])
        zeroLocals 1).Samples ∧ s.RawX = -256 ∧ s.AccelX = -256 * (4 / 1000) := by
  have hlen : (ADXL345_ReadSamples simHandler (simDevice [(0x31, 0x09), (0x33, 0xFF)])
      zeroLocals 1).Samples.length = 1 := by decide
  obtain ⟨s, hs⟩ := List.length_eq_one.1 hlen
  have hraw : ((ADXL345_ReadSamples simHandler (simDevice [(0x31, 0x09), (0x33, 0xFF)])
      zeroLocals 1).Samples.map fun s => s.RawX) = [-256] := by decide
  rw [hs] at hraw
  have hx : s.RawX = -256 := by simpa using hraw
  have hd : (ADXL345_ReadSamples simHandler (simDevice [(0x31, 0x09), (0x33, 0xFF)])
      zeroLocals 1).DataFormat = ⟨1, false, true⟩ := by decide
  have hm : s ∈ (ADXL345_ReadSamples simHandler (simDevice [(0x31, 0x09), (0x33, 0xFF)])
      zeroLocals 1).Samples := by rw [hs]; exact List.mem_singleton_self s
  have h := (C7_physical_value simHandler (simDevice [(0x31, 0x09), (0x33, 0xFF)])
    zeroLocals 1 s hm).1
  refine ⟨s, hm, hx, ?_⟩
  rw [h.1, hx, hd]; norm_num [scaleFactor]

/-- Claim C8, evaluated where it fails: with DATA_FORMAT = 0x0C (full resolution,
left-justified, range code 0), the X bytes 00 40 assemble to 16384 and the Y
bytes C0 FF to -64; right-shifted by 6 - 0 bits these are 256 and -1, but the
raw values stored are 0 and 129: the code keeps bit 7 and shifts bits 0..6 of
the assembled value only. -/
theorem C8_full_resolution_justify_mask :
    (ADXL345_ReadSamples simHandler
      (simDevice [(0x31, 0x0C), (0x33, 0x40), (0x34, 0xC0), (0x35, 0xFF)]) zeroLocals
      1).DataFormat = ⟨ADXL345_RANGE_2G, true, true⟩ ∧
    assembleRaw (ADXL345_ReadSamples simHandler
      (simDevice [(0x31, 0x0C), (0x33, 0x40), (0x34, 0xC0), (0x35, 0xFF)]) zeroLocals
      1).Buffer 1 0 = 16384 ∧
    assembleRaw (ADXL345_ReadSamples simHandler
      (simDevice [(0x31, 0x0C), (0x33, 0x40), (0x34, 0xC0), (0x35, 0xFF)]) zeroLocals
      1).Buffer 3 2 = -64 ∧
    ((ADXL345_ReadSamples simHandler
      (simDevice [(0x31, 0x0C), (0x33, 0x40), (0x34, 0xC0), (0x35, 0xFF)]) zeroLocals
      1).Samples.map fun s => (s.RawX, s.RawY)) = [(0, 129)] ∧
    (16384 : Int) >>> (6 - 0) = 256 ∧ (-64 : Int) >>> (6 - 0) = -1 := by
  decide

/-- Claim C9, evaluated where it fails: with DATA_FORMAT = 0x04 (left-justified,
full resolution clear), the X bytes 00 40 assemble to 16384 and the Y bytes
C0 FF to -64; right-shifted by 6 bits these are 256 and -1, but the raw values
stored are 0 and 129: the code keeps bit 7 and shifts bits 0..6 of the assembled
value only. -/
theorem C9_justify_mask :
    (ADXL345_ReadSamples simHandler
      (simDevice [(0x31, 0x04), (0x33, 0x40), (0x34, 0xC0), (0x35, 0xFF)]) zeroLocals
      1).DataFormat = ⟨ADXL345_RANGE_2G, true, false⟩ ∧
    assembleRaw (ADXL345_ReadSamples simHandler
      (simDevice [(0x31, 0x04), (0x33, 0x40), (0x34, 0xC0), (0x35, 0xFF)]) zeroLocals
      1).Buffer 1 0 = 16384 ∧
    assembleRaw (ADXL345_ReadSamples simHandler
      (simDevice [(0x31, 0x04), (0x33, 0x40), (0x34, 0xC0), (0x35, 0xFF)]) zeroLocals
      1).Buffer 3 2 = -64 ∧
    ((ADXL345_ReadSamples simHandler
      (simDevice [(0x31, 0x04), (0x33, 0x40), (0x34, 0xC0), (0x35, 0xFF)]) zeroLocals
      1).Samples.map fun s => (s.RawX, s.RawY)) = [(0, 129)] ∧
    (16384 : Int) >>> 6 = 256 ∧ (-64 : Int) >>> 6 = -1 := by
  decide

/-- Claim C10, evaluated where it fails: on the ideal device, when the address send
of the FIFO_CTL read fails, or that of the DATA_FORMAT read, or (in stream mode)
that of the FIFO_STATUS read, or the receive of the FIFO_CTL read, and the other
transfers succeed, `ADXL345_ReadSamples` returns OK; only a failure of the bulk
data read makes it return FAIL. -/
theorem C10_ignored_read_failures :
    (ADXL345_ReadSamples simHandler ⟨regsOf [(0x38, 0x00)], 0, [1], []⟩ zeroLocals 4).Result
      = ADXL345_OK ∧
    (ADXL345_ReadSamples simHandler ⟨regsOf [(0x38, 0x00)], 0, [0, 1], []⟩ zeroLocals 4).Result
      = ADXL345_OK ∧
    (ADXL345_ReadSamples simHandler ⟨regsOf [(0x38, 0x80), (0x39, 2)], 0, [0, 0, 1], []⟩
      zeroLocals 4).Result = ADXL345_OK ∧
    (ADXL345_ReadSamples simHandler ⟨regsOf [(0x38, 0x00)], 0, [], [-1]⟩ zeroLocals 4).Result
      = ADXL345_OK ∧
    (ADXL345_Get_FifoConfig simHandler ⟨regsOf [(0x38, 0x00)], 0, [1], []⟩
      zeroLocals.FifoConfig).1 = ADXL345_FAIL ∧
    (ADXL345_ReadSamples simHandler ⟨regsOf [(0x38, 0x00)], 0, [0, 0, 1], []⟩ zeroLocals
      4).Result = ADXL345_FAIL := by
  decide

/-! ## Lemmas on traces of register reads and interrupt dispatch -/

/-- A register read through the recording handle returns what the read through
the handle itself returns. -/
theorem ReadRegs_recording_eq {σ : Type} (H : ADXL345_Handler_t σ)
    (wt : σ × List PlatformEvent) (reg : Nat) (buf : Nat → Nat) (n : Nat) :
    (ADXL345_ReadRegs (recording H) wt reg buf n).1 = (ADXL345_ReadRegs H wt.1 reg buf n).1 ∧
    (ADXL345_ReadRegs (recording H) wt reg buf n).2.1 =
      (ADXL345_ReadRegs H wt.1 reg buf n).2.1 ∧
    (ADXL345_ReadRegs (recording H) wt reg buf n).2.2.1 =
      (ADXL345_ReadRegs H wt.1 reg buf n).2.2 := by
  unfold ADXL345_ReadRegs recording
  dsimp only
  split_ifs <;> exact ⟨rfl, rfl, rfl⟩

theorem ReadRegs_result_cases {σ : Type} (H : ADXL345_Handler_t σ) (w : σ)
    (reg : Nat) (buf : Nat → Nat) (n : Nat) :
    (ADXL345_ReadRegs H w reg buf n).1 = ADXL345_OK ∨
    (ADXL345_ReadRegs H w reg buf n).1 = ADXL345_FAIL := by
  unfold ADXL345_ReadRegs
  dsimp only
  split_ifs <;> simp

theorem and_bit_ne_zero (r k : Nat) : (r &&& 2 ^ k ≠ 0) ↔ r.testBit k = true := by
  rw [Nat.and_two_pow]
  cases r.testBit k <;> simp

theorem Get_InterruptSource_ok {σ : Type} (H : ADXL345_Handler_t σ) (w : σ)
    (I : ADXL345_InterruptReg_t)
    (h : (ADXL345_ReadRegs H w ADXL345_REG_INT_SOURCE (fun _ => 0) 1).1 = ADXL345_OK) :
    ADXL345_Get_InterruptSource H w I =
      (ADXL345_OK,
        ⟨((ADXL345_ReadRegs H w ADXL345_REG_INT_SOURCE (fun _ => 0) 1).2.1 0).testBit 0,
         ((ADXL345_ReadRegs H w ADXL345_REG_INT_SOURCE (fun _ => 0) 1).2.1 0).testBit 1,
         ((ADXL345_ReadRegs H w ADXL345_REG_INT_SOURCE (fun _ => 0) 1).2.1 0).testBit 2,
         ((ADXL345_ReadRegs H w ADXL345_REG_INT_SOURCE (fun _ => 0) 1).2.1 0).testBit 3,
         ((ADXL345_ReadRegs H w ADXL345_REG_INT_SOURCE (fun _ => 0) 1).2.1 0).testBit 4,
         ((ADXL345_ReadRegs H w ADXL345_REG_INT_SOURCE (fun _ => 0) 1).2.1 0).testBit 5,
         ((ADXL345_ReadRegs H w ADXL345_REG_INT_SOURCE (fun _ => 0) 1).2.1 0).testBit 6,
         ((ADXL345_ReadRegs H w ADXL345_REG_INT_SOURCE (fun _ => 0) 1).2.1 0).testBit 7⟩,
        (ADXL345_ReadRegs H w ADXL345_REG_INT_SOURCE (fun _ => 0) 1).2.2) := by
  unfold ADXL345_Get_InterruptSource
  generalize ADXL345_ReadRegs H w ADXL345_REG_INT_SOURCE (fun _ => 0) 1 = r at h ⊢
  have e0 := and_bit_ne_zero (r.2.1 0) 0
  have e1 := and_bit_ne_zero (r.2.1 0) 1
  have e2 := and_bit_ne_zero (r.2.1 0) 2
  have e3 := and_bit_ne_zero (r.2.1 0) 3
  have e4 := and_bit_ne_zero (r.2.1 0) 4
  have e5 := and_bit_ne_zero (r.2.1 0) 5
  have e6 := and_bit_ne_zero (r.2.1 0) 6
  have e7 := and_bit_ne_zero (r.2.1 0) 7
  norm_num at e0 e1 e2 e3 e4 e5 e6 e7
  simp [h, e0, e1, e2, e3, e4, e5, e6, e7]

theorem callbackIf_recording {σ : Type} (cb : σ → Nat → Int × σ) (flag : Bool) (k : Nat)
    (wt : σ × List PlatformEvent) :
    callbackIf (fun (w : σ × List PlatformEvent) (k : Nat) =>
        ((cb w.1 k).1, ((cb w.1 k).2, w.2 ++ [PlatformEvent.callback k]))) flag k wt =
      (callbackIf cb flag k wt.1,
        wt.2 ++ if flag then [PlatformEvent.callback k] else []) := by
  unfold callbackIf
  cases flag <;> simp

theorem filter_range_eight (p : Nat → Bool) :
    ((List.range 8).filter p).map PlatformEvent.callback =
      (if p 0 then [PlatformEvent.callback 0] else []) ++
      (if p 1 then [PlatformEvent.callback 1] else []) ++
      (if p 2 then [PlatformEvent.callback 2] else []) ++
      (if p 3 then [PlatformEvent.callback 3] else []) ++
      (if p 4 then [PlatformEvent.callback 4] else []) ++
      (if p 5 then [PlatformEvent.callback 5] else []) ++
      (if p 6 then [PlatformEvent.callback 6] else []) ++
      (if p 7 then [PlatformEvent.callback 7] else []) := by
  have h : List.range 8 = [0, 1, 2, 3, 4, 5, 6, 7] := by decide
  rw [h]
  simp only [List.filter_cons, List.filter_nil]
  cases p 0 <;> cases p 1 <;> cases p 2 <;> cases p 3 <;> cases p 4 <;> cases p 5 <;>
    cases p 6 <;> cases p 7 <;> rfl

/-- With a callback registered and a successful read of the interrupt source
register, the interrupt handler returns OK and its calls through the handle
are the register read followed by one callback per set bit, in ascending
order. -/
theorem IRQ_Handler_trace {σ : Type} (H : ADXL345_Handler_t σ) (w : σ)
    (Interrupt : ADXL345_InterruptReg_t) (cb : σ → Nat → Int × σ) (s : Nat → Nat) (w1 : σ)
    (hcb : H.InterruptCallback = some cb)
    (hread : ADXL345_ReadRegs H w ADXL345_REG_INT_SOURCE (fun _ => 0) 1 = (ADXL345_OK, s, w1)) :
    (ADXL345_IRQ_Handler (recording H) (w, []) Interrupt).1 = ADXL345_OK ∧
    (ADXL345_IRQ_Handler (recording H) (w, []) Interrupt).2.2 =
      [PlatformEvent.send H.AddressI2C [ADXL345_REG_INT_SOURCE],
        PlatformEvent.receive H.AddressI2C 1] ++
      ((List.range 8).filter fun k => (s 0).testBit k).map PlatformEvent.callback := by
  obtain ⟨r1, r2, r3⟩ := ReadRegs_recording_eq H (w, []) ADXL345_REG_INT_SOURCE (fun _ => 0) 1
  rw [hread] at r1 r2 r3
  dsimp only at r1 r2 r3
  have ht : (ADXL345_ReadRegs (recording H) (w, []) ADXL345_REG_INT_SOURCE
      (fun _ => 0) 1).2.2.2 = [PlatformEvent.send H.AddressI2C [ADXL345_REG_INT_SOURCE],
        PlatformEvent.receive H.AddressI2C 1] := by
    rcases ReadRegs_recording H (w, []) ADXL345_REG_INT_SOURCE (fun _ => 0) 1 with ⟨_, h2⟩ | h2
    · rw [r1] at h2; cases h2
    · simpa using h2
  have hg := Get_InterruptSource_ok (recording H) (w, []) Interrupt r1
  rw [r2] at hg
  have hc : (recording H).InterruptCallback = some (fun (w : σ × List PlatformEvent) (k : Nat) =>
      ((cb w.1 k).1, ((cb w.1 k).2, w.2 ++ [PlatformEvent.callback k]))) := by
    simp [recording, hcb]
  unfold ADXL345_IRQ_Handler
  rw [hc]
  dsimp only
  rw [hg]
  dsimp only
  simp only [callbackIf_recording, ht, filter_range_eight, List.append_assoc]
  exact ⟨trivial, rfl⟩

/-! ## Claims on interrupt dispatch, identity check, address selection,
initialisation and register reads -/

/-- Claim C11. With a callback registered and a successful read of the interrupt
source register with byte `s 0`, `ADXL345_IRQ_Handler` returns OK, whatever the
callback returns and whatever the local record held before, and the calls it
makes after the register read are exactly one callback for each set bit of the
byte, in ascending bit order, with the bit index as identifier (Overrun = 0,
..., DataReady = 7); for the byte 0x85 the calls are Overrun, FreeFall,
DataReady. -/
theorem C11_interrupt_dispatch {σ : Type} (H : ADXL345_Handler_t σ) (w : σ)
    (Interrupt : ADXL345_InterruptReg_t) (cb : σ → Nat → Int × σ) (s : Nat → Nat) (w1 : σ)
    (hcb : H.InterruptCallback = some cb)
    (hread : ADXL345_ReadRegs H w ADXL345_REG_INT_SOURCE (fun _ => 0) 1 = (ADXL345_OK, s, w1)) :
    (ADXL345_IRQ_Handler (recording H) (w, []) Interrupt).1 = ADXL345_OK ∧
    (ADXL345_IRQ_Handler (recording H) (w, []) Interrupt).2.2 =
      [PlatformEvent.send H.AddressI2C [ADXL345_REG_INT_SOURCE],
        PlatformEvent.receive H.AddressI2C 1] ++
      ((List.range 8).filter fun k => (s 0).testBit k).map PlatformEvent.callback ∧
    (ADXL345_IRQ_Handler (recording (simHandlerWithCallback (-1)))
        (simDevice [(0x30, 0x85)], []) Interrupt).2.2 =
      [PlatformEvent.send 0x53 [0x30], PlatformEvent.receive 0x53 1,
        PlatformEvent.callback ADXL345_INTERRUPT_OVERRUN,
        PlatformEvent.callback ADXL345_INTERRUPT_FREE_FALL,
        PlatformEvent.callback ADXL345_INTERRUPT_DATA_READY] ∧
    [ADXL345_INTERRUPT_OVERRUN, ADXL345_INTERRUPT_WATERMARK, ADXL345_INTERRUPT_FREE_FALL,
      ADXL345_INTERRUPT_INACTIVITY, ADXL345_INTERRUPT_ACTIVITY, ADXL345_INTERRUPT_DOUBLE_TAP,
      ADXL345_INTERRUPT_SINGLE_TAP, ADXL345_INTERRUPT_DATA_READY] = List.range 8 := by
  obtain ⟨h1, h2⟩ := IRQ_Handler_trace H w Interrupt cb s w1 hcb hread
  refine ⟨h1, h2, ?_, by decide⟩
  have h := (IRQ_Handler_trace (simHandlerWithCallback (-1)) (simDevice [(0x30, 0x85)])
    Interrupt (fun w _ => (-1, w))
    (ADXL345_ReadRegs (simHandlerWithCallback (-1)) (simDevice [(0x30, 0x85)])
      ADXL345_REG_INT_SOURCE (fun _ => 0) 1).2.1
    (ADXL345_ReadRegs (simHandlerWithCallback (-1)) (simDevice [(0x30, 0x85)])
      ADXL345_REG_INT_SOURCE (fun _ => 0) 1).2.2 rfl rfl).2
  rw [h]
  decide

/-- Witness of C11 on the ideal device with the source byte 0x60 and a callback
that returns 5: the calls are DoubleTap, SingleTap. -/
theorem C11_interrupt_dispatch_witness :
    (ADXL345_IRQ_Handler (recording (simHandlerWithCallback 5))
        (simDevice [(0x30, 0x60)], []) noInterrupt).1 = ADXL345_OK ∧
    (ADXL345_IRQ_Handler (recording (simHandlerWithCallback 5))
        (simDevice [(0x30, 0x60)], []) noInterrupt).2.2 =
      [PlatformEvent.send 0x53 [0x30], PlatformEvent.receive 0x53 1] ++
        ((List.range 8).filter fun k => (0x60 : Nat).testBit k).map PlatformEvent.callback :=
  ⟨(C11_interrupt_dispatch (simHandlerWithCallback 5) (simDevice [(0x30, 0x60)]) noInterrupt
      (fun w _ => (5, w))
      (ADXL345_ReadRegs (simHandlerWithCallback 5) (simDevice [(0x30, 0x60)])
        ADXL345_REG_INT_SOURCE (fun _ => 0) 1).2.1
      (ADXL345_ReadRegs (simHandlerWithCallback 5) (simDevice [(0x30, 0x60)])
        ADXL345_REG_INT_SOURCE (fun _ => 0) 1).2.2 rfl rfl).1,
   (C11_interrupt_dispatch (simHandlerWithCallback 5) (simDevice [(0x30, 0x60)]) noInterrupt
      (fun w _ => (5, w))
      (ADXL345_ReadRegs (simHandlerWithCallback 5) (simDevice [(0x30, 0x60)])
        ADXL345_REG_INT_SOURCE (fun _ => 0) 1).2.1
      (ADXL345_ReadRegs (simHandlerWithCallback 5) (simDevice [(0x30, 0x60)])
        ADXL345_REG_INT_SOURCE (fun _ => 0) 1).2.2 rfl rfl).2.1⟩

/-- Claim C12. For every device state and every prior content of the local
record, `ADXL345_IRQ_Handler` returns FAIL when no callback is registered, and
it returns OK only when a callback is registered. -/
theorem C12_callback_required {σ : Type} (H : ADXL345_Handler_t σ) (w : σ)
    (Interrupt : ADXL345_InterruptReg_t) :
    (H.InterruptCallback = none → (ADXL345_IRQ_Handler H w Interrupt).1 = ADXL345_FAIL) ∧
    ((ADXL345_IRQ_Handler H w Interrupt).1 = ADXL345_OK → H.InterruptCallback.isSome = true) := by
  unfold ADXL345_IRQ_Handler
  cases h : H.InterruptCallback <;> simp

/-- Claim C13, evaluated where it fails: on the ideal device with a callback
registered, when the address send of the interrupt source read fails, or its
receive fails, `ADXL345_IRQ_Handler` returns OK; the flags it dispatches on are
then the prior content of its local record, so with the Overrun flag set there
the callback is invoked once. -/
theorem C13_read_failure_ignored :
    ADXL345_IRQ_Handler (recording (simHandlerWithCallback 0))
        (⟨regsOf [(0x30, 0x85)], 0, [1], []⟩, []) noInterrupt =
      (ADXL345_OK, ⟨regsOf [(0x30, 0x85)], 0, [], []⟩, [PlatformEvent.send 0x53 [0x30]]) ∧
    (ADXL345_IRQ_Handler (recording (simHandlerWithCallback 0))
        (⟨regsOf [(0x30, 0x85)], 0, [], [1]⟩, []) noInterrupt).1 = ADXL345_OK ∧
    (ADXL345_Get_InterruptSource (simHandlerWithCallback 0)
        ⟨regsOf [(0x30, 0x85)], 0, [1], []⟩ noInterrupt).1 = ADXL345_FAIL ∧
    (ADXL345_IRQ_Handler (recording (simHandlerWithCallback 0))
        (⟨regsOf [(0x30, 0x85)], 0, [1], []⟩, [])
        { noInterrupt with Overrun := true }).1 = ADXL345_OK ∧
    (ADXL345_IRQ_Handler (recording (simHandlerWithCallback 0))
        (⟨regsOf [(0x30, 0x85)], 0, [1], []⟩, [])
        { noInterrupt with Overrun := true }).2.2 =
      [PlatformEvent.send 0x53 [0x30], PlatformEvent.callback ADXL345_INTERRUPT_OVERRUN] := by
  refine ⟨?_, by decide, by decide, by decide, by decide⟩
  rfl

/-- Claim C14. `ADXL345_CheckDeviceID` returns OK exactly when the read of
register 0x00 succeeds and the byte read is 0xE5, and FAIL in every other case;
on the ideal device it returns OK for the byte 0xE5 and FAIL for each of the
other 255 byte values. -/
theorem C14_device_id {σ : Type} (H : ADXL345_Handler_t σ) (w : σ) :
    ((ADXL345_CheckDeviceID H w).1 = ADXL345_OK ↔
      (ADXL345_ReadRegs H w 0x00 (fun _ => 0) 1).1 = ADXL345_OK ∧
      (ADXL345_ReadRegs H w 0x00 (fun _ => 0) 1).2.1 0 = 0xE5) ∧
    ((ADXL345_CheckDeviceID H w).1 ≠ ADXL345_OK →
      (ADXL345_CheckDeviceID H w).1 = ADXL345_FAIL) ∧
    (∀ b : Fin 256, b.val ≠ 0xE5 →
      (ADXL345_CheckDeviceID simHandler (simDevice [(0x00, b.val)])).1 = ADXL345_FAIL) ∧
    (ADXL345_CheckDeviceID simHandler (simDevice [(0x00, 0xE5)])).1 = ADXL345_OK := by
  refine ⟨?_, ?_, ?_, by decide⟩
  rotate_left 2
  · set_option maxRecDepth 100000 in decide
  · unfold ADXL345_CheckDeviceID
    simp only [ADXL345_REG_DEVID, ADXL345_DEVICE_ID]
    split_ifs with h1 h2 <;> simp_all
  · unfold ADXL345_CheckDeviceID
    dsimp only
    split_ifs <;> simp

/-- Claim C15. `ADXL345_SetAddressI2C` sets the bus address of the handle to 0x53
for the parameter 0 and to 0x1D for every other parameter, always returns OK and
changes no other field of the handle; afterwards the address is one of these
two values. -/
theorem C15_address_selection {σ : Type} (Handler : ADXL345_Handler_s σ) (Address : Nat) :
    (Address = 0 → (ADXL345_SetAddressI2C Handler Address).2.AddressI2C = 0x53) ∧
    (Address ≠ 0 → (ADXL345_SetAddressI2C Handler Address).2.AddressI2C = 0x1D) ∧
    (ADXL345_SetAddressI2C Handler Address).1 = ADXL345_OK ∧
    (ADXL345_SetAddressI2C Handler Address).2.PlatformI2CInit = Handler.PlatformI2CInit ∧
    (ADXL345_SetAddressI2C Handler Address).2.PlatformI2CDeInit = Handler.PlatformI2CDeInit ∧
    (ADXL345_SetAddressI2C Handler Address).2.PlatformI2CSend = Handler.PlatformI2CSend ∧
    (ADXL345_SetAddressI2C Handler Address).2.PlatformI2CReceive =
      Handler.PlatformI2CReceive ∧
    (ADXL345_SetAddressI2C Handler Address).2.InterruptCallback = Handler.InterruptCallback ∧
    ((ADXL345_SetAddressI2C Handler Address).2.AddressI2C = 0x53 ∨
      (ADXL345_SetAddressI2C Handler Address).2.AddressI2C = 0x1D) := by
  unfold ADXL345_SetAddressI2C
  by_cases h : Address = 0 <;>
    simp [h, ADXL345_I2C_ADDRESS_A, ADXL345_I2C_ADDRESS_B]

/-- Claim C17. `ADXL345_Init` returns OK exactly when the four transport pointers
are non-null and the transport init returns 0; when one of the four is null it
returns FAIL and makes no call through the handle; the result does not depend
on the interrupt callback. -/
theorem C17_init {σ : Type} (Handler : ADXL345_Handler_s σ) (w : σ) :
    ((ADXL345_Init Handler w).1 = ADXL345_OK ↔
      ∃ init, Handler.PlatformI2CInit = some init ∧ Handler.PlatformI2CDeInit.isSome = true ∧
        Handler.PlatformI2CSend.isSome = true ∧ Handler.PlatformI2CReceive.isSome = true ∧
        (init w).1 = 0) ∧
    ((Handler.PlatformI2CInit = none ∨ Handler.PlatformI2CDeInit = none ∨
        Handler.PlatformI2CSend = none ∨ Handler.PlatformI2CReceive = none) →
      (ADXL345_Init (recordingS Handler) (w, [])).1 = ADXL345_FAIL ∧
      (ADXL345_Init (recordingS Handler) (w, [])).2.2 = (w, [])) ∧
    (∀ init, Handler.PlatformI2CInit = some init → Handler.PlatformI2CDeInit.isSome = true →
        Handler.PlatformI2CSend.isSome = true → Handler.PlatformI2CReceive.isSome = true →
      (ADXL345_Init (recordingS Handler) (w, [])).2.2 = ((init w).2, [PlatformEvent.init])) ∧
    (∀ cb, (ADXL345_Init { Handler with InterruptCallback := cb } w).1 =
      (ADXL345_Init Handler w).1) := by
  obtain ⟨A, i, d, s, r, c⟩ := Handler
  refine ⟨?_, ?_, ?_, ?_⟩
  · cases i <;> cases d <;> cases s <;> cases r <;> simp [ADXL345_Init]
    split_ifs with h <;> simp_all
  · cases i <;> cases d <;> cases s <;> cases r <;> simp [ADXL345_Init, recordingS]
  · cases i <;> cases d <;> cases s <;> cases r <;> simp [ADXL345_Init, recordingS]
    split_ifs <;> simp
  · intro cb
    cases i <;> cases d <;> cases s <;> cases r <;> simp [ADXL345_Init]
    split_ifs <;> rfl

/-- Claim C20. `ADXL345_ReadRegs` first sends the single byte `StartReg` to the bus
address of the handle; when that send fails it returns FAIL and no receive is
attempted; otherwise it performs one receive of exactly `BytesCount` bytes
and returns OK exactly when the receive succeeds (FAIL otherwise). -/
theorem C20_read_registers {σ : Type} (H : ADXL345_Handler_t σ) (w : σ)
    (StartReg : Nat) (Data : Nat → Nat) (BytesCount : Nat) :
    ((H.PlatformI2CSend w H.AddressI2C [StartReg]).1 ≠ 0 →
      (ADXL345_ReadRegs (recording H) (w, []) StartReg Data BytesCount).1 = ADXL345_FAIL ∧
      (ADXL345_ReadRegs (recording H) (w, []) StartReg Data BytesCount).2.2.2 =
        [PlatformEvent.send H.AddressI2C [StartReg]]) ∧
    ((H.PlatformI2CSend w H.AddressI2C [StartReg]).1 = 0 →
      (ADXL345_ReadRegs (recording H) (w, []) StartReg Data BytesCount).2.2.2 =
        [PlatformEvent.send H.AddressI2C [StartReg],
          PlatformEvent.receive H.AddressI2C BytesCount] ∧
      ((ADXL345_ReadRegs (recording H) (w, []) StartReg Data BytesCount).1 = ADXL345_OK ↔
        (H.PlatformI2CReceive (H.PlatformI2CSend w H.AddressI2C [StartReg]).2 H.AddressI2C
          BytesCount).1 = 0) ∧
      ((ADXL345_ReadRegs (recording H) (w, []) StartReg Data BytesCount).1 ≠ ADXL345_OK →
        (ADXL345_ReadRegs (recording H) (w, []) StartReg Data BytesCount).1 = ADXL345_FAIL)) ∧
    (ADXL345_ReadRegs (recording H) (w, []) StartReg Data BytesCount).1 =
      (ADXL345_ReadRegs H w StartReg Data BytesCount).1 := by
  refine ⟨?_, ?_, (ReadRegs_recording_eq H (w, []) StartReg Data BytesCount).1⟩
  · intro h
    simp [ADXL345_ReadRegs, recording, h]
  · intro h
    simp only [ADXL345_ReadRegs, recording, h]
    split_ifs with h2 <;> simp_all

/-! ## Lemmas on `ADXL345_WriteRegs` -/

theorem writeFrame_mod (start : Nat) (data : Nat → Nat) (n k : Nat) :
    writeFrame (start % 256) data n k = writeFrame start data n k := by
  unfold writeFrame
  congr 1
  omega

theorem writeFrames_mod (start : Nat) (data : Nat → Nat) (n : Nat) :
    writeFrames (start % 256) data n = writeFrames start data n := by
  unfold writeFrames
  congr 1
  funext k
  exact writeFrame_mod start data n k

theorem writeFrames_zero (start : Nat) (data : Nat → Nat) : writeFrames start data 0 = [] := by
  simp [writeFrames]

/-- The first frame of a non-empty block write and the frames that follow it. -/
theorem writeFrames_pos (start : Nat) (data : Nat → Nat) (n : Nat) (hn : n ≠ 0) :
    writeFrames start data n =
      ((start % 256) :: (List.range (MIN n (9 - 1))).map (fun k => data k % 256)) ::
        writeFrames (start + MIN n (9 - 1)) (fun k => data (k + MIN n (9 - 1)))
          (n - MIN n (9 - 1)) := by
  rw [MIN_eq_min]
  by_cases h8 : n ≤ 8
  · have e1 : (n + 7) / 8 = 1 := by omega
    have e2 : min n (9 - 1) = n := by omega
    rw [e2, Nat.sub_self, writeFrames_zero]
    unfold writeFrames
    rw [e1]
    have e3 : min 8 n = n := by omega
    rw [show List.range 1 = [0] from rfl]
    simp only [List.map_cons, List.map_nil, writeFrame, Nat.mul_zero, Nat.add_zero,
      Nat.zero_add, Nat.sub_zero]
    rw [e3]
  · have e1 : (n + 7) / 8 = (n - 8 + 7) / 8 + 1 := by omega
    have e2 : min n (9 - 1) = 8 := by omega
    rw [e2]
    unfold writeFrames
    rw [e1, List.range_succ_eq_map, List.map_cons, List.map_map]
    have e3 : min 8 n = 8 := by omega
    congr 1
    · simp only [writeFrame, Nat.mul_zero, Nat.add_zero, Nat.zero_add, Nat.sub_zero]
      rw [e3]
    · apply List.map_congr_left
      intro k _
      simp only [Function.comp, writeFrame, Nat.succ_eq_add_one]
      have a1 : (start + 8 * (k + 1)) % 256 = (start + 8 + 8 * k) % 256 := by
        congr 1; omega
      have a2 : min 8 (n - 8 * (k + 1)) = min 8 (n - 8 - 8 * k) := by omega
      rw [a1, a2]
      congr 1
      apply List.map_congr_left
      intro j _
      have a3 : 8 * (k + 1) + j = 8 * k + j + 8 := by omega
      rw [a3]

/-- The loop of `ADXL345_WriteRegs` sends the frames of the block write in order
and stops at the first send that fails; `BytesCount` iterations suffice. -/
theorem WriteRegs_loop_eq {σ : Type} (H : ADXL345_Handler_t σ) (fuel : Nat) :
    ∀ (n : Nat) (w : σ) (b0 : Nat) (data : Nat → Nat), n ≤ fuel → b0 < 256 →
      ADXL345_WriteRegs_loop H fuel w b0 data n =
        some (sendUntilFail H w (writeFrames b0 data n)) := by
  induction fuel with
  | zero =>
    intro n w b0 data hn _
    have : n = 0 := by omega
    subst this
    simp [ADXL345_WriteRegs_loop, writeFrames_zero, sendUntilFail]
  | succ fuel ih =>
    intro n w b0 data hn hb
    by_cases h0 : n = 0
    · subst h0
      simp [ADXL345_WriteRegs_loop, writeFrames_zero, sendUntilFail]
    · rw [writeFrames_pos b0 data n h0]
      unfold ADXL345_WriteRegs_loop
      simp only [h0, if_false]
      unfold sendUntilFail
      have hb0 : b0 % 256 = b0 := Nat.mod_eq_of_lt hb
      rw [hb0]
      split_ifs with hs
      · rfl
      · have hlen : 1 ≤ MIN n (9 - 1) := by rw [MIN_eq_min]; omega
        rw [ih (n - MIN n (9 - 1)) _ _ _ (by omega) (Nat.mod_lt _ (by norm_num)),
          writeFrames_mod]

theorem WriteRegs_eq {σ : Type} (H : ADXL345_Handler_t σ) (w : σ) (StartReg : Nat)
    (Data : Nat → Nat) (BytesCount : Nat) :
    ADXL345_WriteRegs H w StartReg Data BytesCount =
      some (sendUntilFail H w (writeFrames StartReg Data BytesCount)) := by
  unfold ADXL345_WriteRegs
  rw [WriteRegs_loop_eq H BytesCount BytesCount w _ Data (Nat.le_refl _)
    (Nat.mod_lt _ (by norm_num)), writeFrames_mod]

/-- When every send of the given frames succeeds, all of them are sent. -/
theorem sendUntilFail_recording_ok {σ : Type} (H : ADXL345_Handler_t σ) :
    ∀ (fs : List (List Nat)) (w : σ) (t : List PlatformEvent),
      (∀ s ∈ (sendFrames H w fs).1, s = 0) →
      sendUntilFail (recording H) (w, t) fs =
        (ADXL345_OK, ((sendFrames H w fs).2,
          t ++ fs.map (PlatformEvent.send H.AddressI2C))) := by
  intro fs
  induction fs with
  | nil => intro w t _; simp [sendUntilFail, sendFrames]
  | cons f fs ih =>
    intro w t h
    have h0 : (H.PlatformI2CSend w H.AddressI2C f).1 = 0 := h _ (by simp [sendFrames])
    have h1 : ∀ s ∈ (sendFrames H (H.PlatformI2CSend w H.AddressI2C f).2 fs).1, s = 0 :=
      fun s hs => h s (by simp [sendFrames, hs])
    unfold sendUntilFail
    simp only [recording, h0, ne_eq, not_true_eq_false, if_false]
    have := ih (H.PlatformI2CSend w H.AddressI2C f).2
      (t ++ [PlatformEvent.send H.AddressI2C f]) h1
    simp only [recording] at this
    rw [this]
    simp [sendFrames]

/-- When the send of frame `i` (counted from 0) is the first to fail, the frames
up to it are sent and no other. -/
theorem sendUntilFail_recording_fail {σ : Type} (H : ADXL345_Handler_t σ) :
    ∀ (fs : List (List Nat)) (w : σ) (t : List PlatformEvent) (i : Nat) (e : Int),
      i < fs.length →
      (sendFrames H w (fs.take (i + 1))).1 = List.replicate i 0 ++ [e] → e ≠ 0 →
      sendUntilFail (recording H) (w, t) fs =
        (ADXL345_FAIL, ((sendFrames H w (fs.take (i + 1))).2,
          t ++ (fs.take (i + 1)).map (PlatformEvent.send H.AddressI2C))) := by
  intro fs
  induction fs with
  | nil => intro w t i e hi; simp at hi
  | cons f fs ih =>
    intro w t i e hi hst he
    cases i with
    | zero =>
      simp [sendFrames] at hst
      unfold sendUntilFail
      simp [recording, hst, he, sendFrames]
    | succ i =>
      simp only [List.take_succ_cons, sendFrames, List.replicate_succ, List.cons_append,
        List.cons.injEq] at hst
      obtain ⟨h0, hrest⟩ := hst
      unfold sendUntilFail
      simp only [recording, h0, ne_eq, not_true_eq_false, if_false]
      have := ih (H.PlatformI2CSend w H.AddressI2C f).2
        (t ++ [PlatformEvent.send H.AddressI2C f]) i e (by simpa using hi) hrest he
      simp only [recording] at this
      rw [this]
      simp [sendFrames]

theorem writeFrames_payload (n : Nat) :
    ∀ (start : Nat) (data : Nat → Nat),
      ((writeFrames start data n).map List.tail).flatten =
        (List.range n).map (fun i => data i % 256) := by
  induction n using Nat.strong_induction_on with
  | _ n ih =>
    intro start data
    by_cases h0 : n = 0
    · subst h0; simp [writeFrames_zero]
    · rw [writeFrames_pos start data n h0]
      have hlen : 1 ≤ MIN n (9 - 1) ∧ MIN n (9 - 1) ≤ n := by rw [MIN_eq_min]; omega
      simp only [List.map_cons, List.tail_cons, List.flatten_cons]
      rw [ih (n - MIN n (9 - 1)) (by omega)]
      have hn : n = MIN n (9 - 1) + (n - MIN n (9 - 1)) := by omega
      conv_rhs => rw [hn, List.range_add, List.map_append, List.map_map]
      congr 1
      apply List.map_congr_left
      intro j _
      simp [Function.comp, Nat.add_comm]

/-! ## Claims on `ADXL345_WriteRegs` -/

/-- Claim C18. For every start register and every data of `n` bytes, when every
send of a frame succeeds `ADXL345_WriteRegs` ends and returns OK, and the sends
it makes are exactly the `ceil(n / 8)` frames, in order, where frame `k` is the
byte `(start + 8k) mod 256` followed by `data[8k .. min(8k+8, n))`; every frame
has at most 9 bytes and the payloads of the frames concatenate to the data. -/
theorem C18_write_frames {σ : Type} (H : ADXL345_Handler_t σ) (w : σ)
    (StartReg : Nat) (Data : Nat → Nat) (n : Nat)
    (hok : ∀ s ∈ (sendFrames H w (writeFrames StartReg Data n)).1, s = 0) :
    ADXL345_WriteRegs (recording H) (w, []) StartReg Data n =
      some (ADXL345_OK, ((sendFrames H w (writeFrames StartReg Data n)).2,
        (writeFrames StartReg Data n).map (PlatformEvent.send H.AddressI2C))) ∧
    (writeFrames StartReg Data n).length = (n + 7) / 8 ∧
    (∀ k, k < (n + 7) / 8 →
      (writeFrames StartReg Data n)[k]? =
        some (((StartReg + 8 * k) % 256) ::
          (List.range (min 8 (n - 8 * k))).map (fun j => Data (8 * k + j) % 256))) ∧
    (∀ f ∈ writeFrames StartReg Data n, f.length ≤ 9) ∧
    ((writeFrames StartReg Data n).map List.tail).flatten =
      (List.range n).map (fun i => Data i % 256) := by
  refine ⟨?_, by simp [writeFrames], ?_, ?_, writeFrames_payload n StartReg Data⟩
  · rw [WriteRegs_eq, sendUntilFail_recording_ok H _ w [] hok]
    simp [recording]
  · intro k hk
    simp [writeFrames, writeFrame, hk]
  · intro f hf
    simp only [writeFrames, List.mem_map, List.mem_range] at hf
    obtain ⟨k, _, rfl⟩ := hf
    simp only [writeFrame, List.length_cons, List.length_map, List.length_range]
    omega

/-- Witness of C18 on the ideal device: a write of the 10 bytes 1, ..., 10 from
register 0x1E returns OK and sends two frames, the second one led by 0x26. -/
theorem C18_write_frames_witness :
    (ADXL345_WriteRegs (recording simHandler) (simDevice [], []) 0x1E (fun k => k + 1)
        10).map (fun r => (r.1, r.2.2)) =
      some (ADXL345_OK,
        [PlatformEvent.send 0x53 [0x1E, 1, 2, 3, 4, 5, 6, 7, 8],
          PlatformEvent.send 0x53 [0x26, 9, 10]]) := by
  rw [(C18_write_frames simHandler (simDevice []) 0x1E (fun k => k + 1) 10 (by decide)).1]
  decide

/-- Claim C19. When the `j`-th frame send of `ADXL345_WriteRegs` (counted from 1)
is the first to fail, `ADXL345_WriteRegs` ends and returns FAIL, and the sends
it made are exactly the first `j` frames: the `j - 1` frames before the failing
one were delivered, nothing is sent after the failing frame, and the world is
left as the `j` sends left it. -/
theorem C19_first_failing_frame {σ : Type} (H : ADXL345_Handler_t σ) (w : σ)
    (StartReg : Nat) (Data : Nat → Nat) (n j : Nat) (e : Int)
    (hj1 : 1 ≤ j) (hj : j ≤ (writeFrames StartReg Data n).length)
    (hst : (sendFrames H w ((writeFrames StartReg Data n).take j)).1 =
      List.replicate (j - 1) 0 ++ [e])
    (he : e ≠ 0) :
    ADXL345_WriteRegs (recording H) (w, []) StartReg Data n =
      some (ADXL345_FAIL, ((sendFrames H w ((writeFrames StartReg Data n).take j)).2,
        ((writeFrames StartReg Data n).take j).map (PlatformEvent.send H.AddressI2C))) ∧
    (((writeFrames StartReg Data n).take j).map (PlatformEvent.send H.AddressI2C)).length = j := by
  obtain ⟨i, rfl⟩ : ∃ i, j = i + 1 := ⟨j - 1, by omega⟩
  simp only [Nat.add_sub_cancel] at hst
  refine ⟨?_, ?_⟩
  · rw [WriteRegs_eq, sendUntilFail_recording_fail H _ w [] i e (by omega) hst he]
    simp [recording]
  · rw [List.length_map, List.length_take]
    omega

/-- Witness of C19 on the ideal device whose second send fails: a write of 20
bytes (three frames) returns FAIL after exactly two sends. -/
theorem C19_first_failing_frame_witness :
    (ADXL345_WriteRegs (recording simHandler) (⟨regsOf [], 0, [0, 1], []⟩, []) 0x1E
        (fun k => k + 1) 20).map (fun r => (r.1, r.2.2)) =
      some (ADXL345_FAIL,
        [PlatformEvent.send 0x53 [0x1E, 1, 2, 3, 4, 5, 6, 7, 8],
          PlatformEvent.send 0x53 [0x26, 9, 10, 11, 12, 13, 14, 15, 16]]) := by
  rw [(C19_first_failing_frame simHandler ⟨regsOf [], 0, [0, 1], []⟩ 0x1E (fun k => k + 1) 20
    2 1 (by decide) (by decide) (by decide) (by decide)).1]
  decide

/-! ## Lemmas on the handle structure in memory -/

theorem preserves_PlatformI2CInit {σ : Type} :
    (InMemory.Handler_PlatformI2CInit : InMemory.Driver σ Int).Preserves := by
  intro s a t h
  unfold InMemory.Handler_PlatformI2CInit at h
  split at h
  · cases h
  · cases h; rfl

theorem Driver_bind_apply {σ α β : Type} (m : InMemory.Driver σ α)
    (f : α → InMemory.Driver σ β) (s : InMemory.DriverState σ) :
    (m >>= f) s = (m s).bind (fun r => f r.1 r.2) := by
  change InMemory.Driver.bind m f s = _
  unfold InMemory.Driver.bind
  cases m s <;> rfl

theorem Driver_pure_apply {σ α : Type} (a : α) (s : InMemory.DriverState σ) :
    (pure a : InMemory.Driver σ α) s = some (a, s) := rfl

theorem Handler_PlatformI2CSend_apply {σ : Type} (H : ADXL345_Handler_t σ) (w : σ)
    (Data : List Nat) :
    InMemory.Handler_PlatformI2CSend Data ⟨H.toStruct, w⟩ =
      some ((H.PlatformI2CSend w H.AddressI2C Data).1,
        ⟨H.toStruct, (H.PlatformI2CSend w H.AddressI2C Data).2⟩) := rfl

theorem Handler_PlatformI2CReceive_apply {σ : Type} (H : ADXL345_Handler_t σ) (w : σ)
    (Len : Nat) :
    InMemory.Handler_PlatformI2CReceive Len ⟨H.toStruct, w⟩ =
      some (((H.PlatformI2CReceive w H.AddressI2C Len).1,
          (H.PlatformI2CReceive w H.AddressI2C Len).2.1),
        ⟨H.toStruct, (H.PlatformI2CReceive w H.AddressI2C Len).2.2⟩) := rfl

theorem Handler_PlatformI2CDeInit_apply {σ : Type} (H : ADXL345_Handler_t σ) (w : σ) :
    InMemory.Handler_PlatformI2CDeInit ⟨H.toStruct, w⟩ =
      some ((H.PlatformI2CDeInit w).1, ⟨H.toStruct, (H.PlatformI2CDeInit w).2⟩) := rfl

theorem Handler_get_apply {σ : Type} (s : InMemory.DriverState σ) :
    InMemory.Handler_get s = some (s.Handler, s) := rfl

theorem agree_ReadRegs {σ : Type} (H : ADXL345_Handler_t σ) (w : σ) (StartReg : Nat)
    (Data : Nat → Nat) (BytesCount : Nat) :
    InMemory.ADXL345_ReadRegs StartReg Data BytesCount ⟨H.toStruct, w⟩ =
      some (((ADXL345_ReadRegs H w StartReg Data BytesCount).1,
          (ADXL345_ReadRegs H w StartReg Data BytesCount).2.1),
        ⟨H.toStruct, (ADXL345_ReadRegs H w StartReg Data BytesCount).2.2⟩) := by
  unfold InMemory.ADXL345_ReadRegs ADXL345_ReadRegs
  rw [Driver_bind_apply, Handler_PlatformI2CSend_apply, Option.some_bind]
  dsimp only
  split_ifs with hs hr
  · rfl
  · rw [Driver_bind_apply, Handler_PlatformI2CReceive_apply, Option.some_bind]
    dsimp only
    rw [if_pos hr]
    rfl
  · rw [Driver_bind_apply, Handler_PlatformI2CReceive_apply, Option.some_bind]
    dsimp only
    rw [if_neg hr]
    rfl

theorem agree_WriteRegs_loop {σ : Type} (H : ADXL345_Handler_t σ) (fuel : Nat) :
    ∀ (w : σ) (Buffer0 : Nat) (Data : Nat → Nat) (BytesCount : Nat),
      InMemory.ADXL345_WriteRegs_loop fuel Buffer0 Data BytesCount ⟨H.toStruct, w⟩ =
        (ADXL345_WriteRegs_loop H fuel w Buffer0 Data BytesCount).map
          (fun r => (r.1, ⟨H.toStruct, r.2⟩)) := by
  induction fuel with
  | zero =>
    intro w Buffer0 Data BytesCount
    unfold InMemory.ADXL345_WriteRegs_loop ADXL345_WriteRegs_loop
    split_ifs <;> rfl
  | succ fuel ih =>
    intro w Buffer0 Data BytesCount
    unfold InMemory.ADXL345_WriteRegs_loop ADXL345_WriteRegs_loop
    split_ifs with h0
    · rfl
    · simp only [Driver_bind_apply, Handler_PlatformI2CSend_apply, Option.some_bind, ite_apply,
        Driver_pure_apply]
      split_ifs with hs
      · rfl
      · exact ih _ _ _ _

theorem agree_WriteRegs {σ : Type} (H : ADXL345_Handler_t σ) (w : σ) (StartReg : Nat)
    (Data : Nat → Nat) (BytesCount : Nat) :
    InMemory.ADXL345_WriteRegs StartReg Data BytesCount ⟨H.toStruct, w⟩ =
      (ADXL345_WriteRegs H w StartReg Data BytesCount).map
        (fun r => (r.1, ⟨H.toStruct, r.2⟩)) :=
  agree_WriteRegs_loop H _ _ _ _ _

theorem agree_Get_Rate {σ : Type} (H : ADXL345_Handler_t σ) (w : σ) (Rate : Nat) :
    InMemory.ADXL345_Get_Rate Rate ⟨H.toStruct, w⟩ =
      some (((ADXL345_Get_Rate H w Rate).1, (ADXL345_Get_Rate H w Rate).2.1),
        ⟨H.toStruct, (ADXL345_Get_Rate H w Rate).2.2⟩) := by
  unfold InMemory.ADXL345_Get_Rate ADXL345_Get_Rate
  simp only [Driver_bind_apply, agree_ReadRegs, Option.some_bind, ite_apply, Driver_pure_apply]
  split_ifs <;> rfl

theorem agree_Set_Rate {σ : Type} (H : ADXL345_Handler_t σ) (w : σ) (Rate : Nat) :
    InMemory.ADXL345_Set_Rate Rate ⟨H.toStruct, w⟩ =
      (ADXL345_Set_Rate H w Rate).map (fun r => (r.1, ⟨H.toStruct, r.2⟩)) := by
  unfold InMemory.ADXL345_Set_Rate ADXL345_Set_Rate
  simp only [Driver_bind_apply, agree_ReadRegs, Option.some_bind, ite_apply, Driver_pure_apply]
  split_ifs
  · rfl
  · exact agree_WriteRegs H _ _ _ _

theorem agree_Set_Offset {σ : Type} (H : ADXL345_Handler_t σ) (w : σ) (X Y Z : Int) :
    InMemory.ADXL345_Set_Offset X Y Z ⟨H.toStruct, w⟩ =
      (ADXL345_Set_Offset H w X Y Z).map (fun r => (r.1, ⟨H.toStruct, r.2⟩)) := by
  unfold InMemory.ADXL345_Set_Offset ADXL345_Set_Offset
  rw [Driver_bind_apply, agree_WriteRegs]
  cases ADXL345_WriteRegs H w ADXL345_REG_OFSX
    (bytesAt [byteOfInt8 X, byteOfInt8 Y, byteOfInt8 Z]) 3 with
  | none => rfl
  | some r =>
    simp only [Option.map_some', Option.some_bind, ite_apply, Driver_pure_apply, okOrFail]
    split_ifs <;> rfl

theorem agree_Get_Offset {σ : Type} (H : ADXL345_Handler_t σ) (w : σ) (X Y Z : Int)
    (Buffer : Nat → Nat) :
    InMemory.ADXL345_Get_Offset X Y Z Buffer ⟨H.toStruct, w⟩ =
      some (((ADXL345_Get_Offset H w X Y Z Buffer).1, (ADXL345_Get_Offset H w X Y Z Buffer).2.1),
        ⟨H.toStruct, (ADXL345_Get_Offset H w X Y Z Buffer).2.2⟩) := by
  unfold InMemory.ADXL345_Get_Offset ADXL345_Get_Offset
  simp only [Driver_bind_apply, agree_ReadRegs, Option.some_bind, ite_apply, Driver_pure_apply]
  split_ifs <;> rfl

theorem agree_Get_TapStatus {σ : Type} (H : ADXL345_Handler_t σ) (w : σ)
    (Status : ADXL345_ActTapStatus_t) :
    InMemory.ADXL345_Get_TapStatus Status ⟨H.toStruct, w⟩ =
      some (((ADXL345_Get_TapStatus H w Status).1, (ADXL345_Get_TapStatus H w Status).2.1),
        ⟨H.toStruct, (ADXL345_Get_TapStatus H w Status).2.2⟩) := by
  unfold InMemory.ADXL345_Get_TapStatus ADXL345_Get_TapStatus
  simp only [Driver_bind_apply, agree_ReadRegs, Option.some_bind, ite_apply, Driver_pure_apply]
  by_cases h : (ADXL345_ReadRegs H w ADXL345_REG_ACT_TAP_STATUS (fun _ => 0) 1).1 = ADXL345_OK
  · rw [if_neg (not_not.2 h), if_neg (not_not.2 h)]
    rfl
  · rw [if_pos h, if_pos h]
    rfl

theorem agree_Get_ActivityInactivity {σ : Type} (H : ADXL345_Handler_t σ) (w : σ)
    (A : ADXL345_ActivityInactivity_t) :
    InMemory.ADXL345_Get_ActivityInactivity A ⟨H.toStruct, w⟩ =
      some (((ADXL345_Get_ActivityInactivity H w A).1,
          (ADXL345_Get_ActivityInactivity H w A).2.1),
        ⟨H.toStruct, (ADXL345_Get_ActivityInactivity H w A).2.2⟩) := by
  unfold InMemory.ADXL345_Get_ActivityInactivity ADXL345_Get_ActivityInactivity
  simp only [Driver_bind_apply, agree_ReadRegs, Option.some_bind, ite_apply, Driver_pure_apply]
  split_ifs <;> rfl

theorem agree_Get_FreeFall {σ : Type} (H : ADXL345_Handler_t σ) (w : σ) (Threshold Time : Nat) :
    InMemory.ADXL345_Get_FreeFall Threshold Time ⟨H.toStruct, w⟩ =
      some (((ADXL345_Get_FreeFall H w Threshold Time).1,
          (ADXL345_Get_FreeFall H w Threshold Time).2.1),
        ⟨H.toStruct, (ADXL345_Get_FreeFall H w Threshold Time).2.2⟩) := by
  unfold InMemory.ADXL345_Get_FreeFall ADXL345_Get_FreeFall
  simp only [Driver_bind_apply, agree_ReadRegs, Option.some_bind, ite_apply, Driver_pure_apply]
  split_ifs <;> rfl

theorem agree_Get_InterruptConfig {σ : Type} (H : ADXL345_Handler_t σ) (w : σ)
    (Config : ADXL345_InterruptConfig_t) :
    InMemory.ADXL345_Get_InterruptConfig Config ⟨H.toStruct, w⟩ =
      some (((ADXL345_Get_InterruptConfig H w Config).1,
          (ADXL345_Get_InterruptConfig H w Config).2.1),
        ⟨H.toStruct, (ADXL345_Get_InterruptConfig H w Config).2.2⟩) := by
  unfold InMemory.ADXL345_Get_InterruptConfig ADXL345_Get_InterruptConfig
  simp only [Driver_bind_apply, agree_ReadRegs, Option.some_bind, ite_apply, Driver_pure_apply]
  split_ifs <;> rfl

theorem agree_Get_InterruptSource {σ : Type} (H : ADXL345_Handler_t σ) (w : σ)
    (Source : ADXL345_InterruptReg_t) :
    InMemory.ADXL345_Get_InterruptSource Source ⟨H.toStruct, w⟩ =
      some (((ADXL345_Get_InterruptSource H w Source).1,
          (ADXL345_Get_InterruptSource H w Source).2.1),
        ⟨H.toStruct, (ADXL345_Get_InterruptSource H w Source).2.2⟩) := by
  unfold InMemory.ADXL345_Get_InterruptSource ADXL345_Get_InterruptSource
  simp only [Driver_bind_apply, agree_ReadRegs, Option.some_bind, ite_apply, Driver_pure_apply]
  split_ifs <;> rfl

theorem agree_Get_DataFormat {σ : Type} (H : ADXL345_Handler_t σ) (w : σ)
    (DataFormat : ADXL345_DataFormat_t) :
    InMemory.ADXL345_Get_DataFormat DataFormat ⟨H.toStruct, w⟩ =
      some (((ADXL345_Get_DataFormat H w DataFormat).1,
          (ADXL345_Get_DataFormat H w DataFormat).2.1),
        ⟨H.toStruct, (ADXL345_Get_DataFormat H w DataFormat).2.2⟩) := by
  unfold InMemory.ADXL345_Get_DataFormat ADXL345_Get_DataFormat
  simp only [Driver_bind_apply, agree_ReadRegs, Option.some_bind, ite_apply, Driver_pure_apply]
  split_ifs <;> rfl

theorem agree_Get_FifoConfig {σ : Type} (H : ADXL345_Handler_t σ) (w : σ)
    (Config : ADXL345_FifoConfig_t) :
    InMemory.ADXL345_Get_FifoConfig Config ⟨H.toStruct, w⟩ =
      some (((ADXL345_Get_FifoConfig H w Config).1, (ADXL345_Get_FifoConfig H w Config).2.1),
        ⟨H.toStruct, (ADXL345_Get_FifoConfig H w Config).2.2⟩) := by
  unfold InMemory.ADXL345_Get_FifoConfig ADXL345_Get_FifoConfig
  simp only [Driver_bind_apply, agree_ReadRegs, Option.some_bind, ite_apply, Driver_pure_apply]
  split_ifs <;> rfl

theorem agree_Get_FifoStatus {σ : Type} (H : ADXL345_Handler_t σ) (w : σ)
    (Status : ADXL345_FifoStatus_t) :
    InMemory.ADXL345_Get_FifoStatus Status ⟨H.toStruct, w⟩ =
      some (((ADXL345_Get_FifoStatus H w Status).1, (ADXL345_Get_FifoStatus H w Status).2.1),
        ⟨H.toStruct, (ADXL345_Get_FifoStatus H w Status).2.2⟩) := by
  unfold InMemory.ADXL345_Get_FifoStatus ADXL345_Get_FifoStatus
  simp only [Driver_bind_apply, agree_ReadRegs, Option.some_bind, ite_apply, Driver_pure_apply]
  split_ifs <;> simp_all [Driver_pure_apply]

theorem agree_Get_PowerControl {σ : Type} (H : ADXL345_Handler_t σ) (w : σ)
    (PowerControl : ADXL345_PowerControl_t) :
    InMemory.ADXL345_Get_PowerControl PowerControl ⟨H.toStruct, w⟩ =
      some (((ADXL345_Get_PowerControl H w PowerControl).1,
          (ADXL345_Get_PowerControl H w PowerControl).2.1),
        ⟨H.toStruct, (ADXL345_Get_PowerControl H w PowerControl).2.2⟩) := by
  unfold InMemory.ADXL345_Get_PowerControl ADXL345_Get_PowerControl
  simp only [Driver_bind_apply, agree_ReadRegs, Option.some_bind, ite_apply, Driver_pure_apply]
  split_ifs <;> rfl

theorem agree_Set_DataFormat {σ : Type} (H : ADXL345_Handler_t σ) (w : σ)
    (DataFormat : ADXL345_DataFormat_t) :
    InMemory.ADXL345_Set_DataFormat DataFormat ⟨H.toStruct, w⟩ =
      (ADXL345_Set_DataFormat H w DataFormat).map (fun r => (r.1, ⟨H.toStruct, r.2⟩)) := by
  unfold InMemory.ADXL345_Set_DataFormat ADXL345_Set_DataFormat
  simp only [Driver_bind_apply, agree_ReadRegs, Option.some_bind, ite_apply, Driver_pure_apply]
  split_ifs
  · rfl
  · exact agree_WriteRegs H _ _ _ _

theorem agree_CheckDeviceID {σ : Type} (H : ADXL345_Handler_t σ) (w : σ) :
    InMemory.ADXL345_CheckDeviceID ⟨H.toStruct, w⟩ =
      some ((ADXL345_CheckDeviceID H w).1, ⟨H.toStruct, (ADXL345_CheckDeviceID H w).2⟩) := by
  unfold InMemory.ADXL345_CheckDeviceID ADXL345_CheckDeviceID
  simp only [Driver_bind_apply, agree_ReadRegs, Option.some_bind, ite_apply, Driver_pure_apply]
  split_ifs <;> rfl

theorem agree_Set_TapConfig {σ : Type} (H : ADXL345_Handler_t σ) (w : σ)
    (TapConfig : ADXL345_TapConfig_t) :
    InMemory.ADXL345_Set_TapConfig TapConfig ⟨H.toStruct, w⟩ =
      (ADXL345_Set_TapConfig H w TapConfig).map (fun r => (r.1, ⟨H.toStruct, r.2⟩)) := by
  unfold InMemory.ADXL345_Set_TapConfig ADXL345_Set_TapConfig
  rw [Driver_bind_apply, agree_WriteRegs]
  cases ADXL345_WriteRegs H w ADXL345_REG_THRESH_TAP (bytesAt [TapConfig.TapThreshold % 256]) 1 with
  | none => rfl
  | some r1 =>
    simp only [Option.map_some', Option.some_bind, ite_apply, Driver_pure_apply]
    split_ifs with h1
    · rfl
    · rw [Driver_bind_apply, agree_WriteRegs]
      cases ADXL345_WriteRegs H r1.2 ADXL345_REG_DUR
        (bytesAt [TapConfig.Duration % 256, TapConfig.Latent % 256, TapConfig.Window % 256])
        3 with
      | none => rfl
      | some r2 =>
        simp only [Option.map_some', Option.some_bind, ite_apply, Driver_pure_apply]
        split_ifs with h2
        · rfl
        · exact agree_WriteRegs H _ _ _ _

theorem agree_Get_TapConfig {σ : Type} (H : ADXL345_Handler_t σ) (w : σ) (Buffer : Nat → Nat) :
    InMemory.ADXL345_Get_TapConfig Buffer ⟨H.toStruct, w⟩ =
      some (((ADXL345_Get_TapConfig H w Buffer).1, (ADXL345_Get_TapConfig H w Buffer).2.1),
        ⟨H.toStruct, (ADXL345_Get_TapConfig H w Buffer).2.2⟩) := by
  unfold InMemory.ADXL345_Get_TapConfig ADXL345_Get_TapConfig
  repeat' first
      | rfl
      | exact agree_WriteRegs H _ _ _ _
      | simp only [Driver_bind_apply, agree_ReadRegs, agree_Get_FifoConfig, agree_Get_DataFormat,
          agree_Get_FifoStatus, agree_Get_PowerControl, agree_Get_InterruptSource,
          Handler_PlatformI2CDeInit_apply, Option.some_bind, Option.map_some', ite_apply,
          Driver_pure_apply]
      | split_ifs

theorem agree_Set_InterruptConfig {σ : Type} (H : ADXL345_Handler_t σ) (w : σ)
    (Config : ADXL345_InterruptConfig_t) :
    InMemory.ADXL345_Set_InterruptConfig Config ⟨H.toStruct, w⟩ =
      (ADXL345_Set_InterruptConfig H w Config).map (fun r => (r.1, ⟨H.toStruct, r.2⟩)) := by
  unfold InMemory.ADXL345_Set_InterruptConfig ADXL345_Set_InterruptConfig
  rw [Driver_bind_apply, agree_WriteRegs]
  cases ADXL345_WriteRegs H w ADXL345_REG_INT_ENABLE
    (bytesAt [interruptByte Config.Enable, interruptByte Config.Map]) 2 with
  | none => rfl
  | some r1 =>
    repeat' first
      | rfl
      | exact agree_WriteRegs H _ _ _ _
      | simp only [Driver_bind_apply, agree_ReadRegs, agree_Get_FifoConfig, agree_Get_DataFormat,
          agree_Get_FifoStatus, agree_Get_PowerControl, agree_Get_InterruptSource,
          Handler_PlatformI2CDeInit_apply, Option.some_bind, Option.map_some', ite_apply,
          Driver_pure_apply]
      | split_ifs

theorem agree_DeInit {σ : Type} (H : ADXL345_Handler_t σ) (w : σ)
    (PowerControl : ADXL345_PowerControl_t) :
    InMemory.ADXL345_DeInit PowerControl ⟨H.toStruct, w⟩ =
      (ADXL345_DeInit H w PowerControl).map (fun r => (r.1, ⟨H.toStruct, r.2⟩)) := by
  unfold InMemory.ADXL345_DeInit ADXL345_DeInit
  simp only [Driver_bind_apply, agree_Get_PowerControl, Option.some_bind, ite_apply,
    Driver_pure_apply]
  split_ifs with h1
  · rfl
  · unfold InMemory.ADXL345_Set_PowerControl ADXL345_Set_PowerControl
    rw [Driver_bind_apply, agree_WriteRegs]
    cases ADXL345_WriteRegs H (ADXL345_Get_PowerControl H w PowerControl).2.2
      ADXL345_REG_POWER_CTL _ 1 with
    | none => rfl
    | some s =>
      repeat' first
      | rfl
      | exact agree_WriteRegs H _ _ _ _
      | simp only [Driver_bind_apply, agree_ReadRegs, agree_Get_FifoConfig, agree_Get_DataFormat,
          agree_Get_FifoStatus, agree_Get_PowerControl, agree_Get_InterruptSource,
          Handler_PlatformI2CDeInit_apply, Option.some_bind, Option.map_some', ite_apply,
          Driver_pure_apply]
      | split_ifs

theorem agree_callbackIf {σ : Type} (H : ADXL345_Handler_t σ) (w : σ)
    (callback : σ → Nat → Int × σ) (hcb : H.InterruptCallback = some callback)
    (flag : Bool) (Interrupt : Nat) :
    InMemory.callbackIf flag Interrupt ⟨H.toStruct, w⟩ =
      some ((), ⟨H.toStruct, callbackIf callback flag Interrupt w⟩) := by
  unfold InMemory.callbackIf callbackIf
  cases flag
  · rfl
  · simp only [if_true, Driver_bind_apply]
    have e : InMemory.Handler_InterruptCallback Interrupt ⟨H.toStruct, w⟩ =
        some ((callback w Interrupt).1, ⟨H.toStruct, (callback w Interrupt).2⟩) := by
      unfold InMemory.Handler_InterruptCallback ADXL345_Handler_t.toStruct
      dsimp only
      rw [hcb]
    rw [e]
    rfl

theorem agree_IRQ_Handler {σ : Type} (H : ADXL345_Handler_t σ) (w : σ)
    (Interrupt : ADXL345_InterruptReg_t) :
    InMemory.ADXL345_IRQ_Handler Interrupt ⟨H.toStruct, w⟩ =
      some ((ADXL345_IRQ_Handler H w Interrupt).1,
        ⟨H.toStruct, (ADXL345_IRQ_Handler H w Interrupt).2⟩) := by
  unfold InMemory.ADXL345_IRQ_Handler ADXL345_IRQ_Handler
  rw [Driver_bind_apply, Handler_get_apply, Option.some_bind]
  dsimp only
  cases hcb : H.InterruptCallback with
  | none =>
    have e : H.toStruct.InterruptCallback = none := hcb
    rw [e, if_pos (show (none : Option (σ → Nat → Int × σ)).isNone = true from rfl)]
    rfl
  | some callback =>
    have e : H.toStruct.InterruptCallback = some callback := hcb
    rw [e, if_neg (show ¬ (some callback).isNone = true from by simp)]
    simp only [Driver_bind_apply, agree_Get_InterruptSource, agree_callbackIf H _ callback hcb,
      Option.some_bind, Driver_pure_apply]

theorem agree_ReadSamples {σ : Type} (H : ADXL345_Handler_t σ) (w : σ)
    (L : ReadSamples_Locals) (SamplesBufferLen : Nat) :
    InMemory.ADXL345_ReadSamples L SamplesBufferLen ⟨H.toStruct, w⟩ =
      some (((ADXL345_ReadSamples H w L SamplesBufferLen).Result,
          (ADXL345_ReadSamples H w L SamplesBufferLen).Samples,
          (ADXL345_ReadSamples H w L SamplesBufferLen).ReadSamples),
        ⟨H.toStruct, (ADXL345_ReadSamples H w L SamplesBufferLen).world⟩) := by
  unfold InMemory.ADXL345_ReadSamples ADXL345_ReadSamples ADXL345_ReadSamples_count
  simp only [Driver_bind_apply, agree_Get_FifoConfig, agree_Get_DataFormat, Option.some_bind]
  by_cases hm : (ADXL345_Get_FifoConfig H w L.FifoConfig).2.1.Mode = ADXL345_MODE_BYPASS
  · simp only [hm, if_true]
    repeat' first
      | rfl
      | simp only [Driver_bind_apply, agree_ReadRegs, agree_Get_FifoConfig, agree_Get_DataFormat,
          agree_Get_FifoStatus, Option.some_bind, Option.map_some', ite_apply,
          Driver_pure_apply]
      | split_ifs
  · simp only [hm, if_false]
    repeat' first
      | rfl
      | simp only [Driver_bind_apply, agree_ReadRegs, agree_Get_FifoConfig, agree_Get_DataFormat,
          agree_Get_FifoStatus, Option.some_bind, Option.map_some', ite_apply,
          Driver_pure_apply]
      | split_ifs

/-- The function `ADXL345_SetAddressI2C` on the handle in memory assigns the
bus address as the function on the handle value does and has no other effect. -/
theorem agree_SetAddressI2C {σ : Type} (S : ADXL345_Handler_s σ) (w : σ) (Address : Nat) :
    InMemory.ADXL345_SetAddressI2C Address ⟨S, w⟩ =
      some ((ADXL345_SetAddressI2C S Address).1, ⟨(ADXL345_SetAddressI2C S Address).2, w⟩) := by
  unfold InMemory.ADXL345_SetAddressI2C ADXL345_SetAddressI2C
  by_cases h : Address = 0
  · simp only [h, if_true]
    rfl
  · simp only [h, if_false]
    rfl

/-- The function `ADXL345_Init` on the handle in memory and on the handle value
agree, also on a structure with a null pointer. -/
theorem agree_Init {σ : Type} (S : ADXL345_Handler_s σ) (w : σ) :
    InMemory.ADXL345_Init ⟨S, w⟩ =
      some ((ADXL345_Init S w).1, ⟨(ADXL345_Init S w).2.1, (ADXL345_Init S w).2.2⟩) := by
  obtain ⟨A, i, d, s, r, cb⟩ := S
  cases i <;> cases d <;> cases s <;> cases r <;> try rfl
  rename_i init deinit send receive
  unfold InMemory.ADXL345_Init ADXL345_Init
  rw [Driver_bind_apply, Handler_get_apply, Option.some_bind]
  dsimp only [Option.isNone, Bool.or_false]
  rw [if_neg (by decide), Driver_bind_apply, agree_SetAddressI2C, Option.some_bind]
  dsimp only
  have e : InMemory.Handler_PlatformI2CInit
      ⟨(ADXL345_SetAddressI2C ⟨A, some init, some deinit, some send, some receive, cb⟩ 0).2, w⟩ =
      some ((init w).1,
        ⟨(ADXL345_SetAddressI2C ⟨A, some init, some deinit, some send, some receive, cb⟩ 0).2,
          (init w).2⟩) := rfl
  rw [Driver_bind_apply, e, Option.some_bind]
  dsimp only
  by_cases h : (init w).1 = 0
  · rw [if_neg (not_not.2 h), if_neg (not_not.2 h)]
    rfl
  · rw [if_pos h, if_pos h]
    rfl

/-- The two translations agree: on a handle structure with non-null transport
pointers, a public call on the handle in memory gives the result and the world
state that the functions on the handle value give. -/
theorem call_agrees {σ : Type} (c : PublicCall) (H : ADXL345_Handler_t σ) (w : σ) :
    (runCall c H.toStruct w).map (fun r => (r.1, r.2.2)) = c.onHandle H w := by
  unfold runCall
  rw [Option.map_map]
  cases c <;> unfold InMemory.call PublicCall.onHandle <;> dsimp only
  case Set_Offset X Y Z =>
    rw [agree_Set_Offset]
    cases ADXL345_Set_Offset H w X Y Z <;> rfl
  case Set_TapConfig TapConfig =>
    rw [agree_Set_TapConfig]
    cases ADXL345_Set_TapConfig H w TapConfig <;> rfl
  case Set_ActivityInactivity A =>
    unfold InMemory.ADXL345_Set_ActivityInactivity ADXL345_Set_ActivityInactivity
    rw [agree_WriteRegs]
    cases ADXL345_WriteRegs H w ADXL345_REG_ACT_INACT_CTL _ 4 <;> rfl
  case Set_FreeFall Threshold Time =>
    unfold InMemory.ADXL345_Set_FreeFall ADXL345_Set_FreeFall
    rw [agree_WriteRegs]
    cases ADXL345_WriteRegs H w ADXL345_REG_THRESH_FF _ 2 <;> rfl
  case Set_Rate Rate =>
    rw [agree_Set_Rate]
    cases ADXL345_Set_Rate H w Rate <;> rfl
  case Set_InterruptConfig Config =>
    rw [agree_Set_InterruptConfig]
    cases ADXL345_Set_InterruptConfig H w Config <;> rfl
  case Set_DataFormat DataFormat =>
    rw [agree_Set_DataFormat]
    cases ADXL345_Set_DataFormat H w DataFormat <;> rfl
  case Set_FifoConfig Config =>
    unfold InMemory.ADXL345_Set_FifoConfig ADXL345_Set_FifoConfig
    rw [agree_WriteRegs]
    cases ADXL345_WriteRegs H w ADXL345_REG_FIFO_CTL _ 1 <;> rfl
  case Set_PowerControl PowerControl =>
    unfold InMemory.ADXL345_Set_PowerControl ADXL345_Set_PowerControl
    rw [agree_WriteRegs]
    cases ADXL345_WriteRegs H w ADXL345_REG_POWER_CTL _ 1 <;> rfl
  case DeInit PowerControl =>
    rw [agree_DeInit]
    cases ADXL345_DeInit H w PowerControl <;> rfl
  case Init => rw [agree_Init]; rfl
  case SetAddressI2C Address => rw [agree_SetAddressI2C]; rfl
  case CheckDeviceID => rw [agree_CheckDeviceID]; rfl
  case IRQ_Handler Interrupt => rw [agree_IRQ_Handler]; rfl
  case Get_Offset X Y Z Buffer => rw [Driver_bind_apply, agree_Get_Offset]; rfl
  case Get_TapConfig Buffer => rw [Driver_bind_apply, agree_Get_TapConfig]; rfl
  case Get_TapStatus Status => rw [Driver_bind_apply, agree_Get_TapStatus]; rfl
  case Get_ActivityInactivity A => rw [Driver_bind_apply, agree_Get_ActivityInactivity]; rfl
  case Get_FreeFall Threshold Time => rw [Driver_bind_apply, agree_Get_FreeFall]; rfl
  case Get_Rate Rate => rw [Driver_bind_apply, agree_Get_Rate]; rfl
  case Get_InterruptConfig Config => rw [Driver_bind_apply, agree_Get_InterruptConfig]; rfl
  case Get_InterruptSource Source => rw [Driver_bind_apply, agree_Get_InterruptSource]; rfl
  case Get_DataFormat DataFormat => rw [Driver_bind_apply, agree_Get_DataFormat]; rfl
  case Get_FifoConfig Config => rw [Driver_bind_apply, agree_Get_FifoConfig]; rfl
  case Get_FifoStatus Status => rw [Driver_bind_apply, agree_Get_FifoStatus]; rfl
  case Get_PowerControl PowerControl => rw [Driver_bind_apply, agree_Get_PowerControl]; rfl
  case ReadSamples L SamplesBufferLen => rw [Driver_bind_apply, agree_ReadSamples]; rfl

/-! ## Outcome of the functions on the handle structure in memory -/

theorem sim_send_ideal (regs : Nat → Nat) (p A r : Nat) (ds : List Nat) :
    SimDevice.send (idealDevice regs p) A (r :: ds) =
      (0, idealDevice (SimDevice.writeFrom regs r ds) ((r + ds.length) % 256)) := rfl

theorem sim_receive_ideal (regs : Nat → Nat) (p A n : Nat) :
    SimDevice.receive (idealDevice regs p) A n =
      (0, (List.range n).map (fun k => regs ((p + k) % 256) % 256),
        idealDevice regs ((p + n) % 256)) := rfl

/-- A register read on the ideal device succeeds, delivers the registers from
`reg` on and leaves the register file as it was. -/
theorem sim_ReadRegs (regs : Nat → Nat) (p reg : Nat) (buf : Nat → Nat) (n : Nat) :
    ADXL345_ReadRegs simHandler (idealDevice regs p) reg buf n =
      (ADXL345_OK,
        storeBytes buf ((List.range n).map (fun k => regs ((reg % 256 + k) % 256) % 256)) n,
        idealDevice regs ((reg % 256 + n) % 256)) := by
  simp [ADXL345_ReadRegs, simHandler, sim_send_ideal, sim_receive_ideal, SimDevice.writeFrom]

theorem storeBytes_range (buf : Nat → Nat) (f : Nat → Nat) (n k : Nat) (hk : k < n) :
    storeBytes buf ((List.range n).map f) n k = f k % 256 := by
  simp [storeBytes, hk]

theorem storeBytes_beyond (buf : Nat → Nat) (l : List Nat) (n k : Nat) (hk : n ≤ k) :
    storeBytes buf l n k = buf k := by
  simp [storeBytes, Nat.not_lt.2 hk]

/-- A register write of 1 to 8 bytes on the ideal device succeeds with one frame. -/
theorem sim_WriteRegs (regs : Nat → Nat) (p reg : Nat) (data : Nat → Nat) (n : Nat)
    (h1 : 1 ≤ n) (h8 : n ≤ 8) :
    ADXL345_WriteRegs simHandler (idealDevice regs p) reg data n =
      some (ADXL345_OK,
        idealDevice
          (SimDevice.writeFrom regs (reg % 256) ((List.range n).map (fun j => data j % 256)))
          ((reg % 256 + n) % 256)) := by
  rw [WriteRegs_eq, writeFrames_pos reg data n (by omega)]
  have e : MIN n (9 - 1) = n := by rw [MIN_eq_min]; omega
  rw [e, Nat.sub_self, writeFrames_zero]
  simp [sendUntilFail, simHandler, sim_send_ideal]

theorem writeFrom_one (regs : Nat → Nat) (r a : Nat) :
    SimDevice.writeFrom regs r [a] = fun k => if k = r % 256 then a % 256 else regs k := rfl

theorem writeFrom_two (regs : Nat → Nat) (r a b : Nat) :
    SimDevice.writeFrom regs r [a, b] =
      fun k => if k = (r + 1) % 256 then b % 256
        else if k = r % 256 then a % 256 else regs k := rfl

theorem range_one_map (f : Nat → Nat) : (List.range 1).map f = [f 0] := rfl

theorem range_two_map (f : Nat → Nat) : (List.range 2).map f = [f 0, f 1] := rfl

theorem range_three_map (f : Nat → Nat) : (List.range 3).map f = [f 0, f 1, f 2] := rfl

theorem range_four_map (f : Nat → Nat) : (List.range 4).map f = [f 0, f 1, f 2, f 3] := rfl

/-! ## Lemmas on single-frame writes and on the configuration getters -/

/-- A register write of 1 to 8 bytes is one send. -/
theorem WriteRegs_small {σ : Type} (H : ADXL345_Handler_t σ) (w : σ) (reg : Nat)
    (data : Nat → Nat) (n : Nat) (h1 : 1 ≤ n) (h8 : n ≤ 8) :
    ADXL345_WriteRegs H w reg data n =
      some (if (H.PlatformI2CSend w H.AddressI2C
          ((reg % 256) :: (List.range n).map (fun j => data j % 256))).1 ≠ 0
        then ADXL345_FAIL else ADXL345_OK,
        (H.PlatformI2CSend w H.AddressI2C
          ((reg % 256) :: (List.range n).map (fun j => data j % 256))).2) := by
  rw [WriteRegs_eq, writeFrames_pos reg data n (by omega)]
  have e : MIN n (9 - 1) = n := by rw [MIN_eq_min]; omega
  rw [e, Nat.sub_self, writeFrames_zero]
  unfold sendUntilFail
  split_ifs <;> simp [sendUntilFail]

/-- The trace of a register write of 1 to 8 bytes through the recording handle. -/
theorem WriteRegs_small_recording {σ : Type} (H : ADXL345_Handler_t σ)
    (wt : σ × List PlatformEvent) (reg : Nat) (data : Nat → Nat) (n : Nat)
    (h1 : 1 ≤ n) (h8 : n ≤ 8) :
    (ADXL345_WriteRegs (recording H) wt reg data n).map (fun r => r.2.2) =
      some (wt.2 ++ [PlatformEvent.send H.AddressI2C
        ((reg % 256) :: (List.range n).map (fun j => data j % 256))]) := by
  rw [WriteRegs_small (recording H) wt reg data n h1 h8]
  simp [recording]

theorem Get_FifoConfig_ok {σ : Type} (H : ADXL345_Handler_t σ) (w : σ)
    (C : ADXL345_FifoConfig_t)
    (h : (ADXL345_ReadRegs H w ADXL345_REG_FIFO_CTL (fun _ => 0) 1).1 = ADXL345_OK) :
    ADXL345_Get_FifoConfig H w C =
      (ADXL345_OK,
        ⟨Fin.ofNat ((ADXL345_ReadRegs H w ADXL345_REG_FIFO_CTL (fun _ => 0) 1).2.1 0 &&& 0x1F),
          if (ADXL345_ReadRegs H w ADXL345_REG_FIFO_CTL (fun _ => 0) 1).2.1 0 &&& 0x20 ≠ 0
            then 1 else 0,
          Fin.ofNat ((ADXL345_ReadRegs H w ADXL345_REG_FIFO_CTL (fun _ => 0) 1).2.1 0 >>> 6)⟩,
        (ADXL345_ReadRegs H w ADXL345_REG_FIFO_CTL (fun _ => 0) 1).2.2) := by
  unfold ADXL345_Get_FifoConfig
  simp only [h, ne_eq, not_true_eq_false, if_false]
  split_ifs <;> rfl

/-- The byte `ADXL345_Set_FifoConfig` builds and the record read back from it. -/
theorem fifo_byte (W : Fin 32) (T : Fin 2) (M : Fin 4) :
    ((orIf (0 ||| (W.val &&& 0x1F)) (decide (T ≠ 0)) 0x20) ||| (M.val <<< 6)) % 256 =
      W.val + 32 * T.val + 64 * M.val ∧
    (Fin.ofNat ((W.val + 32 * T.val + 64 * M.val) &&& 0x1F) : Fin 32) = W ∧
    (if (W.val + 32 * T.val + 64 * M.val) &&& 0x20 ≠ 0 then 1 else 0 : Fin 2) = T ∧
    (Fin.ofNat ((W.val + 32 * T.val + 64 * M.val) >>> 6) : Fin 4) = M := by
  revert W T M
  decide

theorem sim_ReadRegs_one (regs : Nat → Nat) (p reg : Nat) (hreg : reg < 256) :
    ADXL345_ReadRegs simHandler (idealDevice regs p) reg (fun _ => 0) 1 =
      (ADXL345_OK, storeBytes (fun _ => 0) [regs reg % 256] 1,
        idealDevice regs ((reg + 1) % 256)) := by
  rw [sim_ReadRegs, range_one_map, Nat.mod_eq_of_lt hreg]
  simp [Nat.mod_eq_of_lt hreg]

theorem storeBytes_one_zero (buf : Nat → Nat) (v : Nat) :
    storeBytes buf [v] 1 0 = v % 256 := by
  simp [storeBytes]

theorem sim_WriteRegs_one (regs : Nat → Nat) (p reg : Nat) (data : Nat → Nat)
    (hreg : reg < 256) :
    ADXL345_WriteRegs simHandler (idealDevice regs p) reg data 1 =
      some (ADXL345_OK,
        idealDevice (fun k => if k = reg then data 0 % 256 else regs k) ((reg + 1) % 256)) := by
  rw [sim_WriteRegs regs p reg data 1 (by norm_num) (by norm_num), range_one_map,
    writeFrom_one]
  simp only [Nat.mod_eq_of_lt hreg, Nat.mod_mod]

theorem sim_Get_FifoConfig (regs : Nat → Nat) (p : Nat) (prior : ADXL345_FifoConfig_t) :
    ADXL345_Get_FifoConfig simHandler (idealDevice regs p) prior =
      (ADXL345_OK,
        ⟨Fin.ofNat (regs 0x38 % 256 &&& 0x1F),
          if regs 0x38 % 256 &&& 0x20 ≠ 0 then 1 else 0,
          Fin.ofNat ((regs 0x38 % 256) >>> 6)⟩,
        idealDevice regs 0x39) := by
  have hr := sim_ReadRegs_one regs p ADXL345_REG_FIFO_CTL (by decide)
  rw [Get_FifoConfig_ok _ _ _ (by rw [hr]), hr]
  simp only [storeBytes_one_zero, ADXL345_REG_FIFO_CTL, Nat.mod_mod]

theorem sim_Set_FifoConfig (regs : Nat → Nat) (p : Nat) (Config : ADXL345_FifoConfig_t) :
    ADXL345_Set_FifoConfig simHandler (idealDevice regs p) Config =
      some (ADXL345_OK,
        idealDevice (fun k => if k = 0x38 then
          Config.WatermarkSamples.val + 32 * Config.Trigger.val + 64 * Config.Mode.val
          else regs k) 0x39) := by
  obtain ⟨W, T, M⟩ := Config
  obtain ⟨hb, -, -, -⟩ := fifo_byte W T M
  have hlt : W.val + 32 * T.val + 64 * M.val < 256 := by omega
  unfold ADXL345_Set_FifoConfig
  rw [sim_WriteRegs_one regs p _ _ (by decide)]
  simp only [bytesAt, List.getD_cons_zero, hb, ADXL345_REG_FIFO_CTL, Nat.mod_eq_of_lt hlt]

/-! ## Claims on the configuration codec -/

/-- Claim C23. For every WatermarkSamples in 0..31, Trigger in 0..1 and Mode in
0..3, the one call `ADXL345_Set_FifoConfig` makes through the handle is the send
of the frame 0x38, WatermarkSamples + 32·Trigger + 64·Mode; on the ideal
register file it returns OK and leaves that byte in FIFO_CTL, and
`ADXL345_Get_FifoConfig` then returns OK and the same three field values,
whatever the output record held before. -/
theorem C23_fifo_config_round_trip {σ : Type} (H : ADXL345_Handler_t σ) (w : σ)
    (Config prior : ADXL345_FifoConfig_t) (regs : Nat → Nat) (p : Nat) :
    (ADXL345_Set_FifoConfig (recording H) (w, []) Config).map (fun r => r.2.2) =
      some [PlatformEvent.send H.AddressI2C
        [0x38, Config.WatermarkSamples.val + 32 * Config.Trigger.val + 64 * Config.Mode.val]] ∧
    (ADXL345_Set_FifoConfig simHandler (idealDevice regs p) Config).map
        (fun s => (s.1, s.2.regs 0x38, (ADXL345_Get_FifoConfig simHandler s.2 prior).1,
          (ADXL345_Get_FifoConfig simHandler s.2 prior).2.1)) =
      some (ADXL345_OK,
        Config.WatermarkSamples.val + 32 * Config.Trigger.val + 64 * Config.Mode.val,
        ADXL345_OK, Config) := by
  constructor
  · obtain ⟨W, T, M⟩ := Config
    obtain ⟨hb, -, -, -⟩ := fifo_byte W T M
    have hlt : W.val + 32 * T.val + 64 * M.val < 256 := by omega
    unfold ADXL345_Set_FifoConfig
    rw [WriteRegs_small_recording H (w, []) _ _ 1 (by norm_num) (by norm_num)]
    simp only [range_one_map, bytesAt, List.getD_cons_zero, hb, ADXL345_REG_FIFO_CTL]
    simp [Nat.mod_eq_of_lt hlt]
  · rw [sim_Set_FifoConfig]
    simp only [Option.map_some', sim_Get_FifoConfig]
    obtain ⟨W, T, M⟩ := Config
    obtain ⟨-, hW, hT, hM⟩ := fifo_byte W T M
    have hlt : W.val + 32 * T.val + 64 * M.val < 256 := by omega
    simp only [idealDevice, if_true, Nat.mod_eq_of_lt hlt, hW, hM, hT]

/-! ## Lemmas on the data format, interrupt and rate setters -/

/-- A successful register read through the recording handle: same result, same
buffer, and the trace grows by the address send and the receive. -/
theorem ReadRegs_recording_ok {σ : Type} (H : ADXL345_Handler_t σ)
    (wt : σ × List PlatformEvent) (reg : Nat) (buf : Nat → Nat) (n : Nat)
    (B : Nat → Nat) (w1 : σ)
    (h : ADXL345_ReadRegs H wt.1 reg buf n = (ADXL345_OK, B, w1)) :
    ADXL345_ReadRegs (recording H) wt reg buf n =
      (ADXL345_OK, B, (w1, wt.2 ++ [PlatformEvent.send H.AddressI2C [reg],
        PlatformEvent.receive H.AddressI2C n])) := by
  obtain ⟨r1, r2, r3⟩ := ReadRegs_recording_eq H wt reg buf n
  rw [h] at r1 r2 r3
  dsimp only at r1 r2 r3
  have ht : (ADXL345_ReadRegs (recording H) wt reg buf n).2.2.2 =
      wt.2 ++ [PlatformEvent.send H.AddressI2C [reg],
        PlatformEvent.receive H.AddressI2C n] := by
    rcases ReadRegs_recording H wt reg buf n with ⟨_, h2⟩ | h2
    · rw [r1] at h2; cases h2
    · exact h2
  refine Prod.ext r1 (Prod.ext r2 (Prod.ext r3 ht))

theorem Get_DataFormat_ok {σ : Type} (H : ADXL345_Handler_t σ) (w : σ)
    (DF : ADXL345_DataFormat_t)
    (h : (ADXL345_ReadRegs H w ADXL345_REG_DATA_FORMAT (fun _ => 0) 1).1 = ADXL345_OK) :
    ADXL345_Get_DataFormat H w DF =
      (ADXL345_OK,
        ⟨Fin.ofNat ((ADXL345_ReadRegs H w ADXL345_REG_DATA_FORMAT (fun _ => 0) 1).2.1 0 &&& 0x03),
          if (ADXL345_ReadRegs H w ADXL345_REG_DATA_FORMAT (fun _ => 0) 1).2.1 0 &&& 0x04 ≠ 0
            then true else DF.JustifyLeft,
          if (ADXL345_ReadRegs H w ADXL345_REG_DATA_FORMAT (fun _ => 0) 1).2.1 0 &&& 0x08 ≠ 0
            then true else DF.FullResolution⟩,
        (ADXL345_ReadRegs H w ADXL345_REG_DATA_FORMAT (fun _ => 0) 1).2.2) := by
  unfold ADXL345_Get_DataFormat
  simp only [h, ne_eq, not_true_eq_false, if_false]
  split_ifs <;> rfl

theorem sim_Get_DataFormat (regs : Nat → Nat) (p : Nat) (DF : ADXL345_DataFormat_t) :
    ADXL345_Get_DataFormat simHandler (idealDevice regs p) DF =
      (ADXL345_OK,
        ⟨Fin.ofNat ((regs 0x31 % 256) &&& 0x03),
          if (regs 0x31 % 256) &&& 0x04 ≠ 0 then true else DF.JustifyLeft,
          if (regs 0x31 % 256) &&& 0x08 ≠ 0 then true else DF.FullResolution⟩,
        idealDevice regs 0x32) := by
  have hr := sim_ReadRegs_one regs p ADXL345_REG_DATA_FORMAT (by decide)
  rw [Get_DataFormat_ok _ _ _ (by rw [hr]), hr]
  simp only [storeBytes_one_zero, ADXL345_REG_DATA_FORMAT, Nat.mod_mod]

/-- The byte `ADXL345_Set_DataFormat` builds from the byte read and the record, and
the fields read back from it. -/
theorem data_format_byte (b : Fin 256) (R : Fin 4) (JL FR : Bool) :
    orIf (orIf ((b.val &&& 0xF0) ||| R.val) JL 0x04) FR 0x08 =
      b.val / 16 * 16 + (R.val + 4 * JL.toNat + 8 * FR.toNat) ∧
    (Fin.ofNat ((b.val / 16 * 16 + (R.val + 4 * JL.toNat + 8 * FR.toNat)) &&& 0x03) : Fin 4)
      = R ∧
    decide ((b.val / 16 * 16 + (R.val + 4 * JL.toNat + 8 * FR.toNat)) &&& 0x04 ≠ 0) = JL ∧
    decide ((b.val / 16 * 16 + (R.val + 4 * JL.toNat + 8 * FR.toNat)) &&& 0x08 ≠ 0) = FR ∧
    (b.val / 16 * 16 + (R.val + 4 * JL.toNat + 8 * FR.toNat)).testBit 2 = JL ∧
    (b.val / 16 * 16 + (R.val + 4 * JL.toNat + 8 * FR.toNat)).testBit 3 = FR ∧
    (b.val / 16 * 16 + (R.val + 4 * JL.toNat + 8 * FR.toNat)).testBit 5 = b.val.testBit 5 := by
  revert b R JL FR
  set_option maxRecDepth 100000 in decide

theorem sim_Set_DataFormat (regs : Nat → Nat) (p : Nat) (DF : ADXL345_DataFormat_t) :
    ADXL345_Set_DataFormat simHandler (idealDevice regs p) DF =
      some (ADXL345_OK,
        idealDevice (fun k => if k = 0x31 then
          regs 0x31 % 256 / 16 * 16 +
            (DF.Range.val + 4 * DF.JustifyLeft.toNat + 8 * DF.FullResolution.toNat)
          else regs k) 0x32) := by
  obtain ⟨R, JL, FR⟩ := DF
  obtain ⟨hb, -⟩ := data_format_byte ⟨regs 0x31 % 256, Nat.mod_lt _ (by norm_num)⟩ R JL FR
  dsimp only at hb
  have hlt : regs 0x31 % 256 / 16 * 16 + (R.val + 4 * JL.toNat + 8 * FR.toNat) < 256 := by
    have := Nat.mod_lt (regs 0x31) (show 256 > 0 by norm_num)
    cases JL <;> cases FR <;> simp <;> omega
  have hr := sim_ReadRegs_one regs p ADXL345_REG_DATA_FORMAT (by decide)
  unfold ADXL345_Set_DataFormat
  simp only [hr, ne_eq, not_true_eq_false, if_false]
  rw [sim_WriteRegs_one _ _ _ _ (by decide)]
  simp only [bytesAt, List.getD_cons_zero, storeBytes_one_zero, ADXL345_REG_DATA_FORMAT,
    Nat.mod_mod, hb, Nat.mod_eq_of_lt hlt]

/-- Claim C24. On the ideal register file, for every initial content of
DATA_FORMAT and every DataFormat record, `ADXL345_Set_DataFormat` followed by
`ADXL345_Get_DataFormat` into a zero-initialised record returns OK twice and the
same Range, JustifyLeft and FullResolution; in the register Range is in bits
0..1, JustifyLeft in bit 2 and FullResolution in bit 3. -/
theorem C24_data_format_round_trip (regs : Nat → Nat) (p : Nat)
    (DataFormat : ADXL345_DataFormat_t) :
    (ADXL345_Set_DataFormat simHandler (idealDevice regs p) DataFormat).map
        (fun s => (s.1, (ADXL345_Get_DataFormat simHandler s.2 ⟨0, false, false⟩).1,
          (ADXL345_Get_DataFormat simHandler s.2 ⟨0, false, false⟩).2.1,
          s.2.regs 0x31 % 4, (s.2.regs 0x31).testBit 2, (s.2.regs 0x31).testBit 3)) =
      some (ADXL345_OK, ADXL345_OK, DataFormat, DataFormat.Range.val,
        DataFormat.JustifyLeft, DataFormat.FullResolution) := by
  rw [sim_Set_DataFormat]
  simp only [Option.map_some', sim_Get_DataFormat]
  obtain ⟨R, JL, FR⟩ := DataFormat
  obtain ⟨-, hR, hJ, hF, h2, h3, -⟩ :=
    data_format_byte ⟨regs 0x31 % 256, Nat.mod_lt _ (by norm_num)⟩ R JL FR
  dsimp only at hR hJ hF h2 h3
  have hlt : regs 0x31 % 256 / 16 * 16 + (R.val + 4 * JL.toNat + 8 * FR.toNat) < 256 := by
    have := Nat.mod_lt (regs 0x31) (show 256 > 0 by norm_num)
    cases JL <;> cases FR <;> simp <;> omega
  have h4 : (regs 0x31 % 256 / 16 * 16 + (R.val + 4 * JL.toNat + 8 * FR.toNat)) % 4 = R.val := by
    cases JL <;> cases FR <;> simp <;> omega
  simp only [idealDevice, if_true, Nat.mod_eq_of_lt hlt, hR, h2, h3, h4]
  simp only [decide_eq_true_eq, decide_not] at hJ hF
  cases JL <;> cases FR <;> simp_all

/-- Claim C28. When the read of DATA_FORMAT succeeds with the byte `B 0`, the calls
of `ADXL345_Set_DataFormat` through the handle are that read followed by the
send of the frame 0x31, byte, where bits 4..7 of the byte are bits 4..7 of the
byte read (in particular the active-low bit 5) and bits 0..3 are
Range + 4·JustifyLeft + 8·FullResolution. -/
theorem C28_data_format_upper_nibble {σ : Type} (H : ADXL345_Handler_t σ) (w : σ)
    (DataFormat : ADXL345_DataFormat_t) (B : Nat → Nat) (w1 : σ)
    (hread : ADXL345_ReadRegs H w ADXL345_REG_DATA_FORMAT (fun _ => 0) 1 = (ADXL345_OK, B, w1)) :
    ∃ byte : Nat,
      (ADXL345_Set_DataFormat (recording H) (w, []) DataFormat).map (fun r => r.2.2) =
        some [PlatformEvent.send H.AddressI2C [0x31], PlatformEvent.receive H.AddressI2C 1,
          PlatformEvent.send H.AddressI2C [0x31, byte]] ∧
      byte / 16 = B 0 / 16 ∧
      byte % 16 = DataFormat.Range.val + 4 * DataFormat.JustifyLeft.toNat +
        8 * DataFormat.FullResolution.toNat ∧
      byte.testBit 5 = (B 0).testBit 5 := by
  have hB : B 0 < 256 := by
    have := ReadRegs_byte_lt H w ADXL345_REG_DATA_FORMAT 1 0
    rw [hread] at this
    exact this
  obtain ⟨R, JL, FR⟩ := DataFormat
  obtain ⟨hb, -, -, -, -, -, h5⟩ := data_format_byte ⟨B 0, hB⟩ R JL FR
  dsimp only at hb h5
  have hlt : B 0 / 16 * 16 + (R.val + 4 * JL.toNat + 8 * FR.toNat) < 256 := by
    cases JL <;> cases FR <;> simp <;> omega
  refine ⟨B 0 / 16 * 16 + (R.val + 4 * JL.toNat + 8 * FR.toNat), ?_, ?_, ?_, h5⟩
  · unfold ADXL345_Set_DataFormat
    rw [ReadRegs_recording_ok H (w, []) _ _ _ B w1 hread]
    simp only [ne_eq, not_true_eq_false, if_false]
    rw [WriteRegs_small_recording H _ _ _ 1 (by norm_num) (by norm_num)]
    simp only [range_one_map, bytesAt, List.getD_cons_zero, hb, ADXL345_REG_DATA_FORMAT,
      Nat.mod_eq_of_lt hlt]
    simp
  · cases JL <;> cases FR <;> simp <;> omega
  · cases JL <;> cases FR <;> simp <;> omega

/-- Witness of C28 on the ideal device with DATA_FORMAT = 0xA3: setting range 1
with both flags clear sends the byte 0xA1. -/
theorem C28_data_format_upper_nibble_witness :
    ∃ byte : Nat,
      (ADXL345_Set_DataFormat (recording simHandler) (simDevice [(0x31, 0xA3)], [])
        ⟨1, false, false⟩).map (fun r => r.2.2) =
        some [PlatformEvent.send 0x53 [0x31], PlatformEvent.receive 0x53 1,
          PlatformEvent.send 0x53 [0x31, byte]] ∧
      byte / 16 = 0xA3 / 16 ∧ byte % 16 = 1 ∧ byte.testBit 5 = true := by
  obtain ⟨byte, h1, h2, h3, h4⟩ := C28_data_format_upper_nibble simHandler
    (simDevice [(0x31, 0xA3)]) ⟨1, false, false⟩
    (ADXL345_ReadRegs simHandler (simDevice [(0x31, 0xA3)]) ADXL345_REG_DATA_FORMAT
      (fun _ => 0) 1).2.1
    (ADXL345_ReadRegs simHandler (simDevice [(0x31, 0xA3)]) ADXL345_REG_DATA_FORMAT
      (fun _ => 0) 1).2.2 rfl
  exact ⟨byte, h1, h2, h3, h4⟩

theorem interruptByte_lt (R : ADXL345_InterruptReg_t) : interruptByte R < 256 := by
  obtain ⟨a, b, c, d, e, f, g, h⟩ := R
  revert a b c d e f g h
  decide

/-- Bit `k` of the byte built from an interrupt record is flag `k` of the record,
and the flags read from that byte are the record. -/
theorem interruptByte_bits (R : ADXL345_InterruptReg_t) :
    (interruptByte R).testBit 0 = R.Overrun ∧ (interruptByte R).testBit 1 = R.Watermark ∧
    (interruptByte R).testBit 2 = R.FreeFall ∧ (interruptByte R).testBit 3 = R.Inactivity ∧
    (interruptByte R).testBit 4 = R.Activity ∧ (interruptByte R).testBit 5 = R.DoubleTap ∧
    (interruptByte R).testBit 6 = R.SingleTap ∧ (interruptByte R).testBit 7 = R.DataReady ∧
    interruptFlags (interruptByte R) = R := by
  obtain ⟨a, b, c, d, e, f, g, h⟩ := R
  revert a b c d e f g h
  decide

/-- The statement `if (ActiveLow) Buffer[0] |= 0x20;` on a byte. -/
theorem polarity_byte (b : Fin 256) (flag : Bool) :
    orIf b.val flag 0x20 < 256 ∧ orIf b.val flag 0x20 % 32 = b.val % 32 ∧
    orIf b.val flag 0x20 / 64 = b.val / 64 ∧
    (orIf b.val flag 0x20).testBit 5 = (flag || b.val.testBit 5) := by
  revert b flag
  set_option maxRecDepth 100000 in decide

theorem orIf_testBit (b : Nat) (flag : Bool) (i : Nat) (hi : i ≠ 5) :
    (orIf b flag 0x20).testBit i = b.testBit i := by
  unfold orIf
  cases flag
  · rfl
  · have h : (0x20 : Nat) = 2 ^ 5 := by norm_num
    simp only [if_true, h, Nat.testBit_or, Nat.testBit_two_pow]
    simp [Ne.symm hi]

theorem orIf_polarity_mod (b : Nat) (flag : Bool) :
    orIf (b % 256) flag 0x20 % 256 = orIf (b % 256) flag 0x20 :=
  Nat.mod_eq_of_lt (polarity_byte ⟨b % 256, Nat.mod_lt _ (by norm_num)⟩ flag).1

theorem storeBytes_lt (buf : Nat → Nat) (bytes : List Nat) (n k : Nat) (hbuf : buf k < 256) :
    storeBytes buf bytes n k < 256 := by
  unfold storeBytes
  split_ifs
  · split
    · exact Nat.mod_lt _ (by norm_num)
    · exact hbuf
  · exact hbuf

theorem ReadRegs_buffer_lt {σ : Type} (H : ADXL345_Handler_t σ) (w : σ) (reg n k : Nat)
    (buf : Nat → Nat) (hbuf : buf k < 256) :
    (ADXL345_ReadRegs H w reg buf n).2.1 k < 256 := by
  unfold ADXL345_ReadRegs
  dsimp only
  split_ifs
  · exact hbuf
  · exact storeBytes_lt _ _ _ _ hbuf
  · exact storeBytes_lt _ _ _ _ hbuf

theorem sim_ReadRegs_one_buf (regs : Nat → Nat) (p reg : Nat) (buf : Nat → Nat)
    (hreg : reg < 256) :
    ADXL345_ReadRegs simHandler (idealDevice regs p) reg buf 1 =
      (ADXL345_OK, storeBytes buf [regs reg % 256] 1, idealDevice regs ((reg + 1) % 256)) := by
  rw [sim_ReadRegs, range_one_map, Nat.mod_eq_of_lt hreg]
  simp [Nat.mod_eq_of_lt hreg]

theorem sim_ReadRegs_two (regs : Nat → Nat) (p reg : Nat) (buf : Nat → Nat)
    (hreg : reg + 1 < 256) :
    ADXL345_ReadRegs simHandler (idealDevice regs p) reg buf 2 =
      (ADXL345_OK, storeBytes buf [regs reg % 256, regs (reg + 1) % 256] 2,
        idealDevice regs ((reg + 2) % 256)) := by
  have h0 : reg % 256 = reg := Nat.mod_eq_of_lt (by omega)
  have h1 : (reg + 1) % 256 = reg + 1 := Nat.mod_eq_of_lt hreg
  rw [sim_ReadRegs, range_two_map, h0]
  simp [h0, h1]

theorem sim_WriteRegs_two (regs : Nat → Nat) (p reg : Nat) (data : Nat → Nat)
    (hreg : reg + 1 < 256) :
    ADXL345_WriteRegs simHandler (idealDevice regs p) reg data 2 =
      some (ADXL345_OK,
        idealDevice (fun k => if k = reg + 1 then data 1 % 256
          else if k = reg then data 0 % 256 else regs k) ((reg + 2) % 256)) := by
  have h0 : reg % 256 = reg := Nat.mod_eq_of_lt (by omega)
  have h1 : (reg + 1) % 256 = reg + 1 := Nat.mod_eq_of_lt hreg
  rw [sim_WriteRegs regs p reg data 2 (by norm_num) (by norm_num), range_two_map,
    writeFrom_two]
  simp only [h0, h1, Nat.mod_mod]

theorem sim_Get_InterruptConfig (regs : Nat → Nat) (p : Nat)
    (prior : ADXL345_InterruptConfig_t) :
    ADXL345_Get_InterruptConfig simHandler (idealDevice regs p) prior =
      (ADXL345_OK,
        ⟨interruptFlags (regs 0x2E % 256), interruptFlags (regs 0x2F % 256), 0⟩,
        idealDevice regs 0x30) := by
  unfold ADXL345_Get_InterruptConfig
  rw [sim_ReadRegs_two regs p ADXL345_REG_INT_ENABLE _ (by decide)]
  simp [storeBytes, ADXL345_REG_INT_ENABLE]

theorem sim_Set_InterruptConfig (regs : Nat → Nat) (p : Nat)
    (Config : ADXL345_InterruptConfig_t) :
    ADXL345_Set_InterruptConfig simHandler (idealDevice regs p) Config =
      some (ADXL345_OK,
        idealDevice (fun k =>
          if k = 0x31 then orIf (regs 0x31 % 256) (decide (Config.ActiveLow % 256 ≠ 0)) 0x20
          else if k = 0x2F then interruptByte Config.Map
          else if k = 0x2E then interruptByte Config.Enable else regs k) 0x32) := by
  have he := Nat.mod_eq_of_lt (interruptByte_lt Config.Enable)
  have hm := Nat.mod_eq_of_lt (interruptByte_lt Config.Map)
  unfold ADXL345_Set_InterruptConfig
  rw [sim_WriteRegs_two regs p ADXL345_REG_INT_ENABLE _ (by decide)]
  simp only [Option.some_bind, ne_eq, not_true_eq_false, if_false]
  rw [sim_ReadRegs_one_buf _ _ ADXL345_REG_DATA_FORMAT _ (by decide)]
  simp only [ne_eq, not_true_eq_false, if_false]
  rw [sim_WriteRegs_one _ _ ADXL345_REG_DATA_FORMAT _ (by decide)]
  simp only [bytesAt, List.getD_cons_zero, storeBytes_one_zero, ADXL345_REG_DATA_FORMAT,
    ADXL345_REG_INT_ENABLE, Nat.mod_mod, List.getD_cons_succ, he, hm]
  refine congrArg some (congrArg (Prod.mk ADXL345_OK) (congrArg₂ idealDevice ?_ (by decide)))
  funext k
  by_cases h31 : k = 0x31
  · subst h31
    simp [orIf_polarity_mod]
  · by_cases h2f : k = 0x2F
    · subst h2f; simp
    · simp [h31, h2f]

/-- A register write of 1 to 8 bytes through the recording handle when the send is
acknowledged. -/
theorem WriteRegs_small_recording_ok {σ : Type} (H : ADXL345_Handler_t σ)
    (wt : σ × List PlatformEvent) (reg : Nat) (data : Nat → Nat) (n : Nat)
    (h1 : 1 ≤ n) (h8 : n ≤ 8)
    (hs : (H.PlatformI2CSend wt.1 H.AddressI2C
      ((reg % 256) :: (List.range n).map (fun j => data j % 256))).1 = 0) :
    ADXL345_WriteRegs (recording H) wt reg data n =
      some (ADXL345_OK,
        ((H.PlatformI2CSend wt.1 H.AddressI2C
          ((reg % 256) :: (List.range n).map (fun j => data j % 256))).2,
          wt.2 ++ [PlatformEvent.send H.AddressI2C
            ((reg % 256) :: (List.range n).map (fun j => data j % 256))])) := by
  rw [WriteRegs_small (recording H) wt reg data n h1 h8]
  simp [recording, hs]

/-- The statements `Reg &= ~(0x1F); Reg |= Rate;` on a byte, for a rate code of
five bits. -/
theorem rate_byte (b : Fin 256) (Rate : Fin 32) :
    ((b.val &&& 0xE0) ||| Rate.val) % 256 = b.val / 32 * 32 + Rate.val := by
  revert b Rate
  set_option maxRecDepth 100000 in decide

/-! ## Claims on the interrupt configuration and the rate -/

/-- Claim C25. On the ideal register file `ADXL345_Set_InterruptConfig` returns OK
and leaves in INT_ENABLE (0x2E) and INT_MAP (0x2F) bytes whose bit 0 is Overrun,
bit 1 Watermark, bit 2 FreeFall, bit 3 Inactivity, bit 4 Activity, bit 5 DoubleTap,
bit 6 SingleTap and bit 7 DataReady of the Enable and of the Map flags, and
`ADXL345_Get_InterruptConfig` on that device returns OK with the same Enable and
Map flags. -/
theorem C25_interrupt_enable_map_round_trip (regs : Nat → Nat) (p : Nat)
    (Config prior : ADXL345_InterruptConfig_t) :
    ∃ s : SimDevice,
      ADXL345_Set_InterruptConfig simHandler (idealDevice regs p) Config =
        some (ADXL345_OK, s) ∧
      s.regs 0x2E < 256 ∧ s.regs 0x2F < 256 ∧
      ((s.regs 0x2E).testBit 0 = Config.Enable.Overrun ∧
        (s.regs 0x2E).testBit 1 = Config.Enable.Watermark ∧
        (s.regs 0x2E).testBit 2 = Config.Enable.FreeFall ∧
        (s.regs 0x2E).testBit 3 = Config.Enable.Inactivity ∧
        (s.regs 0x2E).testBit 4 = Config.Enable.Activity ∧
        (s.regs 0x2E).testBit 5 = Config.Enable.DoubleTap ∧
        (s.regs 0x2E).testBit 6 = Config.Enable.SingleTap ∧
        (s.regs 0x2E).testBit 7 = Config.Enable.DataReady) ∧
      ((s.regs 0x2F).testBit 0 = Config.Map.Overrun ∧
        (s.regs 0x2F).testBit 1 = Config.Map.Watermark ∧
        (s.regs 0x2F).testBit 2 = Config.Map.FreeFall ∧
        (s.regs 0x2F).testBit 3 = Config.Map.Inactivity ∧
        (s.regs 0x2F).testBit 4 = Config.Map.Activity ∧
        (s.regs 0x2F).testBit 5 = Config.Map.DoubleTap ∧
        (s.regs 0x2F).testBit 6 = Config.Map.SingleTap ∧
        (s.regs 0x2F).testBit 7 = Config.Map.DataReady) ∧
      (ADXL345_Get_InterruptConfig simHandler s prior).1 = ADXL345_OK ∧
      (ADXL345_Get_InterruptConfig simHandler s prior).2.1.Enable = Config.Enable ∧
      (ADXL345_Get_InterruptConfig simHandler s prior).2.1.Map = Config.Map := by
  have key : ∀ f : Nat → Nat, f 0x2E = interruptByte Config.Enable →
      f 0x2F = interruptByte Config.Map →
      (idealDevice f 0x32).regs 0x2E < 256 ∧ (idealDevice f 0x32).regs 0x2F < 256 ∧
      (((idealDevice f 0x32).regs 0x2E).testBit 0 = Config.Enable.Overrun ∧
        ((idealDevice f 0x32).regs 0x2E).testBit 1 = Config.Enable.Watermark ∧
        ((idealDevice f 0x32).regs 0x2E).testBit 2 = Config.Enable.FreeFall ∧
        ((idealDevice f 0x32).regs 0x2E).testBit 3 = Config.Enable.Inactivity ∧
        ((idealDevice f 0x32).regs 0x2E).testBit 4 = Config.Enable.Activity ∧
        ((idealDevice f 0x32).regs 0x2E).testBit 5 = Config.Enable.DoubleTap ∧
        ((idealDevice f 0x32).regs 0x2E).testBit 6 = Config.Enable.SingleTap ∧
        ((idealDevice f 0x32).regs 0x2E).testBit 7 = Config.Enable.DataReady) ∧
      (((idealDevice f 0x32).regs 0x2F).testBit 0 = Config.Map.Overrun ∧
        ((idealDevice f 0x32).regs 0x2F).testBit 1 = Config.Map.Watermark ∧
        ((idealDevice f 0x32).regs 0x2F).testBit 2 = Config.Map.FreeFall ∧
        ((idealDevice f 0x32).regs 0x2F).testBit 3 = Config.Map.Inactivity ∧
        ((idealDevice f 0x32).regs 0x2F).testBit 4 = Config.Map.Activity ∧
        ((idealDevice f 0x32).regs 0x2F).testBit 5 = Config.Map.DoubleTap ∧
        ((idealDevice f 0x32).regs 0x2F).testBit 6 = Config.Map.SingleTap ∧
        ((idealDevice f 0x32).regs 0x2F).testBit 7 = Config.Map.DataReady) ∧
      (ADXL345_Get_InterruptConfig simHandler (idealDevice f 0x32) prior).1 = ADXL345_OK ∧
      (ADXL345_Get_InterruptConfig simHandler (idealDevice f 0x32) prior).2.1.Enable =
        Config.Enable ∧
      (ADXL345_Get_InterruptConfig simHandler (idealDevice f 0x32) prior).2.1.Map =
        Config.Map := by
    intro f h1 h2
    obtain ⟨e0, e1, e2, e3, e4, e5, e6, e7, e8⟩ := interruptByte_bits Config.Enable
    obtain ⟨m0, m1, m2, m3, m4, m5, m6, m7, m8⟩ := interruptByte_bits Config.Map
    rw [sim_Get_InterruptConfig]
    simp only [idealDevice, h1, h2, Nat.mod_eq_of_lt (interruptByte_lt Config.Enable),
      Nat.mod_eq_of_lt (interruptByte_lt Config.Map)]
    exact ⟨interruptByte_lt _, interruptByte_lt _, ⟨e0, e1, e2, e3, e4, e5, e6, e7⟩,
      ⟨m0, m1, m2, m3, m4, m5, m6, m7⟩, trivial, e8, m8⟩
  exact ⟨_, sim_Set_InterruptConfig regs p Config, key _ (by simp) (by simp)⟩

/-- Claim C26. On the ideal register file, whatever the registers and the Enable
and Map flags, `ADXL345_Set_InterruptConfig` with ActiveLow = 1 returns OK and
leaves bit 5 of DATA_FORMAT set, and `ADXL345_Get_InterruptConfig` on that device
returns OK with ActiveLow = 0: the getter never reads DATA_FORMAT. -/
theorem C26_polarity_not_read_back (regs : Nat → Nat) (p : Nat)
    (Enable Map : ADXL345_InterruptReg_t) (prior : ADXL345_InterruptConfig_t) :
    ∃ s : SimDevice,
      ADXL345_Set_InterruptConfig simHandler (idealDevice regs p) ⟨Enable, Map, 1⟩ =
        some (ADXL345_OK, s) ∧
      (s.regs 0x31).testBit 5 = true ∧
      (ADXL345_Get_InterruptConfig simHandler s prior).1 = ADXL345_OK ∧
      (ADXL345_Get_InterruptConfig simHandler s prior).2.1.ActiveLow = 0 := by
  refine ⟨_, sim_Set_InterruptConfig regs p ⟨Enable, Map, 1⟩, ?_, ?_⟩
  · have h := (polarity_byte ⟨regs 0x31 % 256, Nat.mod_lt _ (by norm_num)⟩ true).2.2.2
    simpa [idealDevice] using h
  · rw [sim_Get_InterruptConfig]
    exact ⟨rfl, rfl⟩

/-- Claim C27. On the ideal register file `ADXL345_Set_InterruptConfig` returns OK
and bit 5 of DATA_FORMAT afterwards is set when ActiveLow is non-zero or when it
was set before: with ActiveLow = 0 a polarity bit that was set stays set, as on
the device whose DATA_FORMAT holds 0x20. -/
theorem C27_polarity_bit_never_cleared (regs : Nat → Nat) (p : Nat)
    (Config : ADXL345_InterruptConfig_t) :
    (∃ s : SimDevice,
      ADXL345_Set_InterruptConfig simHandler (idealDevice regs p) Config =
        some (ADXL345_OK, s) ∧
      (s.regs 0x31).testBit 5 =
        (decide (Config.ActiveLow % 256 ≠ 0) || (regs 0x31 % 256).testBit 5)) ∧
    (ADXL345_Set_InterruptConfig simHandler (simDevice [(0x31, 0x20)])
      ⟨noInterrupt, noInterrupt, 0⟩).map (fun r => (r.1, r.2.regs 0x31)) =
        some (ADXL345_OK, 0x20) := by
  refine ⟨⟨_, sim_Set_InterruptConfig regs p Config, ?_⟩, ?_⟩
  · have h := (polarity_byte ⟨regs 0x31 % 256, Nat.mod_lt _ (by norm_num)⟩
      (decide (Config.ActiveLow % 256 ≠ 0))).2.2.2
    simpa [idealDevice] using h
  · have e : simDevice [(0x31, 0x20)] = idealDevice (regsOf [(0x31, 0x20)]) 0 := rfl
    rw [e, sim_Set_InterruptConfig]
    rfl

/-- Claim C29. When the send of the INT_ENABLE and INT_MAP frame is acknowledged and
the read of DATA_FORMAT succeeds with the byte `B 0`, the calls of
`ADXL345_Set_InterruptConfig` through the handle are that send, the read, and the
send of the frame 0x31, byte, where every bit of the byte other than bit 5 is the
bit of the byte read: bits 0..4 (Range, JustifyLeft, FullResolution and bit 4) and
bits 6 and 7 are unchanged. -/
theorem C29_interrupt_config_preserves_data_format {σ : Type} (H : ADXL345_Handler_t σ)
    (w : σ) (Config : ADXL345_InterruptConfig_t) (B : Nat → Nat) (w2 : σ)
    (hsend : (H.PlatformI2CSend w H.AddressI2C
      [0x2E, interruptByte Config.Enable, interruptByte Config.Map]).1 = 0)
    (hread : ADXL345_ReadRegs H
      (H.PlatformI2CSend w H.AddressI2C
        [0x2E, interruptByte Config.Enable, interruptByte Config.Map]).2
      ADXL345_REG_DATA_FORMAT
      (bytesAt [interruptByte Config.Enable, interruptByte Config.Map]) 1 =
        (ADXL345_OK, B, w2)) :
    ∃ byte : Nat,
      (ADXL345_Set_InterruptConfig (recording H) (w, []) Config).map (fun r => r.2.2) =
        some [PlatformEvent.send H.AddressI2C
            [0x2E, interruptByte Config.Enable, interruptByte Config.Map],
          PlatformEvent.send H.AddressI2C [0x31], PlatformEvent.receive H.AddressI2C 1,
          PlatformEvent.send H.AddressI2C [0x31, byte]] ∧
      (∀ i : Nat, i ≠ 5 → byte.testBit i = (B 0).testBit i) ∧
      byte % 32 = B 0 % 32 ∧ byte / 64 = B 0 / 64 := by
  have he := Nat.mod_eq_of_lt (interruptByte_lt Config.Enable)
  have hm := Nat.mod_eq_of_lt (interruptByte_lt Config.Map)
  have hB : B 0 < 256 := by
    have := ReadRegs_buffer_lt H
      (H.PlatformI2CSend w H.AddressI2C
        [0x2E, interruptByte Config.Enable, interruptByte Config.Map]).2
      ADXL345_REG_DATA_FORMAT 1 0
      (bytesAt [interruptByte Config.Enable, interruptByte Config.Map])
      (by simpa [bytesAt] using interruptByte_lt Config.Enable)
    rw [hread] at this
    exact this
  obtain ⟨hlt, h32, h64, -⟩ := polarity_byte ⟨B 0, hB⟩ (decide (Config.ActiveLow % 256 ≠ 0))
  dsimp only at hlt h32 h64
  have hframe : (ADXL345_REG_INT_ENABLE % 256) :: (List.range 2).map
      (fun j => bytesAt [interruptByte Config.Enable, interruptByte Config.Map] j % 256) =
      [0x2E, interruptByte Config.Enable, interruptByte Config.Map] := by
    simp [range_two_map, bytesAt, ADXL345_REG_INT_ENABLE, he, hm]
  refine ⟨orIf (B 0) (decide (Config.ActiveLow % 256 ≠ 0)) 0x20, ?_,
    fun i hi => orIf_testBit _ _ i hi, h32, h64⟩
  unfold ADXL345_Set_InterruptConfig
  rw [WriteRegs_small_recording_ok H (w, []) _ _ 2 (by norm_num) (by norm_num)
    (by rw [hframe]; exact hsend)]
  simp only [Option.some_bind, ne_eq, not_true_eq_false, if_false]
  rw [hframe]
  rw [ReadRegs_recording_ok H _ _ _ _ B w2 hread]
  simp only [ne_eq, not_true_eq_false, if_false]
  rw [WriteRegs_small_recording H _ _ _ 1 (by norm_num) (by norm_num)]
  simp only [range_one_map, bytesAt, List.getD_cons_zero, ADXL345_REG_DATA_FORMAT,
    Nat.mod_eq_of_lt hlt]
  simp

/-- Witness of C29 on the ideal device with DATA_FORMAT = 0x0B: enabling DataReady
with ActiveLow = 1 sends a byte that differs from 0x0B in bit 5 at most. -/
theorem C29_interrupt_config_preserves_data_format_witness :
    ∃ byte : Nat,
      (ADXL345_Set_InterruptConfig (recording simHandler) (simDevice [(0x31, 0x0B)], [])
        ⟨⟨false, false, false, false, false, false, false, true⟩, noInterrupt, 1⟩).map
        (fun r => r.2.2) =
        some [PlatformEvent.send 0x53 [0x2E, 0x80, 0],
          PlatformEvent.send 0x53 [0x31], PlatformEvent.receive 0x53 1,
          PlatformEvent.send 0x53 [0x31, byte]] ∧
      (∀ i : Nat, i ≠ 5 → byte.testBit i = (0x0B : Nat).testBit i) ∧
      byte % 32 = 0x0B ∧ byte / 64 = 0 := by
  obtain ⟨byte, h1, h2, h3, h4⟩ := C29_interrupt_config_preserves_data_format simHandler
    (simDevice [(0x31, 0x0B)])
    ⟨⟨false, false, false, false, false, false, false, true⟩, noInterrupt, 1⟩
    (ADXL345_ReadRegs simHandler
      (simHandler.PlatformI2CSend (simDevice [(0x31, 0x0B)]) 0x53 [0x2E, 0x80, 0]).2
      ADXL345_REG_DATA_FORMAT (bytesAt [0x80, 0]) 1).2.1
    (ADXL345_ReadRegs simHandler
      (simHandler.PlatformI2CSend (simDevice [(0x31, 0x0B)]) 0x53 [0x2E, 0x80, 0]).2
      ADXL345_REG_DATA_FORMAT (bytesAt [0x80, 0]) 1).2.2 rfl rfl
  exact ⟨byte, h1, h2, h3, h4⟩

/-- Counterexample to C30 as stated: with BW_RATE = 0x1A (low-power flag set) on the
ideal device, `ADXL345_Set_Rate` with the rate code 0x0A returns OK and leaves
0x0A in the register, with bit 4 cleared. -/
theorem C30_low_power_flag_counterexample :
    (ADXL345_Set_Rate simHandler (simDevice [(0x2C, 0x1A)]) 0x0A).map
        (fun r => (r.1, r.2.regs 0x2C, (r.2.regs 0x2C).testBit 4)) =
      some (ADXL345_OK, 0x0A, false) ∧
    (0x1A : Nat).testBit 4 = true := by
  decide

/-- Claim C30, amended. When the read of BW_RATE succeeds with the byte `B 0`, the
calls of `ADXL345_Set_Rate` with a rate code below 32 through the handle are that
read followed by the send of the frame 0x2C, byte, where bits 5..7 of the byte
are those of the byte read and bits 0..4 are the rate code: bit 4, the low-power
flag, is taken from the rate code. -/
theorem C30_rate_read_modify_write {σ : Type} (H : ADXL345_Handler_t σ) (w : σ)
    (Rate : Nat) (B : Nat → Nat) (w1 : σ) (hRate : Rate < 32)
    (hread : ADXL345_ReadRegs H w ADXL345_REG_BW_RATE (fun _ => 0) 1 = (ADXL345_OK, B, w1)) :
    ∃ byte : Nat,
      (ADXL345_Set_Rate (recording H) (w, []) Rate).map (fun r => r.2.2) =
        some [PlatformEvent.send H.AddressI2C [0x2C], PlatformEvent.receive H.AddressI2C 1,
          PlatformEvent.send H.AddressI2C [0x2C, byte]] ∧
      byte / 32 = B 0 / 32 ∧ byte % 32 = Rate ∧ byte.testBit 4 = Rate.testBit 4 := by
  have hB : B 0 < 256 := by
    have := ReadRegs_byte_lt H w ADXL345_REG_BW_RATE 1 0
    rw [hread] at this
    exact this
  have hb := rate_byte ⟨B 0, hB⟩ ⟨Rate, hRate⟩
  dsimp only at hb
  refine ⟨B 0 / 32 * 32 + Rate, ?_, by omega, by omega, ?_⟩
  · unfold ADXL345_Set_Rate
    rw [ReadRegs_recording_ok H (w, []) _ _ _ B w1 hread]
    simp only [ne_eq, not_true_eq_false, if_false]
    rw [WriteRegs_small_recording H _ _ _ 1 (by norm_num) (by norm_num)]
    have hlt : B 0 / 32 * 32 + Rate < 256 := by omega
    simp only [range_one_map, bytesAt, List.getD_cons_zero, hb, ADXL345_REG_BW_RATE,
      Nat.mod_eq_of_lt hlt]
    simp
  · have h16 : (16 : Nat) = 2 ^ 4 := by norm_num
    have e : B 0 / 32 * 32 + Rate = 2 ^ 5 * (B 0 / 32) + Rate := by omega
    rw [e, Nat.testBit_mul_pow_two_add _ (by omega : Rate < 2 ^ 5)]
    simp

/-- Witness of C30 on the ideal device with BW_RATE = 0xFA: the rate code 0x0A gives
the byte 0xEA. -/
theorem C30_rate_read_modify_write_witness :
    ∃ byte : Nat,
      (ADXL345_Set_Rate (recording simHandler) (simDevice [(0x2C, 0xFA)], []) 0x0A).map
        (fun r => r.2.2) =
        some [PlatformEvent.send 0x53 [0x2C], PlatformEvent.receive 0x53 1,
          PlatformEvent.send 0x53 [0x2C, byte]] ∧
      byte / 32 = 0xFA / 32 ∧ byte % 32 = 0x0A ∧ byte.testBit 4 = false := by
  obtain ⟨byte, h1, h2, h3, h4⟩ := C30_rate_read_modify_write simHandler
    (simDevice [(0x2C, 0xFA)]) 0x0A
    (ADXL345_ReadRegs simHandler (simDevice [(0x2C, 0xFA)]) ADXL345_REG_BW_RATE
      (fun _ => 0) 1).2.1
    (ADXL345_ReadRegs simHandler (simDevice [(0x2C, 0xFA)]) ADXL345_REG_BW_RATE
      (fun _ => 0) 1).2.2 (by norm_num) rfl
  exact ⟨byte, h1, h2, h3, h4⟩

/-! ## Claims on the tap and the activity configuration -/

/-- Claim C21. On the ideal register file `ADXL345_Set_TapConfig` returns OK and
leaves in TAP_AXES (0x2A) the Duration byte with the axis flags or-ed into it, not
the flags alone; on the device with all registers 0, setting Duration = 1 with all
four flags clear leaves 1 in TAP_AXES and `ADXL345_Get_TapConfig` then returns OK
with TapEnableZ set. -/
theorem C21_tap_axes_holds_duration (regs : Nat → Nat) (p : Nat)
    (TapConfig : ADXL345_TapConfig_t) :
    (∃ s : SimDevice,
      ADXL345_Set_TapConfig simHandler (idealDevice regs p) TapConfig =
        some (ADXL345_OK, s) ∧
      s.regs 0x21 = TapConfig.Duration % 256 ∧
      s.regs 0x2A =
        (orIf (orIf (orIf (orIf (TapConfig.Duration % 256)
          TapConfig.TapAxis.TapEnableZ 0x01) TapConfig.TapAxis.TapEnableY 0x02)
          TapConfig.TapAxis.TapEnableX 0x04) TapConfig.TapAxis.Suppress 0x08) % 256) ∧
    (ADXL345_Set_TapConfig simHandler (simDevice [])
      ⟨0, 1, 0, 0, ⟨false, false, false, false⟩⟩).map
        (fun r => (r.1, r.2.regs 0x2A,
          (ADXL345_Get_TapConfig simHandler r.2 (fun _ => 0)).1,
          (ADXL345_Get_TapConfig simHandler r.2 (fun _ => 0)).2.1)) =
      some (ADXL345_OK, 1, ADXL345_OK, ⟨0, 1, 0, 0, ⟨true, false, false, false⟩⟩) := by
  refine ⟨?_, by decide⟩
  unfold ADXL345_Set_TapConfig
  rw [sim_WriteRegs regs p _ _ 1 (by norm_num) (by norm_num)]
  simp only [Option.some_bind, ne_eq, not_true_eq_false, if_false]
  rw [sim_WriteRegs _ _ _ _ 3 (by norm_num) (by norm_num)]
  simp only [Option.some_bind, ne_eq, not_true_eq_false, if_false]
  rw [sim_WriteRegs _ _ _ _ 1 (by norm_num) (by norm_num)]
  refine ⟨_, rfl, ?_, ?_⟩
  · simp [idealDevice, SimDevice.writeFrom, range_one_map, range_three_map, bytesAt,
      ADXL345_REG_THRESH_TAP, ADXL345_REG_DUR, ADXL345_REG_TAP_AXES]
  · simp [idealDevice, SimDevice.writeFrom, range_one_map, range_three_map, bytesAt,
      ADXL345_REG_THRESH_TAP, ADXL345_REG_DUR, ADXL345_REG_TAP_AXES]

/-- Claim C22. On the ideal register file `ADXL345_Set_ActivityInactivity` returns
OK, leaves THRESH_ACT, THRESH_INACT and TIME_INACT (0x24..0x26) as they were and
puts its four bytes into 0x27..0x2A; on the device with all registers 0, setting
thresholds 5 and 6, time 7 and InactivityEnableZ leaves 5, 6, 7, 1 in 0x27..0x2A,
and `ADXL345_Get_ActivityInactivity` then returns OK with thresholds and time 0
and the flags of the byte 5. -/
theorem C22_activity_written_at_control_register (regs : Nat → Nat) (p : Nat)
    (ActivityInactivity : ADXL345_ActivityInactivity_t) :
    (∃ s : SimDevice,
      ADXL345_Set_ActivityInactivity simHandler (idealDevice regs p) ActivityInactivity =
        some (ADXL345_OK, s) ∧
      s.regs 0x24 = regs 0x24 ∧ s.regs 0x25 = regs 0x25 ∧ s.regs 0x26 = regs 0x26 ∧
      s.regs 0x27 = ActivityInactivity.ActivityThreshold % 256 ∧
      s.regs 0x28 = ActivityInactivity.InactivityThreshold % 256 ∧
      s.regs 0x29 = ActivityInactivity.InactivityTime % 256) ∧
    (ADXL345_Set_ActivityInactivity simHandler (simDevice [])
      ⟨5, 6, 7, ⟨true, false, false, false, false, false, false, false⟩⟩).map
        (fun r => (r.1, (List.range 7).map (fun k => r.2.regs (0x24 + k)),
          (ADXL345_Get_ActivityInactivity simHandler r.2
            ⟨0, 0, 0, ⟨false, false, false, false, false, false, false, false⟩⟩).1,
          (ADXL345_Get_ActivityInactivity simHandler r.2
            ⟨0, 0, 0, ⟨false, false, false, false, false, false, false, false⟩⟩).2.1)) =
      some (ADXL345_OK, [0, 0, 0, 5, 6, 7, 1], ADXL345_OK,
        ⟨0, 0, 0, ⟨true, false, true, false, false, false, false, false⟩⟩) := by
  refine ⟨?_, by decide⟩
  unfold ADXL345_Set_ActivityInactivity
  rw [sim_WriteRegs regs p _ _ 4 (by norm_num) (by norm_num)]
  refine ⟨_, rfl, ?_, ?_, ?_, ?_, ?_, ?_⟩ <;>
    simp [idealDevice, SimDevice.writeFrom, range_four_map, bytesAt,
      ADXL345_REG_ACT_INACT_CTL]

/-! ## Lemmas on the status, rate and power getters and setters -/

/-- The fields `ADXL345_Get_FifoStatus` unpacks from a byte. -/
theorem fifo_status_byte (b : Fin 256) :
    ((Fin.ofNat (b.val &&& 0x3F) : Fin 64).val = b.val % 64) ∧
    (decide (b.val &&& 0x80 ≠ 0) = b.val.testBit 7) := by
  revert b
  set_option maxRecDepth 100000 in decide

theorem Get_FifoStatus_ok {σ : Type} (H : ADXL345_Handler_t σ) (w : σ)
    (S : ADXL345_FifoStatus_t) (B : Nat → Nat) (w1 : σ)
    (h : ADXL345_ReadRegs H w ADXL345_REG_FIFO_STATUS (fun _ => 0) 1 = (ADXL345_OK, B, w1)) :
    ADXL345_Get_FifoStatus H w S =
      (ADXL345_OK, ⟨Fin.ofNat (B 0 &&& 0x3F), false, decide (B 0 &&& 0x80 ≠ 0)⟩, w1) := by
  unfold ADXL345_Get_FifoStatus
  simp only [h, ne_eq, not_true_eq_false, if_false]
  split_ifs with h1 <;> simp [h1]

/-- The byte `ADXL345_Set_Rate` builds for a five-bit rate code, and the rate read
back from it. -/
theorem rate_round_trip_byte (b : Fin 256) (Rate : Fin 32) :
    (b.val / 32 * 32 + Rate.val) &&& 0x1F = Rate.val ∧
    (b.val / 32 * 32 + Rate.val) / 32 = b.val / 32 ∧
    (b.val / 32 * 32 + Rate.val) % 32 = Rate.val ∧
    b.val / 32 * 32 + Rate.val < 256 := by
  revert b Rate
  set_option maxRecDepth 100000 in decide

theorem sim_Set_Rate (regs : Nat → Nat) (p : Nat) (Rate : Fin 32) :
    ADXL345_Set_Rate simHandler (idealDevice regs p) Rate.val =
      some (ADXL345_OK,
        idealDevice (fun k => if k = 0x2C then regs 0x2C % 256 / 32 * 32 + Rate.val
          else regs k) 0x2D) := by
  have hb := rate_byte ⟨regs 0x2C % 256, Nat.mod_lt _ (by norm_num)⟩ Rate
  have hlt := (rate_round_trip_byte ⟨regs 0x2C % 256, Nat.mod_lt _ (by norm_num)⟩ Rate).2.2.2
  dsimp only at hb hlt
  unfold ADXL345_Set_Rate
  rw [sim_ReadRegs_one regs p ADXL345_REG_BW_RATE (by decide)]
  simp only [ne_eq, not_true_eq_false, if_false]
  rw [sim_WriteRegs_one _ _ ADXL345_REG_BW_RATE _ (by decide)]
  simp only [bytesAt, List.getD_cons_zero, storeBytes_one_zero, ADXL345_REG_BW_RATE,
    Nat.mod_mod, hb, Nat.mod_eq_of_lt hlt]

theorem sim_Get_Rate (regs : Nat → Nat) (p : Nat) (prior : Nat) :
    ADXL345_Get_Rate simHandler (idealDevice regs p) prior =
      (ADXL345_OK, (regs 0x2C % 256) &&& 0x1F, idealDevice regs 0x2D) := by
  unfold ADXL345_Get_Rate
  rw [sim_ReadRegs_one regs p ADXL345_REG_BW_RATE (by decide)]
  simp only [ne_eq, not_true_eq_false, if_false, storeBytes_one_zero, ADXL345_REG_BW_RATE,
    Nat.mod_mod]

/-! ## Claims on the getters, the rate and the interrupt handler -/

/-- Claim C31. On the ideal register file `ADXL345_Get_DataFormat` returns OK with
Range equal to bits 0..1 of DATA_FORMAT, but JustifyLeft (FullResolution) is set
when bit 2 (bit 3) of the register is set or when it was set in the caller's
record before the call: with DATA_FORMAT = 0 and a prior record with both flags
set, both flags come back set, and `ADXL345_ReadSamples` with such a local record
works with both flags set. -/
theorem C31_data_format_flags_not_cleared (regs : Nat → Nat) (p : Nat)
    (prior : ADXL345_DataFormat_t) :
    ((ADXL345_Get_DataFormat simHandler (idealDevice regs p) prior).1 = ADXL345_OK ∧
      (ADXL345_Get_DataFormat simHandler (idealDevice regs p) prior).2.1.Range.val =
        regs 0x31 % 4 ∧
      (ADXL345_Get_DataFormat simHandler (idealDevice regs p) prior).2.1.JustifyLeft =
        ((regs 0x31).testBit 2 || prior.JustifyLeft) ∧
      (ADXL345_Get_DataFormat simHandler (idealDevice regs p) prior).2.1.FullResolution =
        ((regs 0x31).testBit 3 || prior.FullResolution)) ∧
    ADXL345_Get_DataFormat simHandler (simDevice [(0x31, 0x00)]) ⟨0, true, true⟩ =
      (ADXL345_OK, ⟨0, true, true⟩, idealDevice (regsOf [(0x31, 0x00)]) 0x32) ∧
    (ADXL345_ReadSamples simHandler (simDevice [(0x31, 0x00)])
      { zeroLocals with DataFormat := ⟨0, true, true⟩ } 1).DataFormat = ⟨0, true, true⟩ := by
  refine ⟨?_, ?_, by decide⟩
  · rw [sim_Get_DataFormat]
    have hb := Nat.mod_lt (regs 0x31) (show 256 > 0 by norm_num)
    have key : ∀ b : Fin 256,
        ((Fin.ofNat (b.val &&& 0x03) : Fin 4).val = b.val % 4) ∧
        (decide (b.val &&& 0x04 ≠ 0) = b.val.testBit 2) ∧
        (decide (b.val &&& 0x08 ≠ 0) = b.val.testBit 3) := by
      set_option maxRecDepth 100000 in decide
    obtain ⟨k1, k2, k3⟩ := key ⟨regs 0x31 % 256, hb⟩
    dsimp only at k1 k2 k3
    have t2 : (regs 0x31 % 256).testBit 2 = (regs 0x31).testBit 2 :=
      Nat.testBit_mod_two_pow (regs 0x31) 8 2 |>.trans (by simp)
    have t3 : (regs 0x31 % 256).testBit 3 = (regs 0x31).testBit 3 :=
      Nat.testBit_mod_two_pow (regs 0x31) 8 3 |>.trans (by simp)
    refine ⟨rfl, ?_, ?_, ?_⟩
    · dsimp only
      rw [k1]
      omega
    · dsimp only
      rw [← t2, ← k2]
      by_cases c : regs 0x31 % 256 &&& 0x04 ≠ 0 <;> simp [c]
    · dsimp only
      rw [← t3, ← k3]
      by_cases c : regs 0x31 % 256 &&& 0x08 ≠ 0 <;> simp [c]
  · have e : simDevice [(0x31, 0x00)] = idealDevice (regsOf [(0x31, 0x00)]) 0 := rfl
    rw [e, sim_Get_DataFormat]
    rfl

/-- Claim C32. When the read of FIFO_STATUS succeeds with the byte `B 0`,
`ADXL345_Get_FifoStatus` returns OK with Entries = `B 0` mod 64 (at most 63),
Trigger = bit 7 of `B 0` and the reserved field clear, whatever the output record
held before. -/
theorem C32_fifo_status_fields {σ : Type} (H : ADXL345_Handler_t σ) (w : σ)
    (prior : ADXL345_FifoStatus_t) (B : Nat → Nat) (w1 : σ)
    (hread : ADXL345_ReadRegs H w ADXL345_REG_FIFO_STATUS (fun _ => 0) 1 =
      (ADXL345_OK, B, w1)) :
    (ADXL345_Get_FifoStatus H w prior).1 = ADXL345_OK ∧
    (ADXL345_Get_FifoStatus H w prior).2.1.Entries.val = B 0 % 64 ∧
    (ADXL345_Get_FifoStatus H w prior).2.1.Entries.val ≤ 63 ∧
    (ADXL345_Get_FifoStatus H w prior).2.1.Trigger = (B 0).testBit 7 ∧
    (ADXL345_Get_FifoStatus H w prior).2.1.Reserved = false ∧
    (∀ other : ADXL345_FifoStatus_t,
      ADXL345_Get_FifoStatus H w other = ADXL345_Get_FifoStatus H w prior) := by
  have hB : B 0 < 256 := by
    have := ReadRegs_byte_lt H w ADXL345_REG_FIFO_STATUS 1 0
    rw [hread] at this
    exact this
  obtain ⟨k1, k2⟩ := fifo_status_byte ⟨B 0, hB⟩
  dsimp only at k1 k2
  rw [Get_FifoStatus_ok H w prior B w1 hread]
  refine ⟨rfl, k1, ?_, k2, rfl, fun other => Get_FifoStatus_ok H w other B w1 hread⟩
  dsimp only
  rw [k1]
  omega

/-- Witness of C32 on the ideal device with FIFO_STATUS = 0xE5: 37 entries (bit 6
ignored), trigger set. -/
theorem C32_fifo_status_fields_witness :
    (ADXL345_Get_FifoStatus simHandler (simDevice [(0x39, 0xE5)]) ⟨9, true, false⟩).1 =
      ADXL345_OK ∧
    (ADXL345_Get_FifoStatus simHandler (simDevice [(0x39, 0xE5)])
      ⟨9, true, false⟩).2.1.Entries.val = 37 ∧
    (ADXL345_Get_FifoStatus simHandler (simDevice [(0x39, 0xE5)])
      ⟨9, true, false⟩).2.1.Trigger = true := by
  obtain ⟨h1, h2, -, h4, -, -⟩ := C32_fifo_status_fields simHandler
    (simDevice [(0x39, 0xE5)]) ⟨9, true, false⟩
    (ADXL345_ReadRegs simHandler (simDevice [(0x39, 0xE5)]) ADXL345_REG_FIFO_STATUS
      (fun _ => 0) 1).2.1
    (ADXL345_ReadRegs simHandler (simDevice [(0x39, 0xE5)]) ADXL345_REG_FIFO_STATUS
      (fun _ => 0) 1).2.2 rfl
  exact ⟨h1, h2.trans (by decide), h4.trans (by decide)⟩

/-- Claim C38. On the ideal register file, for every content of BW_RATE and every
rate code 0..0x1F, `ADXL345_Set_Rate` returns OK and leaves in BW_RATE a byte
whose bits 5..7 are those it held before and whose bits 0..4 are the rate code,
and `ADXL345_Get_Rate` then returns OK and the same rate code, whatever the
output variable held before. -/
theorem C38_rate_round_trip (regs : Nat → Nat) (p : Nat) (Rate : Fin 32) (prior : Nat) :
    (ADXL345_Set_Rate simHandler (idealDevice regs p) Rate.val).map
        (fun s => (s.1, s.2.regs 0x2C / 32, s.2.regs 0x2C % 32,
          (ADXL345_Get_Rate simHandler s.2 prior).1,
          (ADXL345_Get_Rate simHandler s.2 prior).2.1)) =
      some (ADXL345_OK, regs 0x2C % 256 / 32, Rate.val, ADXL345_OK, Rate.val) := by
  obtain ⟨k1, k2, k3, k4⟩ :=
    rate_round_trip_byte ⟨regs 0x2C % 256, Nat.mod_lt _ (by norm_num)⟩ Rate
  dsimp only at k1 k2 k3 k4
  rw [sim_Set_Rate]
  simp only [Option.map_some', sim_Get_Rate]
  simp only [idealDevice, if_true, Nat.mod_eq_of_lt k4, k1, k2, k3]

/-- Claim C40. When no callback is registered, `ADXL345_IRQ_Handler` returns FAIL
without any call through the handle: the trace of transport calls stays empty
and the world state is the one before the call. -/
theorem C40_no_callback_no_transport {σ : Type} (H : ADXL345_Handler_t σ) (w : σ)
    (Interrupt : ADXL345_InterruptReg_t) (hcb : H.InterruptCallback = none) :
    ADXL345_IRQ_Handler (recording H) (w, []) Interrupt = (ADXL345_FAIL, (w, [])) := by
  unfold ADXL345_IRQ_Handler
  simp [recording, hcb]

/-- Witness of C40 on the ideal device with every latched interrupt pending. -/
theorem C40_no_callback_no_transport_witness :
    ADXL345_IRQ_Handler (recording simHandler) (simDevice [(0x30, 0xFF)], [])
      { noInterrupt with Overrun := true } =
        (ADXL345_FAIL, (simDevice [(0x30, 0xFF)], [])) :=
  C40_no_callback_no_transport simHandler (simDevice [(0x30, 0xFF)])
    { noInterrupt with Overrun := true } rfl

/-! ## Rounding to binary32 -/

theorem Binary32_log2_spec (fuel : Nat) :
    ∀ n, 0 < n → n ≤ fuel →
      2 ^ Binary32.log2 fuel n ≤ n ∧ n < 2 ^ (Binary32.log2 fuel n + 1) := by
  induction fuel with
  | zero => intro n h0 h1; omega
  | succ fuel ih =>
    intro n h0 h1
    unfold Binary32.log2
    split_ifs with h
    · have : n = 1 := by omega
      subst this
      norm_num
    · have h2 := ih (n / 2) (by omega) (by omega)
      rw [pow_succ, pow_succ]
      constructor <;> omega

theorem Binary32_reduce_toRat (fuel : Nat) :
    ∀ (m e : Int), (Binary32.reduce fuel m e).toRat = m * 2 ^ e := by
  induction fuel with
  | zero => intro m e; rfl
  | succ fuel ih =>
    intro m e
    unfold Binary32.reduce
    split_ifs with h0 h2
    · subst h0
      simp [Binary32.toRat]
    · rw [ih]
      have hm : m = 2 * (m / 2) := by omega
      have : (m : ℚ) = 2 * ((m / 2 : Int) : ℚ) := by exact_mod_cast hm
      rw [zpow_add_one₀ (by norm_num : (2 : ℚ) ≠ 0)]
      rw [this]
      ring
    · rfl

theorem zpow_toNat_split (s : Int) :
    (2 : ℚ) ^ s = (2 : ℚ) ^ s.toNat / (2 : ℚ) ^ (-s).toNat := by
  rcases le_total 0 s with h | h
  · have h1 : (-s).toNat = 0 := by omega
    have h2 : ((s.toNat : Int)) = s := Int.toNat_of_nonneg h
    rw [h1, pow_zero, div_one, ← zpow_natCast, h2]
  · have h1 : s.toNat = 0 := by omega
    have h2 : (((-s).toNat : Int)) = -s := Int.toNat_of_nonneg (by omega)
    rw [h1, pow_zero, one_div, ← zpow_natCast, h2, zpow_neg, inv_inv]

theorem Binary32_nearest_spec (N D : Nat) (hD : 0 < D) :
    |(N : ℚ) / D - (Binary32.nearest N D : ℚ)| ≤ 1 / 2 ∧
    (|(N : ℚ) / D - (Binary32.nearest N D : ℚ)| = 1 / 2 → Even (Binary32.nearest N D)) ∧
    N / D ≤ Binary32.nearest N D ∧ Binary32.nearest N D ≤ N / D + 1 := by
  have hDq : (0 : ℚ) < D := by exact_mod_cast hD
  have hN : (N : ℚ) = D * (N / D : Nat) + (N % D : Nat) := by
    exact_mod_cast (Nat.div_add_mod N D).symm
  have hr : ((N % D : Nat) : ℚ) < D := by exact_mod_cast Nat.mod_lt N hD
  have hr0 : (0 : ℚ) ≤ ((N % D : Nat) : ℚ) := by positivity
  have e1 : (N : ℚ) / D - ((N / D : Nat) : ℚ) = ((N % D : Nat) : ℚ) / D := by
    rw [hN]; field_simp
  unfold Binary32.nearest
  split_ifs with h
  · have e2 : (N : ℚ) / D - ((N / D + 1 : Nat) : ℚ) = -((D - ((N % D : Nat) : ℚ)) / D) := by
      push_cast
      rw [hN]; field_simp; ring
    rw [e2, abs_neg, abs_of_nonneg (div_nonneg (by linarith) hDq.le)]
    have hge : (D : ℚ) ≤ 2 * ((N % D : Nat) : ℚ) := by
      rcases h with h | h
      · exact_mod_cast h.le
      · exact_mod_cast h.1.ge
    refine ⟨?_, ?_, by omega, by omega⟩
    · rw [div_le_iff₀ hDq]; linarith
    · intro _
      rcases h with h | h
      · exfalso
        have hlt : (D : ℚ) < 2 * ((N % D : Nat) : ℚ) := by exact_mod_cast h
        have : (D - ((N % D : Nat) : ℚ)) / D < 1 / 2 := by
          rw [div_lt_iff₀ hDq]; linarith
        linarith
      · rw [Nat.even_add_one, Nat.not_even_iff]
        exact h.2
  · rw [e1, abs_of_nonneg (div_nonneg hr0 hDq.le)]
    push_neg at h
    have hle : 2 * ((N % D : Nat) : ℚ) ≤ D := by exact_mod_cast h.1
    refine ⟨?_, ?_, by omega, by omega⟩
    · rw [div_le_iff₀ hDq]; linarith
    · intro heq
      have h2 : 2 * (N % D) = D := by
        have : 2 * ((N % D : Nat) : ℚ) = D := by
          rw [div_eq_iff hDq.ne'] at heq
          linarith
        exact_mod_cast this
      have := h.2 h2
      rw [Nat.even_iff]
      omega

theorem scaled_fraction (n d : Nat) (s : Int) :
    ((n * 2 ^ s.toNat : Nat) : ℚ) / ((d * 2 ^ (-s).toNat : Nat) : ℚ) = (n : ℚ) / d * 2 ^ s := by
  rw [zpow_toNat_split s]
  push_cast
  have h1 : ((2 : ℚ) ^ (-s).toNat) ≠ 0 := pow_ne_zero _ (by norm_num)
  by_cases hd : (d : ℚ) = 0
  · rw [hd]; simp
  · field_simp

theorem Binary32_scale_spec (n d : Nat) (hn : 0 < n) (hd : 0 < d) :
    (2 : ℚ) ^ 23 ≤ (n : ℚ) / d * 2 ^ Binary32.scale n d ∧
    (n : ℚ) / d * 2 ^ Binary32.scale n d < 2 ^ 24 := by
  obtain ⟨hn1, hn2⟩ := Binary32_log2_spec n n hn le_rfl
  obtain ⟨hd1, hd2⟩ := Binary32_log2_spec d d hd le_rfl
  have hnq : (0 : ℚ) < n := by exact_mod_cast hn
  have hdq : (0 : ℚ) < d := by exact_mod_cast hd
  have hn1q : (2 : ℚ) ^ Binary32.log2 n n ≤ n := by exact_mod_cast hn1
  have hn2q : (n : ℚ) < 2 ^ (Binary32.log2 n n + 1) := by exact_mod_cast hn2
  have hd1q : (2 : ℚ) ^ Binary32.log2 d d ≤ d := by exact_mod_cast hd1
  have hd2q : (d : ℚ) < 2 ^ (Binary32.log2 d d + 1) := by exact_mod_cast hd2
  have hpn : (0 : ℚ) < 2 ^ Binary32.log2 n n := by positivity
  have hpd : (0 : ℚ) < 2 ^ Binary32.log2 d d := by positivity
  have es0 : (2 : ℚ) ^ (23 + (Binary32.log2 d d : Int) - (Binary32.log2 n n : Int)) =
      2 ^ 23 * 2 ^ Binary32.log2 d d / 2 ^ Binary32.log2 n n := by
    rw [zpow_sub₀ (by norm_num : (2 : ℚ) ≠ 0), zpow_add₀ (by norm_num : (2 : ℚ) ≠ 0),
      zpow_natCast, zpow_natCast]
    norm_num
  have hlo : (2 : ℚ) ^ 22 < (n : ℚ) / d *
      2 ^ (23 + (Binary32.log2 d d : Int) - (Binary32.log2 n n : Int)) := by
    rw [es0, div_mul_div_comm, lt_div_iff₀ (mul_pos hdq hpn)]
    rw [pow_succ] at hd2q
    nlinarith
  have hhi : (n : ℚ) / d *
      2 ^ (23 + (Binary32.log2 d d : Int) - (Binary32.log2 n n : Int)) < 2 ^ 24 := by
    rw [es0, div_mul_div_comm, div_lt_iff₀ (mul_pos hdq hpn)]
    rw [pow_succ] at hn2q
    nlinarith
  unfold Binary32.scale
  dsimp only
  have hD0 : 0 < d * 2 ^ (-(23 + (Binary32.log2 d d : Int) - (Binary32.log2 n n : Int))).toNat :=
    Nat.mul_pos hd (pow_pos (by norm_num) _)
  split_ifs with hq
  · rw [Nat.div_lt_iff_lt_mul hD0] at hq
    have hq2 : ((n * 2 ^ (23 + (Binary32.log2 d d : Int) - (Binary32.log2 n n : Int)).toNat : Nat) : ℚ) /
        ((d * 2 ^ (-(23 + (Binary32.log2 d d : Int) - (Binary32.log2 n n : Int))).toNat : Nat) : ℚ)
        < 2 ^ 23 := by
      rw [div_lt_iff₀ (by exact_mod_cast hD0)]
      exact_mod_cast hq
    rw [scaled_fraction] at hq2
    rw [zpow_add_one₀ (by norm_num : (2 : ℚ) ≠ 0)]
    constructor <;> nlinarith
  · rw [Nat.div_lt_iff_lt_mul hD0, not_lt] at hq
    have hq2 : (2 : ℚ) ^ 23 ≤
        ((n * 2 ^ (23 + (Binary32.log2 d d : Int) - (Binary32.log2 n n : Int)).toNat : Nat) : ℚ) /
        ((d * 2 ^ (-(23 + (Binary32.log2 d d : Int) - (Binary32.log2 n n : Int))).toNat : Nat) : ℚ) := by
      rw [le_div_iff₀ (by exact_mod_cast hD0)]
      exact_mod_cast hq
    rw [scaled_fraction] at hq2
    exact ⟨hq2, hhi⟩

/-- The function `Binary32.round` rounds to nearest, ties to even, at 24
significant bits: whenever it has an outcome on a positive fraction, the
outcome is the rounded value. -/
theorem Binary32_round_isRounded (neg : Bool) (n d : Nat) (hn : 0 < n) (hd : 0 < d)
    (x : Binary32) (h : Binary32.round neg n d = some x) :
    Binary32.IsRounded neg ((n : ℚ) / d) x := by
  unfold Binary32.round at h
  rw [if_neg (by omega), if_neg (by omega)] at h
  dsimp only at h
  rcases ite_eq_iff.1 h with ⟨_, h1⟩ | ⟨_, h1⟩
  · cases h1
  have hx := Option.some.inj h1
  obtain ⟨hs1, hs2⟩ := Binary32_scale_spec n d hn hd
  have hD0 : 0 < d * 2 ^ (-Binary32.scale n d).toNat :=
    Nat.mul_pos hd (pow_pos (by norm_num) _)
  obtain ⟨hm1, hm2, _, _⟩ := Binary32_nearest_spec (n * 2 ^ (Binary32.scale n d).toNat)
    (d * 2 ^ (-Binary32.scale n d).toNat) hD0
  rw [scaled_fraction] at hm1 hm2
  refine ⟨Binary32.nearest (n * 2 ^ (Binary32.scale n d).toNat)
    (d * 2 ^ (-Binary32.scale n d).toNat), Binary32.scale n d, hs1, hs2, hm1, hm2, ?_⟩
  rw [← hx, Binary32_reduce_toRat, zpow_neg]
  cases neg
  · simp only [Bool.false_eq_true, if_false]
    push_cast
    ring
  · simp only [if_true]
    push_cast
    ring

theorem Binary32_toRat_eq (x : Binary32) :
    x.toRat = ((x.mant * 2 ^ x.exp.toNat : Int) : ℚ) / ((2 ^ (-x.exp).toNat : Nat) : ℚ) := by
  unfold Binary32.toRat
  rw [zpow_toNat_split x.exp]
  push_cast
  ring

/-- The decidable test `eqFrac` says that the value is the fraction. -/
theorem Binary32_eqFrac_iff (x : Binary32) (n : Int) (d : Nat) (hd : 0 < d) :
    x.eqFrac n d ↔ x.toRat = (n : ℚ) / d := by
  have hdq : (0 : ℚ) < d := by exact_mod_cast hd
  have hp : (0 : ℚ) < ((2 ^ (-x.exp).toNat : Nat) : ℚ) := by positivity
  rw [Binary32_toRat_eq, div_eq_div_iff hp.ne' hdq.ne']
  unfold Binary32.eqFrac
  constructor
  · intro h
    exact_mod_cast h
  · intro h
    exact_mod_cast h

/-- The decidable test `near` bounds the distance of the value from the fraction
by the part `1 / 2 ^ k` of the fraction. -/
theorem Binary32_near_iff (x : Binary32) (n : Int) (d k : Nat) (hd : 0 < d) :
    x.near n d k ↔ |x.toRat - (n : ℚ) / d| * 2 ^ k ≤ |(n : ℚ) / d| := by
  have hdq : (0 : ℚ) < d := by exact_mod_cast hd
  have hp : (0 : ℚ) < ((2 ^ (-x.exp).toNat : Nat) : ℚ) := by positivity
  have e : x.toRat - (n : ℚ) / d =
      ((x.mant * 2 ^ x.exp.toNat * d - n * 2 ^ (-x.exp).toNat : Int) : ℚ) /
        (((2 ^ (-x.exp).toNat : Nat) : ℚ) * d) := by
    rw [Binary32_toRat_eq, div_sub_div _ _ hp.ne' hdq.ne']
    push_cast
    ring
  rw [e, abs_div, abs_div, abs_of_pos (mul_pos hp hdq), abs_of_pos hdq, div_mul_eq_mul_div,
    div_le_div_iff₀ (mul_pos hp hdq) hdq]
  unfold Binary32.near
  have c1 : ∀ z : Int, |(z : ℚ)| = ((z.natAbs : Nat) : ℚ) := by
    intro z
    rw [Nat.cast_natAbs, Int.cast_abs]
  rw [c1, c1]
  constructor
  · intro h
    have h' : ((((x.mant * 2 ^ x.exp.toNat * d - n * 2 ^ (-x.exp).toNat).natAbs * 2 ^ k : Nat)) : ℚ)
        ≤ ((n.natAbs * 2 ^ (-x.exp).toNat : Nat) : ℚ) := by exact_mod_cast h
    push_cast at h'
    push_cast
    nlinarith
  · intro h
    have h' : ((((x.mant * 2 ^ x.exp.toNat * d - n * 2 ^ (-x.exp).toNat).natAbs * 2 ^ k : Nat)) : ℚ)
        ≤ ((n.natAbs * 2 ^ (-x.exp).toNat : Nat) : ℚ) := by
      push_cast
      push_cast at h
      exact le_of_mul_le_mul_right (by linarith) hdq
    exact_mod_cast h'

/-- The conversion to an integer drops the fraction of a value that is not
negative. -/
theorem Binary32_trunc_floor (x : Binary32) (h : 0 ≤ x.mant) : x.trunc = ⌊x.toRat⌋ := by
  rw [Binary32_toRat_eq, Rat.floor_intCast_div_natCast]
  unfold Binary32.trunc
  have h1 : (0 : Int) ≤ x.mant * 2 ^ x.exp.toNat := mul_nonneg h (by positivity)
  rw [Int.tdiv_eq_ediv h1 (by positivity)]
  push_cast
  rfl

theorem Binary32_mul_isRounded (a b x : Binary32) (h0 : a.mant * b.mant ≠ 0)
    (h : Binary32.mul a b = some x) :
    Binary32.IsRounded (decide (a.mant * b.mant < 0)) |a.toRat * b.toRat| x := by
  have hn : 0 < (a.mant * b.mant).natAbs * 2 ^ (a.exp + b.exp).toNat :=
    Nat.mul_pos (Int.natAbs_pos.2 h0) (pow_pos (by norm_num) _)
  have hr := Binary32_round_isRounded _ _ _ hn (pow_pos (by norm_num) _) x h
  have e : (((a.mant * b.mant).natAbs * 2 ^ (a.exp + b.exp).toNat : Nat) : ℚ) /
      ((2 ^ (-(a.exp + b.exp)).toNat : Nat) : ℚ) = |a.toRat * b.toRat| := by
    unfold Binary32.toRat
    have e2 : (a.mant : ℚ) * 2 ^ a.exp * (b.mant * 2 ^ b.exp) =
        ((a.mant * b.mant : Int) : ℚ) * 2 ^ (a.exp + b.exp) := by
      rw [zpow_add₀ (by norm_num : (2 : ℚ) ≠ 0)]
      push_cast
      ring
    rw [e2, abs_mul, abs_of_pos (zpow_pos (by norm_num : (0 : ℚ) < 2) _),
      zpow_toNat_split (a.exp + b.exp), ← Int.cast_abs, ← Nat.cast_natAbs]
    push_cast
    ring
  rw [e] at hr
  exact hr

theorem Binary32_div_isRounded (a b x : Binary32) (h0 : a.mant ≠ 0)
    (h : Binary32.div a b = some x) :
    Binary32.IsRounded (decide (a.mant * b.mant < 0)) |a.toRat / b.toRat| x := by
  have hb : b.mant ≠ 0 := by
    intro hb
    unfold Binary32.div Binary32.round at h
    rw [hb] at h
    simp at h
  have hn : 0 < a.mant.natAbs * 2 ^ (a.exp - b.exp).toNat :=
    Nat.mul_pos (Int.natAbs_pos.2 h0) (pow_pos (by norm_num) _)
  have hd : 0 < b.mant.natAbs * 2 ^ (-(a.exp - b.exp)).toNat :=
    Nat.mul_pos (Int.natAbs_pos.2 hb) (pow_pos (by norm_num) _)
  have hr := Binary32_round_isRounded _ _ _ hn hd x h
  have e : ((a.mant.natAbs * 2 ^ (a.exp - b.exp).toNat : Nat) : ℚ) /
      ((b.mant.natAbs * 2 ^ (-(a.exp - b.exp)).toNat : Nat) : ℚ) = |a.toRat / b.toRat| := by
    unfold Binary32.toRat
    have hbq : (b.mant : ℚ) ≠ 0 := by exact_mod_cast hb
    have e2 : (a.mant : ℚ) * 2 ^ a.exp / (b.mant * 2 ^ b.exp) =
        (a.mant : ℚ) / b.mant * 2 ^ (a.exp - b.exp) := by
      rw [zpow_sub₀ (by norm_num : (2 : ℚ) ≠ 0)]
      field_simp
    rw [e2, abs_mul, abs_div, abs_of_pos (zpow_pos (by norm_num : (0 : ℚ) < 2) _),
      zpow_toNat_split (a.exp - b.exp), ← Int.cast_abs, ← Int.cast_abs, ← Nat.cast_natAbs,
      ← Nat.cast_natAbs]
    push_cast
    have : ((b.mant.natAbs : Nat) : ℚ) ≠ 0 := by
      exact_mod_cast (Int.natAbs_pos.2 hb).ne'
    field_simp
  rw [e] at hr
  exact hr

theorem Binary32_ofInt_isRounded (k : Int) (x : Binary32) (h0 : k ≠ 0)
    (h : Binary32.ofInt k = some x) :
    Binary32.IsRounded (decide (k < 0)) |(k : ℚ)| x := by
  have hr := Binary32_round_isRounded _ _ _ (Int.natAbs_pos.2 h0) Nat.one_pos x h
  rw [Nat.cast_one, div_one, Nat.cast_natAbs, Int.cast_abs] at hr
  exact hr

theorem Binary32_ofDecimal_isRounded (n d : Nat) (x : Binary32) (hn : 0 < n) (hd : 0 < d)
    (h : Binary32.ofDecimal n d = some x) :
    Binary32.IsRounded false ((n : ℚ) / d) x :=
  Binary32_round_isRounded false n d hn hd x h

/-! ## Claim on the unit-conversion macros -/

theorem Binary32_round_samples :
    Binary32.ofDecimal 1 3 = some ⟨11184811, -25⟩ ∧
    Binary32.ofDecimal 1 10 = some ⟨13421773, -27⟩ ∧
    Binary32.ofInt 16777217 = some ⟨1, 24⟩ ∧
    Binary32.ofInt 16777219 = some ⟨4194305, 2⟩ ∧
    Binary32.ofInt (-3) = some ⟨-3, 0⟩ ∧
    Binary32.div ⟨1, 0⟩ ⟨0, 0⟩ = none := by
  decide

/-- The constants of the conversion macros as binary32 values: `0.0156f` is
4187593 / 2 ^ 28, not 156 / 10000; `0.0625f` is 1 / 16 and `1.25f` is 5 / 4. -/
theorem conversion_constants :
    Binary32.ofDecimal 156 10000 = some ⟨4187593, -28⟩ ∧
    ¬ Binary32.eqFrac ⟨4187593, -28⟩ 156 10000 ∧
    Binary32.ofDecimal 625 10000 = some ⟨1, -4⟩ ∧ Binary32.eqFrac ⟨1, -4⟩ 625 10000 ∧
    Binary32.ofDecimal 125 100 = some ⟨5, -2⟩ ∧ Binary32.eqFrac ⟨5, -2⟩ 125 100 := by
  decide

set_option maxRecDepth 100000 in
theorem TapThreshold_table : ∀ r : Fin 256,
    ((ADXL345_ConvToData_TapThreshold r.val).map fun x =>
      (decide (x.eqFrac (r.val * 625) 10000), ADXL345_ConvToReg_TapThreshold x,
        ADXL345_ConvToReg_FreeFallThreshold x)) =
      some (true, some (Binary32.reduce 24 r.val 0), some r.val) := by
  decide!

set_option maxRecDepth 100000 in
theorem Latent_table : ∀ r : Fin 256,
    ((ADXL345_ConvToData_Latent r.val).map fun x =>
      (decide (x.eqFrac (r.val * 125) 100), ADXL345_ConvToReg_Latent x)) =
      some (true, some (Binary32.reduce 24 r.val 0)) := by
  decide!

set_option maxRecDepth 100000 in
theorem Offset_table : ∀ r : Fin 256,
    ((ADXL345_ConvToData_Offset r.val).map fun x =>
      (decide (x.near (r.val * 156) 10000 23),
        (ADXL345_ConvToReg_Offset x).map fun y =>
          (decide (y.near r.val 1 23),
            decide (y.eqFrac r.val 1 ↔ r.val ∉ [5, 7, 10, 14, 20, 28, 40, 56, 80, 112, 160, 224]),
            decide (y.toUInt8 =
              some (if r.val ∈ [5, 10, 20, 40, 80, 160] then r.val - 1 else r.val))))) =
      some (true, some (true, true, true)) := by
  decide!

set_option maxRecDepth 100000 in
theorem reduce_table : ∀ r : Fin 256,
    Binary32.eqFrac (Binary32.reduce 24 r.val 0) r.val 1 := by
  decide!

theorem TapThreshold_round_trip (r : Fin 256) :
    ∃ x y, ADXL345_ConvToData_TapThreshold r.val = some x ∧
      x.toRat = (r.val : ℚ) * (625 / 10000) ∧
      ADXL345_ConvToReg_TapThreshold x = some y ∧ y.toRat = r.val ∧
      ADXL345_ConvToReg_FreeFallThreshold x = some r.val := by
  have h := TapThreshold_table r
  cases hx : ADXL345_ConvToData_TapThreshold r.val with
  | none => rw [hx] at h; cases h
  | some x =>
    rw [hx] at h
    simp only [Option.map_some', Option.some.injEq, Prod.mk.injEq, decide_eq_true_eq] at h
    refine ⟨x, _, rfl, ?_, h.2.1, ?_, h.2.2⟩
    · rw [(Binary32_eqFrac_iff x _ 10000 (by norm_num)).1 h.1]
      push_cast
      ring
    · rw [(Binary32_eqFrac_iff _ _ 1 Nat.one_pos).1 (reduce_table r)]
      push_cast
      ring

theorem Latent_round_trip (r : Fin 256) :
    ∃ x y, ADXL345_ConvToData_Latent r.val = some x ∧ x.toRat = (r.val : ℚ) * (125 / 100) ∧
      ADXL345_ConvToReg_Latent x = some y ∧ y.toRat = r.val := by
  have h := Latent_table r
  cases hx : ADXL345_ConvToData_Latent r.val with
  | none => rw [hx] at h; cases h
  | some x =>
    rw [hx] at h
    simp only [Option.map_some', Option.some.injEq, Prod.mk.injEq, decide_eq_true_eq] at h
    refine ⟨x, _, rfl, ?_, h.2, ?_⟩
    · rw [(Binary32_eqFrac_iff x _ 100 (by norm_num)).1 h.1]
      push_cast
      ring
    · rw [(Binary32_eqFrac_iff _ _ 1 Nat.one_pos).1 (reduce_table r)]
      push_cast
      ring

theorem Offset_round_trip (r : Fin 256) :
    ∃ x y, ADXL345_ConvToData_Offset r.val = some x ∧
      |x.toRat - (r.val : ℚ) * (156 / 10000)| * 2 ^ 23 ≤ (r.val : ℚ) * (156 / 10000) ∧
      ADXL345_ConvToReg_Offset x = some y ∧
      |y.toRat - (r.val : ℚ)| * 2 ^ 23 ≤ (r.val : ℚ) ∧
      (y.toRat = (r.val : ℚ) ↔ r.val ∉ [5, 7, 10, 14, 20, 28, 40, 56, 80, 112, 160, 224]) ∧
      y.toUInt8 = some (if r.val ∈ [5, 10, 20, 40, 80, 160] then r.val - 1 else r.val) := by
  have h := Offset_table r
  cases hx : ADXL345_ConvToData_Offset r.val with
  | none => rw [hx] at h; cases h
  | some x =>
    rw [hx] at h
    simp only [Option.map_some'] at h
    cases hy : ADXL345_ConvToReg_Offset x with
    | none =>
      rw [hy] at h
      simp only [Option.map_none', Option.some.injEq, Prod.mk.injEq, reduceCtorEq,
        and_false] at h
    | some y =>
      rw [hy] at h
      simp only [Option.map_some', Option.some.injEq, Prod.mk.injEq, decide_eq_true_eq] at h
      have hr0 : (0 : ℚ) ≤ (r.val : ℚ) := Nat.cast_nonneg _
      refine ⟨x, y, rfl, ?_, hy, ?_, ?_, h.2.2.2⟩
      · have h1 := (Binary32_near_iff x _ 10000 23 (by norm_num)).1 h.1
        have e : (((r.val : Int) * 156 : Int) : ℚ) / ((10000 : Nat) : ℚ) =
            (r.val : ℚ) * (156 / 10000) := by
          push_cast
          ring
        rw [e, abs_of_nonneg (mul_nonneg hr0 (by norm_num))] at h1
        exact h1
      · have h1 := (Binary32_near_iff y _ 1 23 Nat.one_pos).1 h.2.1
        have e : (((r.val : Int)) : ℚ) / ((1 : Nat) : ℚ) = (r.val : ℚ) := by
          push_cast
          ring
        rw [e, abs_of_nonneg hr0] at h1
        exact h1
      · rw [← h.2.2.1, Binary32_eqFrac_iff y _ 1 Nat.one_pos]
        have e : (((r.val : Int)) : ℚ) / ((1 : Nat) : ℚ) = (r.val : ℚ) := by
          push_cast
          ring
        rw [e]

/-- Claim C33, counterexample: in binary32 arithmetic the register value 5 converted
by `ADXL345_ConvToData_Offset` and back by `ADXL345_ConvToReg_Offset` is
10485759 / 2 ^ 21 = 4.99999952..., not 5, and its conversion to an integer
register value is 4. -/
theorem C33_offset_round_trip_counterexample :
    ADXL345_ConvToData_Offset 5 = some ⟨5234491, -26⟩ ∧
    ADXL345_ConvToReg_Offset ⟨5234491, -26⟩ = some ⟨10485759, -21⟩ ∧
    Binary32.toRat ⟨10485759, -21⟩ = 5 - 1 / 2097152 ∧
    Binary32.toRat ⟨10485759, -21⟩ ≠ 5 ∧
    Binary32.toUInt8 ⟨10485759, -21⟩ = some 4 := by
  have e : Binary32.toRat ⟨10485759, -21⟩ = 5 - 1 / 2097152 := by
    rw [(Binary32_eqFrac_iff ⟨10485759, -21⟩ 10485759 2097152 (by norm_num)).1 (by decide)]
    norm_num
  refine ⟨by decide, by decide, e, ?_, by decide⟩
  rw [e]
  norm_num

/-- Claim C33, amended. In binary32 arithmetic, for every register value r in
0..255: the pairs with the constant `0.0625f` (TapThreshold, ActivityThreshold,
InactivityThreshold, FreeFallThreshold) and `1.25f` (Latent, Window) give exactly
r times the constant and convert it back to exactly r, FreeFallThreshold to the
integer r; the integer pairs Duration, InactivityTime and FreeFallTime give r
back, with products below 2 ^ 31; the Offset pair gives r times 0.0156 and then r
to within the part 1 / 2 ^ 23 of the value, the value after the round trip is
exactly r except for r in 5, 7, 10, 14, 20, 28, 40, 56, 80, 112, 160, 224, and
its conversion to an integer is r except for r in 5, 10, 20, 40, 80, 160, where
it is r - 1. -/
theorem C33_conversion_round_trip_binary32 (r : Fin 256) :
    (∃ x y, ADXL345_ConvToData_TapThreshold r.val = some x ∧
      x.toRat = (r.val : ℚ) * (625 / 10000) ∧
      ADXL345_ConvToReg_TapThreshold x = some y ∧ y.toRat = r.val) ∧
    (∃ x y, ADXL345_ConvToData_ActivityThreshold r.val = some x ∧
      x.toRat = (r.val : ℚ) * (625 / 10000) ∧
      ADXL345_ConvToReg_ActivityThreshold x = some y ∧ y.toRat = r.val) ∧
    (∃ x y, ADXL345_ConvToData_InactivityThreshold r.val = some x ∧
      x.toRat = (r.val : ℚ) * (625 / 10000) ∧
      ADXL345_ConvToReg_InactivityThreshold x = some y ∧ y.toRat = r.val) ∧
    (∃ x, ADXL345_ConvToData_FreeFallThreshold r.val = some x ∧
      x.toRat = (r.val : ℚ) * (625 / 10000) ∧
      ADXL345_ConvToReg_FreeFallThreshold x = some r.val) ∧
    (∃ x y, ADXL345_ConvToData_Latent r.val = some x ∧ x.toRat = (r.val : ℚ) * (125 / 100) ∧
      ADXL345_ConvToReg_Latent x = some y ∧ y.toRat = r.val) ∧
    (∃ x y, ADXL345_ConvToData_Window r.val = some x ∧ x.toRat = (r.val : ℚ) * (125 / 100) ∧
      ADXL345_ConvToReg_Window x = some y ∧ y.toRat = r.val) ∧
    (ADXL345_ConvToReg_Duration (ADXL345_ConvToData_Duration r.val) = r.val ∧
      ADXL345_ConvToData_Duration r.val < 2 ^ 31) ∧
    ADXL345_ConvToReg_InactivityTime (ADXL345_ConvToData_InactivityTime r.val) = r.val ∧
    (ADXL345_ConvToReg_FreeFallTime (ADXL345_ConvToData_FreeFallTime r.val) = r.val ∧
      ADXL345_ConvToData_FreeFallTime r.val < 2 ^ 31) ∧
    (∃ x y, ADXL345_ConvToData_Offset r.val = some x ∧
      |x.toRat - (r.val : ℚ) * (156 / 10000)| * 2 ^ 23 ≤ (r.val : ℚ) * (156 / 10000) ∧
      ADXL345_ConvToReg_Offset x = some y ∧
      |y.toRat - (r.val : ℚ)| * 2 ^ 23 ≤ (r.val : ℚ) ∧
      (y.toRat = (r.val : ℚ) ↔ r.val ∉ [5, 7, 10, 14, 20, 28, 40, 56, 80, 112, 160, 224]) ∧
      y.toUInt8 = some (if r.val ∈ [5, 10, 20, 40, 80, 160] then r.val - 1 else r.val)) := by
  obtain ⟨x, y, hx, hs, hy, hv, hf⟩ := TapThreshold_round_trip r
  have hr := r.isLt
  refine ⟨⟨x, y, hx, hs, hy, hv⟩, ⟨x, y, hx, hs, hy, hv⟩, ⟨x, y, hx, hs, hy, hv⟩,
    ⟨x, hx, hs, hf⟩, Latent_round_trip r, Latent_round_trip r, ⟨?_, ?_⟩, rfl, ⟨?_, ?_⟩,
    Offset_round_trip r⟩
  · unfold ADXL345_ConvToReg_Duration ADXL345_ConvToData_Duration
    exact Int.mul_tdiv_cancel _ (by norm_num)
  · unfold ADXL345_ConvToData_Duration
    omega
  · unfold ADXL345_ConvToReg_FreeFallTime ADXL345_ConvToData_FreeFallTime
    rw [Int.mul_tdiv_cancel _ (by norm_num)]
    omega
  · unfold ADXL345_ConvToData_FreeFallTime
    omega

/-! ## Lemmas on block writes to the ideal register file -/

theorem writeFrom_pointer_mod (l : List Nat) :
    ∀ (regs : Nat → Nat) (p : Nat),
      SimDevice.writeFrom regs (p % 256) l = SimDevice.writeFrom regs p l := by
  induction l with
  | nil => intro regs p; rfl
  | cons d ds ih =>
    intro regs p
    unfold SimDevice.writeFrom
    have e : (p % 256 + 1) % 256 = (p + 1) % 256 := by omega
    rw [Nat.mod_mod]
    exact (ih _ (p % 256 + 1)).symm.trans (by rw [e]; exact ih _ (p + 1))

theorem writeFrom_append (l1 l2 : List Nat) :
    ∀ (regs : Nat → Nat) (p : Nat),
      SimDevice.writeFrom regs p (l1 ++ l2) =
        SimDevice.writeFrom (SimDevice.writeFrom regs p l1) (p + l1.length) l2 := by
  induction l1 with
  | nil => intro regs p; rfl
  | cons d ds ih =>
    intro regs p
    have e : p + 1 + ds.length = p + (d :: ds).length := by
      simp only [List.length_cons]; omega
    show SimDevice.writeFrom (fun k => if k = p % 256 then d % 256 else regs k) (p + 1)
        (ds ++ l2) =
      SimDevice.writeFrom
        (SimDevice.writeFrom (fun k => if k = p % 256 then d % 256 else regs k) (p + 1) ds)
        (p + (d :: ds).length) l2
    rw [ih, e]

/-- Registers after a block write that does not run past register 255. -/
theorem writeFrom_apply (l : List Nat) :
    ∀ (regs : Nat → Nat) (p k : Nat), p + l.length ≤ 256 →
      SimDevice.writeFrom regs p l k =
        if p ≤ k ∧ k < p + l.length then l.getD (k - p) 0 % 256 else regs k := by
  induction l with
  | nil =>
    intro regs p k _
    have : ¬ (p ≤ k ∧ k < p + ([] : List Nat).length) := by simp
    rw [if_neg this]
    rfl
  | cons d ds ih =>
    intro regs p k h
    simp only [List.length_cons] at h
    unfold SimDevice.writeFrom
    rw [ih _ _ _ (by omega)]
    have hp : p % 256 = p := Nat.mod_eq_of_lt (by omega)
    rw [hp]
    simp only [List.length_cons]
    by_cases c1 : p + 1 ≤ k ∧ k < p + 1 + ds.length
    · have c2 : p ≤ k ∧ k < p + (ds.length + 1) := by omega
      rw [if_pos c1, if_pos c2]
      have e : k - p = (k - (p + 1)) + 1 := by omega
      rw [e, List.getD_cons_succ]
    · rw [if_neg c1]
      by_cases c3 : k = p
      · subst c3
        have c2 : k ≤ k ∧ k < k + (ds.length + 1) := by omega
        rw [if_pos rfl, if_pos c2, Nat.sub_self, List.getD_cons_zero]
      · have c2 : ¬ (p ≤ k ∧ k < p + (ds.length + 1)) := by omega
        rw [if_neg c3, if_neg c2]

theorem range_map_split (f : Nat → Nat) (n m : Nat) (h : m ≤ n) :
    (List.range n).map f =
      (List.range m).map f ++ (List.range (n - m)).map (fun k => f (k + m)) := by
  have e : n = m + (n - m) := by omega
  conv_lhs => rw [e, List.range_add, List.map_append, List.map_map]
  congr 1
  apply List.map_congr_left
  intro k _
  simp only [Function.comp]
  congr 1
  omega

/-- The frames of a block write, sent in order to the ideal device, all succeed
and leave the register file of the one block write. -/
theorem sim_sendUntilFail_writeFrames (n : Nat) :
    ∀ (regs : Nat → Nat) (p start : Nat) (data : Nat → Nat),
      ∃ q, sendUntilFail simHandler (idealDevice regs p) (writeFrames start data n) =
        (ADXL345_OK, idealDevice
          (SimDevice.writeFrom regs start ((List.range n).map (fun j => data j % 256))) q) := by
  induction n using Nat.strong_induction_on with
  | _ n ih =>
    intro regs p start data
    by_cases h0 : n = 0
    · subst h0
      exact ⟨p, by simp [writeFrames_zero, sendUntilFail, SimDevice.writeFrom]⟩
    · have hL1 : 1 ≤ MIN n (9 - 1) := by rw [MIN_eq_min]; omega
      have hLn : MIN n (9 - 1) ≤ n := by rw [MIN_eq_min]; omega
      obtain ⟨q, hq⟩ := ih (n - MIN n (9 - 1)) (by omega)
        (SimDevice.writeFrom regs (start % 256)
          ((List.range (MIN n (9 - 1))).map (fun k => data k % 256)))
        ((start % 256 + ((List.range (MIN n (9 - 1))).map (fun k => data k % 256)).length) % 256)
        (start + MIN n (9 - 1)) (fun k => data (k + MIN n (9 - 1)))
      refine ⟨q, ?_⟩
      rw [writeFrames_pos start data n h0]
      unfold sendUntilFail
      have hs : simHandler.PlatformI2CSend (idealDevice regs p) simHandler.AddressI2C
          ((start % 256) :: (List.range (MIN n (9 - 1))).map (fun k => data k % 256)) =
          (0, idealDevice (SimDevice.writeFrom regs (start % 256)
            ((List.range (MIN n (9 - 1))).map (fun k => data k % 256)))
            ((start % 256 +
              ((List.range (MIN n (9 - 1))).map (fun k => data k % 256)).length) % 256)) :=
        rfl
      rw [hs]
      simp only [ne_eq, not_true_eq_false, if_false]
      rw [hq, range_map_split (fun j => data j % 256) n (MIN n (9 - 1)) hLn, writeFrom_append,
        writeFrom_pointer_mod]
      simp only [List.length_map, List.length_range]

/-! ## Claim on the block write -/

/-- Claim C34. On the ideal register file, whose pointer is set by the first byte
of each frame and moves on by one per data byte, `ADXL345_WriteRegs` of `n ≤ 255`
bytes from register `start` with `start + n ≤ 256` returns OK and leaves
register `(start + i) mod 256` equal to the data byte `i` for every `i < n` and
every other register as it was. -/
theorem C34_write_regs_block_write (regs : Nat → Nat) (p start : Nat) (data : Nat → Nat)
    (n : Nat) (_hn : n ≤ 255) (hsn : start + n ≤ 256) :
    ∃ s : SimDevice,
      ADXL345_WriteRegs simHandler (idealDevice regs p) start data n =
        some (ADXL345_OK, s) ∧
      (∀ i, i < n → s.regs ((start + i) % 256) = data i % 256) ∧
      (∀ k, (∀ i, i < n → k ≠ (start + i) % 256) → s.regs k = regs k) := by
  obtain ⟨q, hq⟩ := sim_sendUntilFail_writeFrames n regs p start data
  refine ⟨_, by rw [WriteRegs_eq, hq], ?_, ?_⟩
  · intro i hi
    have hlen : start + ((List.range n).map (fun j => data j % 256)).length ≤ 256 := by
      simpa using hsn
    have e : (start + i) % 256 = start + i := Nat.mod_eq_of_lt (by omega)
    show SimDevice.writeFrom regs start ((List.range n).map (fun j => data j % 256))
      ((start + i) % 256) = data i % 256
    rw [writeFrom_apply _ _ _ _ hlen, e, if_pos (by simp; omega)]
    simp [List.getD_eq_getElem?_getD, hi]
  · intro k hk
    have hlen : start + ((List.range n).map (fun j => data j % 256)).length ≤ 256 := by
      simpa using hsn
    show SimDevice.writeFrom regs start ((List.range n).map (fun j => data j % 256)) k =
      regs k
    rw [writeFrom_apply _ _ _ _ hlen, if_neg]
    rintro ⟨h1, h2⟩
    simp only [List.length_map, List.length_range] at h2
    exact hk (k - start) (by omega) (by rw [Nat.mod_eq_of_lt (by omega)]; omega)

/-- Witness of C34: twenty bytes 1..20 written from register 0x1E on (three
frames) to the ideal device with all registers 0. -/
theorem C34_write_regs_block_write_witness :
    ∃ s : SimDevice,
      ADXL345_WriteRegs simHandler (idealDevice (regsOf []) 0) 0x1E (fun i => i + 1) 20 =
        some (ADXL345_OK, s) ∧
      (∀ i, i < 20 → s.regs ((0x1E + i) % 256) = (i + 1) % 256) ∧
      (∀ k, (∀ i, i < 20 → k ≠ (0x1E + i) % 256) → s.regs k = regsOf [] k) :=
  C34_write_regs_block_write (regsOf []) 0 0x1E (fun i => i + 1) 20 (by decide) (by decide)

/-! ## Claims on the registers written by the activity setter and on the sample buffer -/

/-- Claim C35. On the ideal register file `ADXL345_Set_ActivityInactivity` returns
OK and writes registers 0x27..0x2A: THRESH_FF (0x28) receives the inactivity
threshold, TIME_FF (0x29) the inactivity time, and every register outside
0x27..0x2A, THRESH_ACT, THRESH_INACT and TIME_INACT among them, is left as it
was; on the device with THRESH_FF = 9, TIME_FF = 8 and TAP_AXES = 0x0F, setting
thresholds 5 and 6, time 7 and InactivityEnableZ leaves 0, 0, 0, 5, 6, 7, 1 in
0x24..0x2A. -/
theorem C35_activity_setter_overwrites_free_fall (regs : Nat → Nat) (p : Nat)
    (ActivityInactivity : ADXL345_ActivityInactivity_t) :
    (∃ s : SimDevice,
      ADXL345_Set_ActivityInactivity simHandler (idealDevice regs p) ActivityInactivity =
        some (ADXL345_OK, s) ∧
      s.regs 0x28 = ActivityInactivity.InactivityThreshold % 256 ∧
      s.regs 0x29 = ActivityInactivity.InactivityTime % 256 ∧
      (∀ k, k < 0x27 ∨ 0x2A < k → s.regs k = regs k)) ∧
    (ADXL345_Set_ActivityInactivity simHandler
      (simDevice [(0x28, 9), (0x29, 8), (0x2A, 0x0F)])
      ⟨5, 6, 7, ⟨true, false, false, false, false, false, false, false⟩⟩).map
        (fun r => (r.1, (List.range 7).map (fun k => r.2.regs (0x24 + k)))) =
      some (ADXL345_OK, [0, 0, 0, 5, 6, 7, 1]) := by
  refine ⟨?_, by decide⟩
  unfold ADXL345_Set_ActivityInactivity
  rw [sim_WriteRegs regs p _ _ 4 (by norm_num) (by norm_num)]
  refine ⟨_, rfl, ?_, ?_, ?_⟩
  · simp [idealDevice, SimDevice.writeFrom, range_four_map, bytesAt,
      ADXL345_REG_ACT_INACT_CTL]
  · simp [idealDevice, SimDevice.writeFrom, range_four_map, bytesAt,
      ADXL345_REG_ACT_INACT_CTL]
  · intro k hk
    have h1 : k ≠ 39 := by omega
    have h2 : k ≠ 40 := by omega
    have h3 : k ≠ 41 := by omega
    have h4 : k ≠ 42 := by omega
    simp [idealDevice, SimDevice.writeFrom, range_four_map, bytesAt,
      ADXL345_REG_ACT_INACT_CTL, h1, h2, h3, h4]

/-- Claim C36. On the ideal device in stream mode with 33 entries reported in
FIFO_STATUS and a capacity of 33 samples, `ADXL345_ReadSamples` returns OK with a
count of 33 after asking the transport to store 198 bytes in its buffer of 192,
and its loop reads the buffer up to index 197: the Z value of the last sample is
built from the byte that register 0xF7 delivered there. With 63 entries reported
and capacity 255 the count is 63, so that the loop reads up to index 377. -/
theorem C36_buffer_overrun :
    (ADXL345_ReadSamples (recording simHandler)
      (simDevice [(0x38, 0x80), (0x39, 33), (0xF7, 0x12)], []) zeroLocals 33).Result =
        ADXL345_OK ∧
    (ADXL345_ReadSamples (recording simHandler)
      (simDevice [(0x38, 0x80), (0x39, 33), (0xF7, 0x12)], []) zeroLocals 33).ReadSamples = 33 ∧
    (ADXL345_ReadSamples (recording simHandler)
      (simDevice [(0x38, 0x80), (0x39, 33), (0xF7, 0x12)], []) zeroLocals 33).world.2 =
      [PlatformEvent.send 0x53 [0x38], PlatformEvent.receive 0x53 1,
        PlatformEvent.send 0x53 [0x31], PlatformEvent.receive 0x53 1,
        PlatformEvent.send 0x53 [0x39], PlatformEvent.receive 0x53 1,
        PlatformEvent.send 0x53 [0x32], PlatformEvent.receive 0x53 198] ∧
    ReadSamples_Buffer_size = 192 ∧ ReadSamples_Buffer_size < 198 ∧
    ReadSamples_Buffer_size ≤ 5 + 6 * 32 ∧
    ((ADXL345_ReadSamples (recording simHandler)
      (simDevice [(0x38, 0x80), (0x39, 33), (0xF7, 0x12)], []) zeroLocals 33).Samples[32]?).map
        (fun s => s.RawZ) = some 0x1200 ∧
    (ADXL345_ReadSamples simHandler (simDevice [(0x38, 0x80), (0x39, 0x3F)])
      zeroLocals 255).Result = ADXL345_OK ∧
    (ADXL345_ReadSamples simHandler (simDevice [(0x38, 0x80), (0x39, 0x3F)])
      zeroLocals 255).ReadSamples = 63 ∧
    (ADXL345_ReadSamples simHandler (simDevice [(0x38, 0x80), (0x39, 0x3F)])
      zeroLocals 255).Samples.length = 63 ∧
    ReadSamples_Buffer_size ≤ 5 + 6 * 62 := by
  refine ⟨by decide, by decide, by decide, by decide, by decide, by decide, ?_, by decide,
    by decide, ?_, by decide⟩
  · set_option maxRecDepth 100000 in decide
  · set_option maxRecDepth 100000 in decide

/-! ## Lemmas on the left-justified branch of the sample loop -/

theorem intAnd_small (v : Int) (c : Nat) (hc : c < 2147483648) :
    intAnd v (c : Int) = ((intBits v &&& c : Nat) : Int) := by
  have e : intBits (c : Int) = c := by unfold intBits; omega
  have hle : intBits v &&& c ≤ c := Nat.and_le_right
  unfold intAnd
  rw [e]
  unfold ofIntBits
  split_ifs <;> omega

theorem intOr_small (a b : Nat) (ha : a < 256) (hb : b < 256) :
    intOr (a : Int) (b : Int) = ((a ||| b : Nat) : Int) ∧ a ||| b < 256 := by
  have ea : intBits (a : Int) = a := by unfold intBits; omega
  have eb : intBits (b : Int) = b := by unfold intBits; omega
  have hlt : a ||| b < 2 ^ 8 := Nat.or_lt_two_pow (by norm_num; exact ha) (by norm_num; exact hb)
  have hlt2 : a ||| b < 256 := by norm_num at hlt; exact hlt
  refine ⟨?_, hlt2⟩
  unfold intOr
  rw [ea, eb]
  unfold ofIntBits
  split_ifs <;> omega

/-- The statement of the `JustifyLeft` branches computes the left-justified pattern,
a value in 0..255. -/
theorem justifyRaw_eq (v : Int) (s : Nat) :
    justifyRaw v s = (leftJustifiedPattern v s : Int) ∧ leftJustifiedPattern v s ≤ 255 := by
  have h1 := intAnd_small v 0x80 (by norm_num)
  have h2 := intAnd_small v 0x7F (by norm_num)
  have ha : intBits v &&& 0x80 ≤ 0x80 := Nat.and_le_right
  have hb0 : intBits v &&& 0x7F ≤ 0x7F := Nat.and_le_right
  have hb : (intBits v &&& 0x7F) >>> s ≤ intBits v &&& 0x7F := by
    rw [Nat.shiftRight_eq_div_pow]
    exact Nat.div_le_self _ _
  have hs : (((intBits v &&& 0x7F : Nat) : Int)) >>> s =
      (((intBits v &&& 0x7F) >>> s : Nat) : Int) := rfl
  obtain ⟨h3, h4⟩ := intOr_small (intBits v &&& 0x80) ((intBits v &&& 0x7F) >>> s)
    (by omega) (by omega)
  unfold justifyRaw leftJustifiedPattern
  push_cast at h1 h2
  rw [h1, h2, hs, h3]
  refine ⟨?_, by omega⟩
  unfold toInt16
  split_ifs <;> omega

theorem body_Raw_justified (DF : ADXL345_DataFormat_t) (B : Nat → Nat) (F : ℚ) (i : Nat)
    (h : DF.JustifyLeft = true) :
    (ADXL345_ReadSamples_body DF B F i).1.RawX =
        justifyRaw (assembleRaw B (1 + i * 6) (0 + i * 6))
          (if DF.FullResolution then 6 - DF.Range.val else 6) ∧
    (ADXL345_ReadSamples_body DF B F i).1.RawY =
        justifyRaw (assembleRaw B (3 + i * 6) (2 + i * 6))
          (if DF.FullResolution then 6 - DF.Range.val else 6) ∧
    (ADXL345_ReadSamples_body DF B F i).1.RawZ =
        justifyRaw (assembleRaw B (5 + i * 6) (4 + i * 6))
          (if DF.FullResolution then 6 - DF.Range.val else 6) := by
  obtain ⟨R, JL, FR⟩ := DF
  dsimp only at h
  subst h
  unfold ADXL345_ReadSamples_body
  cases FR <;> simp

theorem scaleFactor_pos (DF : ADXL345_DataFormat_t) : 0 < scaleFactor DF := by
  obtain ⟨R, JL, FR⟩ := DF
  unfold scaleFactor
  cases FR
  · fin_cases R <;> simp [rangeScale]
  · simp

/-! ## Claim on the raw values in left-justified mode -/

/-- Claim C37. When `ADXL345_ReadSamples` returns OK and the `JustifyLeft` flag of
the data format in effect is set, for every index `i` below the reported count
each raw value of the sample stored at `Samples[i]` is
(v AND 0x80) OR ((v AND 0x7F) >> s) for the assembled 16-bit value `v` of its
byte pair, with s = 6 − Range in full resolution and s = 6 otherwise; each raw
value is in 0..255 and each acceleration is non-negative. -/
theorem C37_left_justified_raw {σ : Type} (H : ADXL345_Handler_t σ) (w : σ)
    (L : ReadSamples_Locals) (SamplesBufferLen i : Nat)
    (hok : (ADXL345_ReadSamples H w L SamplesBufferLen).Result = ADXL345_OK)
    (hjl : (ADXL345_ReadSamples H w L SamplesBufferLen).DataFormat.JustifyLeft = true)
    (hi : i < (ADXL345_ReadSamples H w L SamplesBufferLen).ReadSamples) :
    ∃ s, (ADXL345_ReadSamples H w L SamplesBufferLen).Samples[i]? = some s ∧
      (s.RawX = leftJustifiedPattern
          (assembleRaw (ADXL345_ReadSamples H w L SamplesBufferLen).Buffer (6 * i + 1) (6 * i))
          (if (ADXL345_ReadSamples H w L SamplesBufferLen).DataFormat.FullResolution then
            6 - (ADXL345_ReadSamples H w L SamplesBufferLen).DataFormat.Range.val else 6) ∧
        s.RawY = leftJustifiedPattern
          (assembleRaw (ADXL345_ReadSamples H w L SamplesBufferLen).Buffer (6 * i + 3)
            (6 * i + 2))
          (if (ADXL345_ReadSamples H w L SamplesBufferLen).DataFormat.FullResolution then
            6 - (ADXL345_ReadSamples H w L SamplesBufferLen).DataFormat.Range.val else 6) ∧
        s.RawZ = leftJustifiedPattern
          (assembleRaw (ADXL345_ReadSamples H w L SamplesBufferLen).Buffer (6 * i + 5)
            (6 * i + 4))
          (if (ADXL345_ReadSamples H w L SamplesBufferLen).DataFormat.FullResolution then
            6 - (ADXL345_ReadSamples H w L SamplesBufferLen).DataFormat.Range.val else 6)) ∧
      (0 ≤ s.RawX ∧ s.RawX ≤ 255 ∧ 0 ≤ s.RawY ∧ s.RawY ≤ 255 ∧ 0 ≤ s.RawZ ∧ s.RawZ ≤ 255) ∧
      (0 ≤ s.AccelX ∧ 0 ≤ s.AccelY ∧ 0 ≤ s.AccelZ) := by
  have hget : (ADXL345_ReadSamples H w L SamplesBufferLen).Samples[i]? =
      some (ADXL345_ReadSamples_body (ADXL345_ReadSamples H w L SamplesBufferLen).DataFormat
        (ADXL345_ReadSamples H w L SamplesBufferLen).Buffer 0 (0 + i)).1 := by
    rw [(ReadSamples_Samples H w L SamplesBufferLen).1 hok, loop_getElem?, if_pos hi]
  have hmem := List.mem_iff_getElem?.2 ⟨i, hget⟩
  obtain ⟨ax, ay, az⟩ := Samples_mem_scaled H w L SamplesBufferLen _ hmem
  obtain ⟨hx, hy, hz⟩ := body_Raw_justified _
    (ADXL345_ReadSamples H w L SamplesBufferLen).Buffer 0 (0 + i) hjl
  have e0 : 0 + (0 + i) * 6 = 6 * i := by omega
  have e1 : 1 + (0 + i) * 6 = 6 * i + 1 := by omega
  have e2 : 2 + (0 + i) * 6 = 6 * i + 2 := by omega
  have e3 : 3 + (0 + i) * 6 = 6 * i + 3 := by omega
  have e4 : 4 + (0 + i) * 6 = 6 * i + 4 := by omega
  have e5 : 5 + (0 + i) * 6 = 6 * i + 5 := by omega
  rw [e0, e1, (justifyRaw_eq _ _).1] at hx
  rw [e2, e3, (justifyRaw_eq _ _).1] at hy
  rw [e4, e5, (justifyRaw_eq _ _).1] at hz
  have bx := (justifyRaw_eq
    (assembleRaw (ADXL345_ReadSamples H w L SamplesBufferLen).Buffer (6 * i + 1) (6 * i))
    (if (ADXL345_ReadSamples H w L SamplesBufferLen).DataFormat.FullResolution then
      6 - (ADXL345_ReadSamples H w L SamplesBufferLen).DataFormat.Range.val else 6)).2
  have by1 := (justifyRaw_eq
    (assembleRaw (ADXL345_ReadSamples H w L SamplesBufferLen).Buffer (6 * i + 3) (6 * i + 2))
    (if (ADXL345_ReadSamples H w L SamplesBufferLen).DataFormat.FullResolution then
      6 - (ADXL345_ReadSamples H w L SamplesBufferLen).DataFormat.Range.val else 6)).2
  have bz := (justifyRaw_eq
    (assembleRaw (ADXL345_ReadSamples H w L SamplesBufferLen).Buffer (6 * i + 5) (6 * i + 4))
    (if (ADXL345_ReadSamples H w L SamplesBufferLen).DataFormat.FullResolution then
      6 - (ADXL345_ReadSamples H w L SamplesBufferLen).DataFormat.Range.val else 6)).2
  have hpos := scaleFactor_pos (ADXL345_ReadSamples H w L SamplesBufferLen).DataFormat
  refine ⟨_, hget, ⟨hx, hy, hz⟩, ?_, ?_⟩
  · rw [hx, hy, hz]
    omega
  · rw [ax, ay, az, hx, hy, hz]
    have nn : ∀ n : Nat, (0 : ℚ) ≤ (((n : Nat) : Int) : ℚ) := fun n => by
      exact_mod_cast Nat.zero_le n
    exact ⟨mul_nonneg (nn _) hpos.le, mul_nonneg (nn _) hpos.le, mul_nonneg (nn _) hpos.le⟩

/-- Witness of C37 on the ideal device in bypass mode with DATA_FORMAT = 0x0C (full
resolution, left-justified, range code 0) and the bytes 00 40 C0 FF 00 00 in the
data registers: the sample has the raw values 0, 129 and 0. -/
theorem C37_left_justified_raw_witness :
    ∃ s, (ADXL345_ReadSamples simHandler
        (simDevice [(0x31, 0x0C), (0x33, 0x40), (0x34, 0xC0), (0x35, 0xFF)]) zeroLocals
        1).Samples[0]? = some s ∧
      s.RawX = 0 ∧ s.RawY = 129 ∧ s.RawZ = 0 ∧ 0 ≤ s.AccelY := by
  obtain ⟨s, h, ⟨hx, hy, hz⟩, -, -, hay, -⟩ := C37_left_justified_raw simHandler
    (simDevice [(0x31, 0x0C), (0x33, 0x40), (0x34, 0xC0), (0x35, 0xFF)]) zeroLocals 1 0
    (by decide) (by decide) (by decide)
  exact ⟨s, h, hx.trans (by decide), hy.trans (by decide), hz.trans (by decide), hay⟩

/-! ## Lemmas on `ADXL345_DeInit` -/

/-- The byte `ADXL345_DeInit` writes to POWER_CTL, built from the fields that
`ADXL345_Get_PowerControl` unpacks from the byte `b`, with Sleep set and Measure
cleared. -/
theorem power_byte (b : Fin 256) :
    orIf (orIf (orIf (orIf (0 ||| ((Fin.ofNat (b.val &&& 0x03) : Fin 4).val &&& 0x03))
      true 0x04) false 0x08) (decide (b.val &&& 0x10 ≠ 0)) 0x10)
      (decide (b.val &&& 0x20 ≠ 0)) 0x20 = b.val % 4 + 4 + (b.val / 16 % 4) * 16 ∧
    (b.val % 4 + 4 + (b.val / 16 % 4) * 16) % 4 = b.val % 4 ∧
    (b.val % 4 + 4 + (b.val / 16 % 4) * 16).testBit 2 = true ∧
    (b.val % 4 + 4 + (b.val / 16 % 4) * 16).testBit 3 = false ∧
    (b.val % 4 + 4 + (b.val / 16 % 4) * 16).testBit 4 = b.val.testBit 4 ∧
    (b.val % 4 + 4 + (b.val / 16 % 4) * 16).testBit 5 = b.val.testBit 5 ∧
    (b.val % 4 + 4 + (b.val / 16 % 4) * 16) / 64 = 0 := by
  revert b
  set_option maxRecDepth 100000 in decide

/-- Up to the write of POWER_CTL included, `ADXL345_DeInit` through the recording
handle after a successful read of POWER_CTL. -/
theorem DeInit_recording_after_read {σ : Type} (H : ADXL345_Handler_t σ) (w : σ)
    (PowerControl : ADXL345_PowerControl_t) (B : Nat → Nat) (w1 : σ)
    (hread : ADXL345_ReadRegs H w ADXL345_REG_POWER_CTL (fun _ => 0) 1 = (ADXL345_OK, B, w1)) :
    ADXL345_DeInit (recording H) (w, []) PowerControl =
      if (H.PlatformI2CSend w1 H.AddressI2C
          [0x2D, B 0 % 4 + 4 + (B 0 / 16 % 4) * 16]).1 ≠ 0 then
        some (ADXL345_FAIL,
          (H.PlatformI2CSend w1 H.AddressI2C [0x2D, B 0 % 4 + 4 + (B 0 / 16 % 4) * 16]).2,
          [PlatformEvent.send H.AddressI2C [0x2D], PlatformEvent.receive H.AddressI2C 1,
            PlatformEvent.send H.AddressI2C [0x2D, B 0 % 4 + 4 + (B 0 / 16 % 4) * 16]])
      else
        some (if (H.PlatformI2CDeInit (H.PlatformI2CSend w1 H.AddressI2C
              [0x2D, B 0 % 4 + 4 + (B 0 / 16 % 4) * 16]).2).1 ≠ 0
            then ADXL345_FAIL else ADXL345_OK,
          (H.PlatformI2CDeInit (H.PlatformI2CSend w1 H.AddressI2C
            [0x2D, B 0 % 4 + 4 + (B 0 / 16 % 4) * 16]).2).2,
          [PlatformEvent.send H.AddressI2C [0x2D], PlatformEvent.receive H.AddressI2C 1,
            PlatformEvent.send H.AddressI2C [0x2D, B 0 % 4 + 4 + (B 0 / 16 % 4) * 16],
            PlatformEvent.deinit]) := by
  have hB : B 0 < 256 := by
    have := ReadRegs_byte_lt H w ADXL345_REG_POWER_CTL 1 0
    rw [hread] at this
    exact this
  obtain ⟨hb, -, -, -, -, -, h64⟩ := power_byte ⟨B 0, hB⟩
  dsimp only at hb h64
  have hlt : B 0 % 4 + 4 + (B 0 / 16 % 4) * 16 < 256 := by omega
  unfold ADXL345_DeInit ADXL345_Get_PowerControl
  rw [ReadRegs_recording_ok H (w, []) _ _ _ B w1 hread]
  simp only [ne_eq, not_true_eq_false, if_false]
  unfold ADXL345_Set_PowerControl
  rw [WriteRegs_small (recording H) _ _ _ 1 (by norm_num) (by norm_num)]
  simp only [range_one_map, bytesAt, List.getD_cons_zero, hb, ADXL345_REG_POWER_CTL,
    Nat.mod_eq_of_lt hlt, Option.some_bind]
  by_cases hs : (H.PlatformI2CSend w1 H.AddressI2C
      [0x2D, B 0 % 4 + 4 + (B 0 / 16 % 4) * 16]).1 = 0
  · simp [recording, hs]
    split_ifs <;> rfl
  · simp [recording, hs]

/-! ## Claim on `ADXL345_DeInit` -/

/-- Claim C39. When the read of POWER_CTL fails, `ADXL345_DeInit` returns FAIL and
the transport deinit is not called. When the read succeeds with the byte `B 0`,
the byte written to POWER_CTL has Sleep (bit 2) set, Measure (bit 3) clear,
Wakeup (bits 0..1), AutoSleep (bit 4) and Link (bit 5) as in `B 0` and bits 6..7
zero; when its send fails the function returns FAIL and the transport deinit is
not called; when its send succeeds the transport deinit is called once, as the
last call, and the function returns OK when that call returns 0. -/
theorem C39_deinit_sequence {σ : Type} (H : ADXL345_Handler_t σ) (w : σ)
    (PowerControl : ADXL345_PowerControl_t) :
    ((ADXL345_ReadRegs H w ADXL345_REG_POWER_CTL (fun _ => 0) 1).1 ≠ ADXL345_OK →
      ∃ r, ADXL345_DeInit (recording H) (w, []) PowerControl = some r ∧
        r.1 = ADXL345_FAIL ∧ PlatformEvent.deinit ∉ r.2.2) ∧
    (∀ (B : Nat → Nat) (w1 : σ),
      ADXL345_ReadRegs H w ADXL345_REG_POWER_CTL (fun _ => 0) 1 = (ADXL345_OK, B, w1) →
      ∃ byte : Nat,
        (byte % 4 = B 0 % 4 ∧ byte.testBit 2 = true ∧ byte.testBit 3 = false ∧
          byte.testBit 4 = (B 0).testBit 4 ∧ byte.testBit 5 = (B 0).testBit 5 ∧
          byte / 64 = 0) ∧
        ((H.PlatformI2CSend w1 H.AddressI2C [0x2D, byte]).1 ≠ 0 →
          (ADXL345_DeInit (recording H) (w, []) PowerControl).map (fun r => (r.1, r.2.2)) =
            some (ADXL345_FAIL,
              [PlatformEvent.send H.AddressI2C [0x2D], PlatformEvent.receive H.AddressI2C 1,
                PlatformEvent.send H.AddressI2C [0x2D, byte]])) ∧
        ((H.PlatformI2CSend w1 H.AddressI2C [0x2D, byte]).1 = 0 →
          (ADXL345_DeInit (recording H) (w, []) PowerControl).map (fun r => (r.1, r.2.2)) =
            some (if (H.PlatformI2CDeInit
                  (H.PlatformI2CSend w1 H.AddressI2C [0x2D, byte]).2).1 ≠ 0
                then ADXL345_FAIL else ADXL345_OK,
              [PlatformEvent.send H.AddressI2C [0x2D], PlatformEvent.receive H.AddressI2C 1,
                PlatformEvent.send H.AddressI2C [0x2D, byte], PlatformEvent.deinit]))) := by
  constructor
  · intro hfail
    obtain ⟨r1, -, r3⟩ := ReadRegs_recording_eq H (w, []) ADXL345_REG_POWER_CTL (fun _ => 0) 1
    have hf : (ADXL345_ReadRegs (recording H) (w, []) ADXL345_REG_POWER_CTL
        (fun _ => 0) 1).1 ≠ ADXL345_OK := by rw [r1]; exact hfail
    refine ⟨(ADXL345_FAIL, (ADXL345_ReadRegs (recording H) (w, []) ADXL345_REG_POWER_CTL
      (fun _ => 0) 1).2.2), ?_, rfl, ?_⟩
    · unfold ADXL345_DeInit ADXL345_Get_PowerControl
      simp only [hf, ne_eq, not_false_eq_true, if_true]
      rw [if_pos (by decide)]
    · rcases ReadRegs_recording H (w, []) ADXL345_REG_POWER_CTL (fun _ => 0) 1 with
        ⟨h, -⟩ | h
      · rw [h]; simp
      · rw [h]; simp
  · intro B w1 hread
    have hB : B 0 < 256 := by
      have := ReadRegs_byte_lt H w ADXL345_REG_POWER_CTL 1 0
      rw [hread] at this
      exact this
    obtain ⟨-, h4, h2, h3, hAS, hLK, h64⟩ := power_byte ⟨B 0, hB⟩
    dsimp only at h4 h2 h3 hAS hLK h64
    refine ⟨B 0 % 4 + 4 + (B 0 / 16 % 4) * 16, ⟨h4, h2, h3, hAS, hLK, h64⟩, ?_, ?_⟩
    · intro hs
      rw [DeInit_recording_after_read H w PowerControl B w1 hread, if_pos hs]
      rfl
    · intro hs
      rw [DeInit_recording_after_read H w PowerControl B w1 hread,
        if_neg (by rw [hs]; simp)]
      rfl

/-- Witness of C39 on the ideal device: with POWER_CTL = 0x3A (Link, AutoSleep and
Measure set, Wakeup 2) the byte written has Wakeup 2, Sleep, AutoSleep and Link
set and Measure clear (0x36), and the transport deinit is called last; when the
address send of the read fails, and when the send of the write fails, the
function returns FAIL and the transport deinit is not called. -/
theorem C39_deinit_sequence_witness :
    (∃ byte : Nat,
      (byte % 4 = 2 ∧ byte.testBit 2 = true ∧ byte.testBit 3 = false ∧
        byte.testBit 4 = true ∧ byte.testBit 5 = true ∧ byte / 64 = 0) ∧
      (ADXL345_DeInit (recording simHandler) (simDevice [(0x2D, 0x3A)], [])
        ⟨0, false, false, false, false⟩).map (fun r => (r.1, r.2.2)) =
        some (ADXL345_OK,
          [PlatformEvent.send 0x53 [0x2D], PlatformEvent.receive 0x53 1,
            PlatformEvent.send 0x53 [0x2D, byte], PlatformEvent.deinit])) ∧
    (∃ r, ADXL345_DeInit (recording simHandler) (⟨regsOf [(0x2D, 0x3A)], 0, [1], []⟩, [])
        ⟨0, false, false, false, false⟩ = some r ∧
      r.1 = ADXL345_FAIL ∧ PlatformEvent.deinit ∉ r.2.2) ∧
    (∃ byte : Nat,
      (ADXL345_DeInit (recording simHandler) (⟨regsOf [(0x2D, 0x3A)], 0, [0, 1], []⟩, [])
        ⟨0, false, false, false, false⟩).map (fun r => (r.1, r.2.2)) =
        some (ADXL345_FAIL,
          [PlatformEvent.send 0x53 [0x2D], PlatformEvent.receive 0x53 1,
            PlatformEvent.send 0x53 [0x2D, byte]])) := by
  refine ⟨?_, ?_, ?_⟩
  · obtain ⟨byte, ⟨h4, h2, h3, hAS, hLK, h64⟩, -, hok⟩ :=
      (C39_deinit_sequence simHandler (simDevice [(0x2D, 0x3A)])
        ⟨0, false, false, false, false⟩).2
        (ADXL345_ReadRegs simHandler (simDevice [(0x2D, 0x3A)]) ADXL345_REG_POWER_CTL
          (fun _ => 0) 1).2.1
        (ADXL345_ReadRegs simHandler (simDevice [(0x2D, 0x3A)]) ADXL345_REG_POWER_CTL
          (fun _ => 0) 1).2.2 rfl
    exact ⟨byte, ⟨h4.trans (by decide), h2, h3, hAS.trans (by decide),
      hLK.trans (by decide), h64⟩, hok rfl⟩
  · exact (C39_deinit_sequence simHandler ⟨regsOf [(0x2D, 0x3A)], 0, [1], []⟩
      ⟨0, false, false, false, false⟩).1 (by decide)
  · obtain ⟨byte, -, hfail, -⟩ :=
      (C39_deinit_sequence simHandler ⟨regsOf [(0x2D, 0x3A)], 0, [0, 1], []⟩
        ⟨0, false, false, false, false⟩).2
        (ADXL345_ReadRegs simHandler ⟨regsOf [(0x2D, 0x3A)], 0, [0, 1], []⟩
          ADXL345_REG_POWER_CTL (fun _ => 0) 1).2.1
        (ADXL345_ReadRegs simHandler ⟨regsOf [(0x2D, 0x3A)], 0, [0, 1], []⟩
          ADXL345_REG_POWER_CTL (fun _ => 0) 1).2.2 rfl
    have hs : (simHandler.PlatformI2CSend
        (ADXL345_ReadRegs simHandler ⟨regsOf [(0x2D, 0x3A)], 0, [0, 1], []⟩
          ADXL345_REG_POWER_CTL (fun _ => 0) 1).2.2 simHandler.AddressI2C [0x2D, byte]).1 ≠ 0 := by
      show (1 : Int) ≠ 0
      decide
    exact ⟨byte, hfail hs⟩

end ADXL345
